import Mathlib

/-!
# Thorlabs WFS sample application (`src/Example/sample.c`)

A shallow embedding of the sample program.  The program is sequential glue code around an
external instrument driver, the console, the keyboard and one output file.  The embedding
runs the program against a stand-in for these collaborators and records every interaction
in a trace:

* `Env` is the stand-in: it answers every driver call and every read from the user;
* `St` is the program state together with the trace and the content of the output file;
* `Prog` is explicit state passing with two ways of stopping: `exit(code)` and running out
  of loop fuel (the `do ... while` loop of the logging mode has no bound).

Modelling decisions:

* Floating-point data is never computed with by the program, it is only moved from the driver
  to `printf`; the type of floating-point values is the parameter `F`.
* `int` values are mathematical integers: the only arithmetic of the program is counting loop
  rounds and `getchar() - '0'`, which cannot overflow.  The one place where a number of any
  size can enter the program is `atoi` on the line typed by the user; `atoi` brings it into the
  range of a 32-bit `int` the way the C library does.
* `printf` and `fprintf` are recorded with their format string and arguments; the text that
  the C library makes of them is not modelled.  The output file is the list of its `fprintf`
  records, and `fopen(..., "w")` empties it.
* The stand-in answers a driver call from the function called, the number of earlier calls of
  that function, and the arguments passed by value.  A reply holds the complete content of
  every out-parameter after the call.
* The answers of the user side are the values that the library calls hand back: for
  `getchar` a character or `EOF`, for `fgets` the content of the buffer `strg` after the
  call, which holds at most `WFS_BUFFER_SIZE - 1` characters of the line typed.
* The constants of `wfs.h`, `visatype.h` and `userint.h` are parameters (`Consts`).
* `main` is cut into its consecutive parts (`open_session`, `configure`, `acquire`, ...); each
  part names the lines of `sample.c` it embeds, and `main` runs them in the order of the source.
-/

namespace WFS

/-! ## Driver boundary -/

/-- Driver functions (declared in `wfs.h`) that the sample program calls. -/
inductive Call
  | WFS_revision_query
  | WFS_GetInstrumentListLen
  | WFS_GetInstrumentListInfo
  | WFS_init
  | WFS_GetInstrumentInfo
  | WFS_GetMlaCount
  | WFS_GetMlaData
  | WFS_SelectMla
  | WFS_ConfigureCam
  | WFS_SetReferencePlane
  | WFS_SetPupil
  | WFS_TakeSpotfieldImageAutoExpos
  | WFS_GetStatus
  | WFS_GetSpotfieldImage
  | WFS_CalcSpotsCentrDiaIntens
  | WFS_GetSpotCentroids
  | WFS_CalcBeamCentroidDia
  | WFS_CalcSpotToReferenceDeviations
  | WFS_GetSpotDeviations
  | WFS_CalcWavefront
  | WFS_CalcWavefrontStatistics
  | WFS_ZernikeLsf
  | WFS_SetHighspeedMode
  | WFS_GetHighspeedWindows
  | WFS_error_message
  | WFS_close
  deriving DecidableEq, Repr

/-- An argument value: passed by value to a driver call, or printed by `printf`/`fprintf`. -/
inductive Arg (F : Type)
  | int (v : Int)
  | flt (v : F)
  | lit (q : Rat)
  | str (v : String)
  deriving DecidableEq

/-- What a driver call hands back: the status code it returns and the values it stores
through its out-parameters, numbered per kind in argument order. -/
structure Reply (F : Type) where
  err : Int
  int : Nat → Int
  flt : Nat → F
  str : Nat → String
  grid : Nat → Nat → Nat → F
  vec : Nat → Nat → F
  ivec : Nat → Nat → Int

/-- Stand-in for everything outside the program.  `drv c n args` answers the call of driver
function `c` that was preceded by `n` earlier calls of `c`; the user side answers the `n`-th
`getchar`, `fgets`, `KeyHit`, `GetKey` and `fopen`. -/
structure Env (F : Type) where
  drv : Call → Nat → List (Arg F) → Reply F
  getchar : Nat → Int
  fgets : Nat → String
  keyHit : Nat → Int
  getKey : Nat → Int
  fopen : Nat → Bool

/-- One observable interaction of the program. -/
inductive Event (F : Type)
  | call (c : Call) (args : List (Arg F))
  | printf (fmt : String) (args : List (Arg F))
  | fflush
  | getchar (r : Int)
  | fgets (line : String)
  | keyHit (r : Int)
  | getKey (r : Int)
  | fopen (ok : Bool)
  | fprintf (fmt : String) (args : List (Arg F))
  | fclose
  deriving DecidableEq

/-- One `fprintf` record of the output file: format string and arguments. -/
abbrev Line (F : Type) := String × List (Arg F)

/-- Program state: the interaction history, the output file, and the variables whose value
is carried from one statement to a later one (`instr.*` of the global record, and
`resourceName` of `main`). -/
structure St (F : Type) where
  trace : List (Event F)
  file : Option (List (Line F))
  selected_id : Int
  handle : Int
  status : Int
  mla_cnt : Int
  selected_mla : Int
  spots_x : Int
  spots_y : Int
  resourceName : String

/-- How a run of a piece of the program ends. -/
inductive Res (F : Type) (α : Type)
  | ok (a : α) (s : St F)
  | exit (code : Int) (s : St F)
  | spin (s : St F)

/-- A piece of the program: explicit state passing. -/
def Prog (F : Type) (α : Type) : Type := St F → Res F α

namespace Prog

variable {F : Type} {α β : Type}

/-- Normal completion with a value. -/
def ret (a : α) : Prog F α := fun s => Res.ok a s

/-- Sequencing: the second piece runs only when the first completes normally. -/
def seq (p : Prog F α) (k : α → Prog F β) : Prog F β := fun s =>
  match p s with
  | Res.ok a s1 => k a s1
  | Res.exit c s1 => Res.exit c s1
  | Res.spin s1 => Res.spin s1

instance : Monad (Prog F) where
  pure := ret
  bind := seq

end Prog

section Primitives

variable {F : Type}

/-- The driver function of a call event. -/
def Event.callOf : Event F → Option Call
  | Event.call c _ => some c
  | _ => none

/-- The driver functions called so far, oldest first. -/
def calls (t : List (Event F)) : List Call := t.filterMap Event.callOf

/-- Number of calls of driver function `c` in a trace. -/
def callCount (c : Call) (t : List (Event F)) : Nat := (calls t).count c

/-- Is the event a `getchar`? -/
def Event.isGetchar : Event F → Bool
  | Event.getchar _ => true
  | _ => false

/-- Is the event an `fgets`? -/
def Event.isFgets : Event F → Bool
  | Event.fgets _ => true
  | _ => false

/-- Is the event a `KeyHit`? -/
def Event.isKeyHit : Event F → Bool
  | Event.keyHit _ => true
  | _ => false

/-- Is the event a `GetKey`? -/
def Event.isGetKey : Event F → Bool
  | Event.getKey _ => true
  | _ => false

/-- Is the event an `fopen`? -/
def Event.isFopen : Event F → Bool
  | Event.fopen _ => true
  | _ => false

/-- Append one event to the history. -/
def emit (e : Event F) : Prog F Unit := fun s =>
  Res.ok () { s with trace := s.trace ++ [e] }

/-- Read the state. -/
def getSt : Prog F (St F) := fun s => Res.ok s s

/-- Change the variables of the state. -/
def modSt (f : St F → St F) : Prog F Unit := fun s => Res.ok () (f s)

/-- The library call `exit(code)`. -/
def exit (code : Int) : Prog F Unit := fun s => Res.exit code s

/-- Loop fuel exhausted: the loop is still running. -/
def spin : Prog F Unit := fun s => Res.spin s

/-- An out-parameter store that touches no variable of the state. -/
def keep : Reply F → St F → St F := fun _ s => s

/-- A driver call: recorded in the history and answered by the stand-in; `store` puts the
values of the out-parameters into the variables they point to. -/
def call (E : Env F) (c : Call) (args : List (Arg F)) (store : Reply F → St F → St F) :
    Prog F (Reply F) := fun s =>
  let r := E.drv c (callCount c s.trace) args
  Res.ok r (store r { s with trace := s.trace ++ [Event.call c args] })

/-- The library call `printf(fmt, args...)`. -/
def printf (fmt : String) (args : List (Arg F)) : Prog F Unit := emit (Event.printf fmt args)

/-- The library call `fflush(stdin)`. -/
def fflush : Prog F Unit := emit Event.fflush

/-- The library call `getchar()`. -/
def getchar (E : Env F) : Prog F Int := fun s =>
  let r := E.getchar (s.trace.countP Event.isGetchar)
  Res.ok r { s with trace := s.trace ++ [Event.getchar r] }

/-- The library call `fgets(strg, WFS_BUFFER_SIZE, stdin)`: the line that was read. -/
def fgets (E : Env F) : Prog F String := fun s =>
  let r := E.fgets (s.trace.countP Event.isFgets)
  Res.ok r { s with trace := s.trace ++ [Event.fgets r] }

/-- The CVI call `KeyHit()`. -/
def KeyHit (E : Env F) : Prog F Int := fun s =>
  let r := E.keyHit (s.trace.countP Event.isKeyHit)
  Res.ok r { s with trace := s.trace ++ [Event.keyHit r] }

/-- The CVI call `GetKey()`. -/
def GetKey (E : Env F) : Prog F Int := fun s =>
  let r := E.getKey (s.trace.countP Event.isGetKey)
  Res.ok r { s with trace := s.trace ++ [Event.getKey r] }

/-- The library call `fopen(SAMPLE_OUTPUT_FILE_NAME, "w")`: whether a stream was obtained.
Opening for writing truncates the file to zero length. -/
def fopen (E : Env F) : Prog F Bool := fun s =>
  let r := E.fopen (s.trace.countP Event.isFopen)
  Res.ok r { s with trace := s.trace ++ [Event.fopen r],
                    file := if r then some [] else s.file }

/-- The library call `fprintf(fp, fmt, args...)` on the open output file. -/
def fprintf (fmt : String) (args : List (Arg F)) : Prog F Unit := fun s =>
  Res.ok () { s with trace := s.trace ++ [Event.fprintf fmt args],
                     file := some (s.file.getD [] ++ [(fmt, args)]) }

/-- The library call `fclose(fp)`. -/
def fclose : Prog F Unit := emit Event.fclose

/-- Function `handle_errors` (sample.c 634-654). -/
def handle_errors (E : Env F) (err : Int) : Prog F Unit :=
  if err = 0 then pure ()
  else do
    let s ← getSt
    let r ← call E Call.WFS_error_message [Arg.int s.handle, Arg.int err] keep
    let buf := r.str 0
    if err < 0 then do
      printf "\nWavefront Sensor Error: %s\n" [Arg.str buf]
      printf "\nSample program will be closed because of the occured error, press <ENTER>." []
      let _ ← call E Call.WFS_close [Arg.int s.handle] keep
      fflush
      let _ ← getchar E
      exit 1
    else pure ()

/-- The idiom `if(err = WFS_xxx(...)) handle_errors(err);`.  The reply is handed back, its
`err` field is the new value of the variable `err`. -/
def check (E : Env F) (c : Call) (args : List (Arg F)) (store : Reply F → St F → St F) :
    Prog F (Reply F) := do
  let r ← call E c args store
  if r.err ≠ 0 then handle_errors E r.err
  pure r

/-- The loop `for(i = 0; i < n; i++) body`, started at index `i` with `n - i` rounds to go.
The body answers `true` when it leaves the loop with `break`. -/
def forLoop (body : Nat → Prog F Bool) : Nat → Nat → Prog F Unit
  | 0, _ => pure ()
  | n + 1, i => do
      let brk ← body i
      if brk then pure () else forLoop body n (i + 1)

end Primitives

/-! ## Constants -/

/-- Constants that the headers `wfs.h`, `visatype.h` and `userint.h` define.  The headers
belong to the driver and the CVI runtime, so the values are parameters. -/
structure Consts where
  WFS_STATBIT_PTH : Int
  WFS_STATBIT_PTL : Int
  WFS_STATBIT_HAL : Int
  PIXEL_FORMAT_MONO8 : Int
  CAM_RES_768 : Int
  CAM_RES_WFS10_360 : Int
  CAM_RES_WFS20_512 : Int
  WFS_REF_INTERNAL : Int
  WAVEFRONT_MEAS : Int
  VI_NULL : Int
  VI_FALSE : Int
  VAL_ESC_VKEY : Int

/-- Device ids of WFS10 instruments start at 256 (sample.c 61). -/
def DEVICE_OFFSET_WFS10 : Int := 0x00100

/-- Device ids of WFS20 instruments start at 512 (sample.c 62). -/
def DEVICE_OFFSET_WFS20 : Int := 0x00200

/-- Option value "off" (sample.c 65). -/
def OPTION_OFF : Int := 0

/-- Option value "on" (sample.c 66). -/
def OPTION_ON : Int := 1

/-- Pupil centre x in mm (sample.c 74). -/
def SAMPLE_PUPIL_CENTROID_X : Rat := 0

/-- Pupil centre y in mm (sample.c 75). -/
def SAMPLE_PUPIL_CENTROID_Y : Rat := 0

/-- Pupil diameter x in mm (sample.c 76). -/
def SAMPLE_PUPIL_DIAMETER_X : Rat := 2

/-- Pupil diameter y in mm (sample.c 77). -/
def SAMPLE_PUPIL_DIAMETER_Y : Rat := 2

/-- Trials to read an exposed spotfield image (sample.c 79). -/
def SAMPLE_IMAGE_READINGS : Nat := 10

/-- Dynamic noise cut option (sample.c 81). -/
def SAMPLE_OPTION_DYN_NOISE_CUT : Int := OPTION_ON

/-- Spot diameter option (sample.c 82). -/
def SAMPLE_OPTION_CALC_SPOT_DIAS : Int := OPTION_OFF

/-- Tilt cancelling option (sample.c 83). -/
def SAMPLE_OPTION_CANCEL_TILT : Int := OPTION_ON

/-- Pupil limiting option (sample.c 84). -/
def SAMPLE_OPTION_LIMIT_TO_PUPIL : Int := OPTION_OFF

/-- Highspeed option (sample.c 86). -/
def SAMPLE_OPTION_HIGHSPEED : Int := OPTION_ON

/-- Centroid adaption in highspeed mode (sample.c 87). -/
def SAMPLE_OPTION_HS_ADAPT_CENTR : Int := OPTION_ON

/-- Noise level in highspeed mode (sample.c 88). -/
def SAMPLE_HS_NOISE_LEVEL : Int := 30

/-- Auto exposure in highspeed mode (sample.c 89). -/
def SAMPLE_HS_ALLOW_AUTOEXPOS : Int := 1

/-- Highest Zernike order of the fit (sample.c 93). -/
def SAMPLE_ZERNIKE_ORDERS : Nat := 3

/-- Results are printed for the first 5 x 5 spots (sample.c 95). -/
def SAMPLE_PRINTOUT_SPOTS : Nat := 5

/-- Name of the output file (sample.c 97). -/
def SAMPLE_OUTPUT_FILE_NAME : String := "WFS_sample_output.txt"

/-- Table `cam_wfs_xpixel` (sample.c 145). -/
def cam_wfs_xpixel : List Int := [1280, 1024, 768, 512, 320]

/-- Table `cam_wfs_ypixel` (sample.c 146). -/
def cam_wfs_ypixel : List Int := [1024, 1024, 768, 512, 320]

/-- Table `cam_wfs10_xpixel` (sample.c 147). -/
def cam_wfs10_xpixel : List Int := [640, 480, 360, 260, 180]

/-- Table `cam_wfs10_ypixel` (sample.c 148). -/
def cam_wfs10_ypixel : List Int := [480, 480, 360, 260, 180]

/-- Table `cam_wfs20_xpixel` (sample.c 149). -/
def cam_wfs20_xpixel : List Int := [1440, 1080, 768, 512, 360, 720, 540, 384, 256, 180]

/-- Table `cam_wfs20_ypixel` (sample.c 150). -/
def cam_wfs20_ypixel : List Int := [1080, 1080, 768, 512, 360, 540, 540, 384, 256, 180]

/-- Table `zernike_modes`: converts Zernike order to Zernike modes (sample.c 152). -/
def zernike_modes : List Int := [1, 3, 6, 10, 15, 21, 28, 36, 45, 55, 66]

/-- Read of a constant table at an index; an index outside the table (undefined in C)
reads 0. -/
def tableAt (t : List Int) (i : Int) : Int := t.getD i.toNat 0

/-- The C test `x & mask` used as a condition: some bit of `mask` is set in `x`. -/
def bitSet (x mask : Int) : Bool := decide (Int.land x mask ≠ 0)

/-! ## C library: `atoi` -/

/-- The C classification `isspace` in the "C" locale. -/
def isspace (c : Char) : Bool :=
  c.toNat = 32 || (9 ≤ c.toNat && c.toNat ≤ 13)

/-- Value of the longest digit prefix, continuing from the accumulator. -/
def atoiDigits : List Char → Int → Int
  | [], acc => acc
  | c :: cs, acc =>
      if 48 ≤ c.toNat ∧ c.toNat ≤ 57 then atoiDigits cs (acc * 10 + ((c.toNat : Int) - 48)) else acc

/-- The number that a line denotes for `strtol(strg, NULL, 10)`: leading white space, an
optional sign, then the longest run of decimal digits; 0 when there is no digit. -/
def atoiValue (strg : String) : Int :=
  match strg.toList.dropWhile isspace with
  | [] => 0
  | c :: cs =>
      if c.toNat = 45 then - atoiDigits cs 0
      else if c.toNat = 43 then atoiDigits cs 0
      else atoiDigits (c :: cs) 0

/-- Largest value of a `long` of 64 bits. -/
def LONG_MAX : Int := 9223372036854775807

/-- Smallest value of a `long` of 64 bits. -/
def LONG_MIN : Int := -9223372036854775808

/-- The conversion `(int) x` of a `long` to an `int` of 32 bits: the low 32 bits of `x`, read as
a two's complement number. -/
def toInt32 (x : Int) : Int := (x + 2147483648) % 4294967296 - 2147483648

/-- The C library function `atoi`, which is `(int) strtol(strg, NULL, 10)`: `strtol` hands
back the number that the line denotes, or `LONG_MAX` or `LONG_MIN` when that number is beyond
the range of `long`, and the conversion to `int` keeps the low 32 bits.  For a number in the
range of `int` the result is the number; the line "4294967296" gives 0. -/
def atoi (strg : String) : Int :=
  toInt32 (max LONG_MIN (min LONG_MAX (atoiValue strg)))

/-! ## The program -/

section Program

variable {F : Type}

/-- Body of the listing loop of `select_instrument`, sample.c 683-689. -/
def list_instrument_body (K : Consts) (E : Env F) (i : Nat) : Prog F Bool := do
  let q ← check E Call.WFS_GetInstrumentListInfo [Arg.int K.VI_NULL, Arg.int i]
    (fun q s => { s with resourceName := q.str 2 })
  printf "%3d   %s    %s    %s\n"
    [Arg.int (q.int 0), Arg.str (q.str 0), Arg.str (q.str 1),
     Arg.str (if q.int 1 = 0 then "" else "(inUse)")]
  pure false

/-- Body of the resource-name loop of `select_instrument`, sample.c 699-706; it answers
`true` when the loop is left because `device_id == *selection`. -/
def find_resource_body (K : Consts) (E : Env F) (i : Nat) : Prog F Bool := do
  let q ← check E Call.WFS_GetInstrumentListInfo [Arg.int K.VI_NULL, Arg.int i]
    (fun q s => { s with resourceName := q.str 2 })
  let s ← getSt
  pure (decide (q.int 0 = s.selected_id))

/-- Function `select_instrument` (sample.c 661-709).  `selection` points to
`instr.selected_id`; `resourceName` is the caller's buffer. -/
def select_instrument (K : Consts) (E : Env F) : Prog F Int := do
  let r ← check E Call.WFS_GetInstrumentListLen [Arg.int K.VI_NULL] keep
  let instr_cnt := r.int 0
  if instr_cnt = 0 then do
    printf "No Wavefront Sensor instrument found!\n" []
    pure 0
  else do
    printf "Available Wavefront Sensor instruments:\n\n" []
    forLoop (list_instrument_body K E) instr_cnt.toNat 0
    printf "\nSelect a Wavefront Sensor instrument: " []
    fflush
    let strg ← fgets E
    modSt (fun s => { s with selected_id := atoi strg })
    forLoop (find_resource_body K E) instr_cnt.toNat 0
    let s ← getSt
    pure s.selected_id

/-- Body of the listing loop of `select_mla`, sample.c 725-731.  The status of
`WFS_GetMlaData` is tested but not stored: `handle_errors` gets `err`, the status of the
earlier `WFS_GetMlaCount`. -/
def list_mla_body (E : Env F) (err : Int) (i : Nat) : Prog F Bool := do
  let s ← getSt
  let q ← call E Call.WFS_GetMlaData [Arg.int s.handle, Arg.int i] keep
  if q.err ≠ 0 then handle_errors E err
  printf "%2d  %s   CamPitch=%6.3f LensletPitch=%8.3f\n"
    [Arg.int i, Arg.str (q.str 0), Arg.flt (q.flt 0), Arg.flt (q.flt 1)]
  pure false

/-- Function `select_mla` (sample.c 715-741).  `selection` points to `instr.selected_mla`. -/
def select_mla (E : Env F) : Prog F Int := do
  let h ← getSt
  let r ← check E Call.WFS_GetMlaCount [Arg.int h.handle]
    (fun r s => { s with mla_cnt := r.int 0 })
  let err := r.err
  printf "\nAvailable Microlens Arrays:\n\n" []
  let s ← getSt
  forLoop (list_mla_body E err) s.mla_cnt.toNat 0
  printf "\nSelect a Microlens Array: " []
  fflush
  let c ← getchar E
  modSt (fun s => { s with selected_mla := c - 48 })
  let s ← getSt
  if s.selected_mla < -1 then modSt (fun s => { s with selected_mla := -1 })
  let s ← getSt
  pure s.selected_mla

/-- The printout loops of a result grid (sample.c 361-366, 369-374, 407-412, 415-420,
433-438, 599-604, 607-612): `for i, for j: printf(" %8.3f", a[i][j]); printf("\n")`. -/
def print_grid (a : Nat → Nat → F) : Prog F Unit :=
  forLoop (fun i => do
    forLoop (fun j => do
      printf " %8.3f" [Arg.flt (a i j)]
      pure false) SAMPLE_PRINTOUT_SPOTS 0
    printf "\n" []
    pure false) SAMPLE_PRINTOUT_SPOTS 0

/-- Part of `main`, sample.c 219-236: open the instrument and print its identification. -/
def open_session (K : Consts) (E : Env F) : Prog F Unit := do
  let s ← getSt
  printf "\nResource name of selected WFS: %s\n" [Arg.str s.resourceName]
  let _ ← check E Call.WFS_init [Arg.str s.resourceName, Arg.int K.VI_FALSE, Arg.int K.VI_FALSE]
    (fun r s => { s with handle := r.int 0 })
  let s ← getSt
  let r ← check E Call.WFS_GetInstrumentInfo [Arg.int s.handle] keep
  printf "\n" []
  printf "Opened Instrument:\n" []
  printf "Manufacturer           : %s\n" [Arg.str (r.str 0)]
  printf "Instrument Name        : %s\n" [Arg.str (r.str 1)]
  printf "Serial Number WFS      : %s\n" [Arg.str (r.str 2)]

/-- Part of `main`, sample.c 248-304: activate the MLA, configure the camera, set the
reference plane and the pupil. -/
def configure (K : Consts) (E : Env F) : Prog F Unit := do
  let s ← getSt
  let _ ← check E Call.WFS_SelectMla [Arg.int s.handle, Arg.int s.selected_mla] keep
  if Int.land s.selected_id DEVICE_OFFSET_WFS10 = 0 ∧
      Int.land s.selected_id DEVICE_OFFSET_WFS20 = 0 then do
    printf "\n\nConfigure WFS camera with resolution index %d (%d x %d pixels).\n"
      [Arg.int K.CAM_RES_768, Arg.int (tableAt cam_wfs_xpixel K.CAM_RES_768),
       Arg.int (tableAt cam_wfs_ypixel K.CAM_RES_768)]
    let _ ← check E Call.WFS_ConfigureCam
      [Arg.int s.handle, Arg.int K.PIXEL_FORMAT_MONO8, Arg.int K.CAM_RES_768]
      (fun r s => { s with spots_x := r.int 0, spots_y := r.int 1 })
  if bitSet s.selected_id DEVICE_OFFSET_WFS10 then do
    printf "\n\nConfigure WFS10 camera with resolution index %d (%d x %d pixels).\n"
      [Arg.int K.CAM_RES_WFS10_360, Arg.int (tableAt cam_wfs10_xpixel K.CAM_RES_WFS10_360),
       Arg.int (tableAt cam_wfs10_ypixel K.CAM_RES_WFS10_360)]
    let _ ← check E Call.WFS_ConfigureCam
      [Arg.int s.handle, Arg.int K.PIXEL_FORMAT_MONO8, Arg.int K.CAM_RES_WFS10_360]
      (fun r s => { s with spots_x := r.int 0, spots_y := r.int 1 })
  if bitSet s.selected_id DEVICE_OFFSET_WFS20 then do
    printf "\n\nConfigure WFS20 camera with resolution index %d (%d x %d pixels).\n"
      [Arg.int K.CAM_RES_WFS20_512, Arg.int (tableAt cam_wfs20_xpixel K.CAM_RES_WFS20_512),
       Arg.int (tableAt cam_wfs20_ypixel K.CAM_RES_WFS20_512)]
    let _ ← check E Call.WFS_ConfigureCam
      [Arg.int s.handle, Arg.int K.PIXEL_FORMAT_MONO8, Arg.int K.CAM_RES_WFS20_512]
      (fun r s => { s with spots_x := r.int 0, spots_y := r.int 1 })
  let s ← getSt
  printf "Camera is configured to detect %d x %d lenslet spots.\n\n"
    [Arg.int s.spots_x, Arg.int s.spots_y]
  printf "\nSet WFS to internal reference plane.\n" []
  let _ ← check E Call.WFS_SetReferencePlane [Arg.int s.handle, Arg.int K.WFS_REF_INTERNAL] keep
  printf "\nDefine pupil to:\n" []
  printf "Centroid_x = %6.3f\n" [Arg.lit SAMPLE_PUPIL_CENTROID_X]
  printf "Centroid_y = %6.3f\n" [Arg.lit SAMPLE_PUPIL_CENTROID_Y]
  printf "Diameter_x = %6.3f\n" [Arg.lit SAMPLE_PUPIL_DIAMETER_X]
  printf "Diameter_y = %6.3f\n" [Arg.lit SAMPLE_PUPIL_DIAMETER_Y]
  let _ ← check E Call.WFS_SetPupil
    [Arg.int s.handle, Arg.lit SAMPLE_PUPIL_CENTROID_X, Arg.lit SAMPLE_PUPIL_CENTROID_Y,
     Arg.lit SAMPLE_PUPIL_DIAMETER_X, Arg.lit SAMPLE_PUPIL_DIAMETER_Y] keep
  printf "\nRead camera images:\n" []
  printf "Image No.     Status     ->   newExposure[ms]   newGainFactor\n" []

/-- The exposure test of sample.c 329 and 335 on a status word: one of the bits "power too
high", "power too low", "high ambient light" is set. -/
def badExposure (K : Consts) (status : Int) : Bool :=
  bitSet status K.WFS_STATBIT_PTH || bitSet status K.WFS_STATBIT_PTL ||
    bitSet status K.WFS_STATBIT_HAL

/-- Body of the acquisition loop, sample.c 308-331; answers whether the loop is left. -/
def acquire_body (K : Consts) (E : Env F) (cnt : Nat) : Prog F Bool := do
  let s ← getSt
  let r ← check E Call.WFS_TakeSpotfieldImageAutoExpos [Arg.int s.handle] keep
  printf "    %d     " [Arg.int cnt]
  let _ ← check E Call.WFS_GetStatus [Arg.int s.handle]
    (fun q s => { s with status := q.int 0 })
  let s ← getSt
  if bitSet s.status K.WFS_STATBIT_PTH then printf "Power too high!    " []
  else if bitSet s.status K.WFS_STATBIT_PTL then printf "Power too low!     " []
  else if bitSet s.status K.WFS_STATBIT_HAL then printf "High ambient light!" []
  else printf "OK                 " []
  printf "     %6.3f          %6.3f\n" [Arg.flt (r.flt 0), Arg.flt (r.flt 1)]
  pure (!bitSet s.status K.WFS_STATBIT_PTH && !bitSet s.status K.WFS_STATBIT_PTL &&
    !bitSet s.status K.WFS_STATBIT_HAL)

/-- Part of `main`, sample.c 306-331: the trials to read a well exposed image. -/
def acquire (K : Consts) (E : Env F) : Prog F Unit :=
  forLoop (acquire_body K E) SAMPLE_IMAGE_READINGS 0

/-- Part of `main`, sample.c 334-342: close the program if no well exposed image is
feasible. -/
def quality_gate (K : Consts) (E : Env F) : Prog F Unit := do
  let s ← getSt
  if bitSet s.status K.WFS_STATBIT_PTH || bitSet s.status K.WFS_STATBIT_PTL ||
      bitSet s.status K.WFS_STATBIT_HAL then do
    printf "\nSample program will be closed because of unusable image quality, press <ENTER>." []
    let _ ← call E Call.WFS_close [Arg.int s.handle] keep
    fflush
    let _ ← getchar E
    exit 1

/-- The Zernike printout loop, sample.c 466-470. -/
def print_zernike (zernike_um : Nat → F) : Prog F Unit := do
  printf "\nZernike Mode    Coefficient\n" []
  forLoop (fun i => do
    printf "  %2d         %9.3f\n" [Arg.int i, Arg.flt (zernike_um i)]
    pure false) (tableAt zernike_modes SAMPLE_ZERNIKE_ORDERS).toNat 0

/-- Part of `main`, sample.c 345-470: the one-shot measurement with its printouts. -/
def measure (K : Consts) (E : Env F) : Prog F Unit := do
  let s ← getSt
  let _ ← check E Call.WFS_GetSpotfieldImage [Arg.int s.handle] keep
  let _ ← check E Call.WFS_CalcSpotsCentrDiaIntens
    [Arg.int s.handle, Arg.int SAMPLE_OPTION_DYN_NOISE_CUT, Arg.int SAMPLE_OPTION_CALC_SPOT_DIAS]
    keep
  let c ← check E Call.WFS_GetSpotCentroids [Arg.int s.handle] keep
  printf "\nCentroid X Positions in pixels (first 5x5 elements)\n" []
  print_grid (c.grid 0)
  printf "\nCentroid Y Positions in pixels (first 5x5 elements)\n" []
  print_grid (c.grid 1)
  printf "\nPress <ENTER> to proceed..." []
  let _ ← getchar E
  let b ← check E Call.WFS_CalcBeamCentroidDia [Arg.int s.handle] keep
  printf "\nInput beam is measured to:\n" []
  printf "Centroid_x = %6.3f mm\n" [Arg.flt (b.flt 0)]
  printf "Centroid_y = %6.3f mm\n" [Arg.flt (b.flt 1)]
  printf "Diameter_x = %6.3f mm\n" [Arg.flt (b.flt 2)]
  printf "Diameter_y = %6.3f mm\n" [Arg.flt (b.flt 3)]
  fflush
  printf "\nPress <ENTER> to proceed..." []
  let _ ← getchar E
  let e ← check E Call.WFS_CalcSpotToReferenceDeviations
    [Arg.int s.handle, Arg.int SAMPLE_OPTION_CANCEL_TILT] keep
  let err := e.err
  let d ← call E Call.WFS_GetSpotDeviations [Arg.int s.handle] keep
  if d.err ≠ 0 then handle_errors E err
  printf "\nSpot Deviation X in pixels (first 5x5 elements)\n" []
  print_grid (d.grid 0)
  printf "\nSpot Deviation Y in pixels (first 5x5 elements)\n" []
  print_grid (d.grid 1)
  printf "\nPress <ENTER> to proceed..." []
  let _ ← getchar E
  let w ← check E Call.WFS_CalcWavefront
    [Arg.int s.handle, Arg.int K.WAVEFRONT_MEAS, Arg.int SAMPLE_OPTION_LIMIT_TO_PUPIL] keep
  printf "\nWavefront in microns (first 5x5 elements)\n" []
  print_grid (w.grid 0)
  printf "\nPress <ENTER> to proceed..." []
  let _ ← getchar E
  let t ← check E Call.WFS_CalcWavefrontStatistics [Arg.int s.handle] keep
  printf "\nWavefront Statistics in microns:\n" []
  printf "Min          : %8.3f\n" [Arg.flt (t.flt 0)]
  printf "Max          : %8.3f\n" [Arg.flt (t.flt 1)]
  printf "Diff         : %8.3f\n" [Arg.flt (t.flt 2)]
  printf "Mean         : %8.3f\n" [Arg.flt (t.flt 3)]
  printf "RMS          : %8.3f\n" [Arg.flt (t.flt 4)]
  printf "Weigthed RMS : %8.3f\n" [Arg.flt (t.flt 5)]
  printf "\nPress <ENTER> to proceed..." []
  let _ ← getchar E
  printf "\nZernike fit up to order %d:\n" [Arg.int SAMPLE_ZERNIKE_ORDERS]
  let z ← check E Call.WFS_ZernikeLsf [Arg.int s.handle, Arg.int SAMPLE_ZERNIKE_ORDERS] keep
  print_zernike (z.vec 0)

/-- The file output of one logging round, sample.c 513-525. -/
def write_log (E : Env F) (wavefront_diff wavefront_rms : F) (zernike_um : Nat → F) :
    Prog F Unit := do
  let fp ← fopen E
  if fp then do
    fprintf "Wavefront results in um:\n" []
    fprintf "%s %8.3f\n" [Arg.str "PV   ", Arg.flt wavefront_diff]
    fprintf "%s %8.3f\n" [Arg.str "RMS  ", Arg.flt wavefront_rms]
    fprintf "\nZernike amplitudes in um:\n" []
    forLoop (fun i => do
      fprintf "%2d    %8.3f\n" [Arg.int i, Arg.flt (zernike_um i)]
      pure false) (tableAt zernike_modes SAMPLE_ZERNIKE_ORDERS).toNat 0
    fclose

/-- Body of the logging loop, sample.c 485-530; answers the value of `key`. -/
def log_body (K : Consts) (E : Env F) : Prog F Int := do
  let s ← getSt
  let _ ← check E Call.WFS_TakeSpotfieldImageAutoExpos [Arg.int s.handle] keep
  let _ ← check E Call.WFS_CalcSpotsCentrDiaIntens
    [Arg.int s.handle, Arg.int SAMPLE_OPTION_DYN_NOISE_CUT, Arg.int SAMPLE_OPTION_CALC_SPOT_DIAS]
    keep
  let _ ← check E Call.WFS_CalcSpotToReferenceDeviations
    [Arg.int s.handle, Arg.int SAMPLE_OPTION_CANCEL_TILT] keep
  let _ ← check E Call.WFS_CalcWavefront
    [Arg.int s.handle, Arg.int K.WAVEFRONT_MEAS, Arg.int SAMPLE_OPTION_LIMIT_TO_PUPIL] keep
  let t ← check E Call.WFS_CalcWavefrontStatistics [Arg.int s.handle] keep
  let z ← check E Call.WFS_ZernikeLsf [Arg.int s.handle, Arg.int SAMPLE_ZERNIKE_ORDERS] keep
  write_log E (t.flt 2) (t.flt 4) (z.vec 0)
  let hit ← KeyHit E
  if hit ≠ 0 then GetKey E else pure 0

/-- The loop `do ... while(key != VAL_ESC_VKEY)`, sample.c 484-532, with fuel for the
number of rounds. -/
def log_loop (K : Consts) (E : Env F) : Nat → Prog F Unit
  | 0 => spin
  | fuel + 1 => do
      let key ← log_body K E
      if key ≠ K.VAL_ESC_VKEY then log_loop K E fuel else pure ()

/-- Part of `main`, sample.c 474-534: the optional measurement loop with output to file. -/
def logging (K : Consts) (E : Env F) (fuel : Nat) : Prog F Unit := do
  printf "\nEnter measurement loop with output to file 0/1?" []
  fflush
  let c ← getchar E
  let selection := c - 48
  if selection = 1 then do
    printf "\nMeasurement data is continuously written into file %s.\n"
      [Arg.str SAMPLE_OUTPUT_FILE_NAME]
    printf "\nPress <ESC> to exit loop...\n" []
    log_loop K E fuel

/-- Part of `main`, sample.c 546-616: the highspeed mode demonstration. -/
def highspeed_demo (E : Env F) : Prog F Unit := do
  let s ← getSt
  let _ ← check E Call.WFS_SetHighspeedMode
    [Arg.int s.handle, Arg.int SAMPLE_OPTION_HIGHSPEED, Arg.int SAMPLE_OPTION_HS_ADAPT_CENTR,
     Arg.int SAMPLE_HS_NOISE_LEVEL, Arg.int SAMPLE_HS_ALLOW_AUTOEXPOS] keep
  let w ← check E Call.WFS_GetHighspeedWindows [Arg.int s.handle] keep
  printf "\nCentroid detection windows are defined as follows:\n" []
  printf "Count_x = %3d, Count_y = %3d\n" [Arg.int (w.int 0), Arg.int (w.int 1)]
  printf "Size_x  = %3d, Size_y  = %3d\n" [Arg.int (w.int 2), Arg.int (w.int 3)]
  printf "Start coordinates x: " []
  forLoop (fun i => do
    printf "%3d " [Arg.int (w.ivec 0 i)]
    pure false) (w.int 0).toNat 0
  printf "\n" []
  printf "Start coordinates y: " []
  forLoop (fun i => do
    printf "%3d " [Arg.int (w.ivec 1 i)]
    pure false) (w.int 1).toNat 0
  printf "\n" []
  fflush
  printf "\nPress <ENTER> to proceed..." []
  let _ ← getchar E
  let x ← check E Call.WFS_TakeSpotfieldImageAutoExpos [Arg.int s.handle] keep
  printf "\nexposure = %6.3f ms, gain =  %6.3f\n" [Arg.flt (x.flt 0), Arg.flt (x.flt 1)]
  let b ← check E Call.WFS_CalcBeamCentroidDia [Arg.int s.handle] keep
  printf "\nInput beam is measured to:\n" []
  printf "Centroid_x = %6.3f mm\n" [Arg.flt (b.flt 0)]
  printf "Centroid_y = %6.3f mm\n" [Arg.flt (b.flt 1)]
  printf "Diameter_x = %6.3f mm\n" [Arg.flt (b.flt 2)]
  printf "Diameter_y = %6.3f mm\n" [Arg.flt (b.flt 3)]
  fflush
  printf "\nPress <ENTER> to proceed..." []
  let _ ← getchar E
  let c ← check E Call.WFS_GetSpotCentroids [Arg.int s.handle] keep
  printf "\nCentroid X Positions in pixels (first 5x5 elements)\n" []
  print_grid (c.grid 0)
  printf "\nCentroid Y Positions in pixels (first 5x5 elements)\n" []
  print_grid (c.grid 1)
  printf "\nThe following wavefront and Zernike calculations can be done identical to normal mode.\n" []

/-- Part of `main`, sample.c 538-617: highspeed mode for WFS10 and WFS20 instruments only. -/
def highspeed (E : Env F) : Prog F Unit := do
  let s ← getSt
  if bitSet s.selected_id DEVICE_OFFSET_WFS10 || bitSet s.selected_id DEVICE_OFFSET_WFS20 then do
    printf "\nEnter Highspeed Mode 0/1?" []
    fflush
    let c ← getchar E
    let selection := c - 48
    if selection = 1 then highspeed_demo E

/-- Part of `main`, sample.c 620-625: the end of the program. -/
def shutdown (E : Env F) : Prog F Unit := do
  printf "\nEnd of Sample Program, press <ENTER> to exit." []
  fflush
  let _ ← getchar E
  let s ← getSt
  let _ ← call E Call.WFS_close [Arg.int s.handle] keep
  pure ()

/-- Part of `main`, sample.c 248-626: what `main` does once an instrument is open and a
microlens array is selected. -/
def session (K : Consts) (E : Env F) (fuel : Nat) : Prog F Unit := do
  configure K E
  acquire K E
  quality_gate K E
  measure K E
  logging K E fuel
  highspeed E
  shutdown E

/-- Function `main` (sample.c 163-626).  `fuel` bounds the rounds of the logging loop. -/
def main (K : Consts) (E : Env F) (fuel : Nat) : Prog F Unit := do
  printf "This is a Thorlabs Wavefront Sensor sample application.\n\n" []
  let v ← check E Call.WFS_revision_query [Arg.int 0] keep
  printf "WFS instrument driver version : %s\n\n" [Arg.str (v.str 0)]
  let sel ← select_instrument K E
  if sel = 0 then do
    printf "\nNo instrument selected. Press <ENTER> to exit.\n" []
    fflush
    let _ ← getchar E
    pure ()
  else do
    open_session K E
    let mla ← select_mla E
    if mla < 0 then do
      printf "\nNo MLA selected. Press <ENTER> to exit.\n" []
      fflush
      let _ ← getchar E
      pure ()
    else session K E fuel

/-- State at program start: nothing has happened, `instr = { 0 }`; the output file and the
uninitialised buffer `resourceName` hold whatever they hold. -/
def St.init (file : Option (List (Line F))) (resourceName : String) : St F :=
  { trace := [], file := file, selected_id := 0, handle := 0, status := 0, mla_cnt := 0,
    selected_mla := 0, spots_x := 0, spots_y := 0, resourceName := resourceName }

/-- The exit code of a run: `none` when the piece returned or is still running. -/
def Res.code {α : Type} : Res F α → Option Int
  | Res.exit c _ => some c
  | _ => none

/-- The state a run stopped in. -/
def Res.st {α : Type} : Res F α → St F
  | Res.ok _ s => s
  | Res.exit _ s => s
  | Res.spin s => s

/-- Did the piece return to its caller? -/
def Res.returned {α : Type} : Res F α → Bool
  | Res.ok _ _ => true
  | _ => false

/-- The value a piece of the program returned, if it returned. -/
def Res.value {α : Type} : Res F α → Option α
  | Res.ok a _ => some a
  | _ => none

end Program

/-! ## Notions used to state the properties -/

section Notions

variable {F : Type}

/-- A driver stand-in all of whose calls answer status 0. -/
def AllZero (E : Env F) : Prop := ∀ c n a, (E.drv c n a).err = 0

/-- The first 5 x 5 elements `a[i][j]` of a grid, row by row. -/
def gridWindow (a : Nat → Nat → F) : List (List F) :=
  (List.range 5).map (fun i => (List.range 5).map (fun j => a i j))

/-- The console output of a list of rows: every value with format `" %8.3f"`, and a newline
after every row. -/
def rowEvents (rows : List (List F)) : List (Event F) :=
  rows.flatMap (fun row =>
    row.map (fun v => Event.printf " %8.3f" [Arg.flt v]) ++ [Event.printf "\n" []])

/-- The arguments of the `printf` events with a given format, oldest first. -/
def printed (fmt : String) (t : List (Event F)) : List (List (Arg F)) :=
  t.filterMap (fun e => match e with
    | Event.printf f args => if f = fmt then some args else none
    | _ => none)

/-- The status word that the next `WFS_GetStatus` call stores in `instr.status`. -/
def nextStatus (E : Env F) (s : St F) : Int :=
  (E.drv Call.WFS_GetStatus (callCount Call.WFS_GetStatus s.trace) [Arg.int s.handle]).int 0

/-- The log file as the spec describes it for given measurement values: peak-to-valley, RMS
and the Zernike amplitude lines, one per mode of the configured order. -/
def logText (wavefront_diff wavefront_rms : F) (zernike_um : Nat → F) : List (Line F) :=
  [("Wavefront results in um:\n", []),
   ("%s %8.3f\n", [Arg.str "PV   ", Arg.flt wavefront_diff]),
   ("%s %8.3f\n", [Arg.str "RMS  ", Arg.flt wavefront_rms]),
   ("\nZernike amplitudes in um:\n", [])] ++
  (List.range 10).map (fun (i : Nat) => ("%2d    %8.3f\n", [Arg.int i, Arg.flt (zernike_um i)]))

/-- The value of `key` at the end of the logging round that starts in state `s`
(sample.c 528-530): the key read by `GetKey` when `KeyHit` reports one, else 0. -/
def keyOf (E : Env F) (s : St F) : Int :=
  if E.keyHit (s.trace.countP Event.isKeyHit) ≠ 0 then E.getKey (s.trace.countP Event.isGetKey)
  else 0

/-- The values of `key` at the end of the next `n` rounds of the logging loop, when `kh` calls
of `KeyHit` and `gk` calls of `GetKey` have been made before (sample.c 528-530). -/
def roundKeys (E : Env F) : Nat → Nat → Nat → List Int
  | 0, _, _ => []
  | n + 1, kh, gk =>
      if E.keyHit kh ≠ 0 then E.getKey gk :: roundKeys E n (kh + 1) (gk + 1)
      else 0 :: roundKeys E n (kh + 1) gk

/-- The device id has the WFS10 bit or the WFS20 bit. -/
def isWfs10or20 (id : Int) : Prop := Int.land id 0x100 ≠ 0 ∨ Int.land id 0x200 ≠ 0

instance (id : Int) : Decidable (isWfs10or20 id) := by
  unfold isWfs10or20
  infer_instance

/-- The driver functions that `main` calls before it configures the camera. -/
def preludeCalls : List Call :=
  [Call.WFS_revision_query, Call.WFS_GetInstrumentListLen, Call.WFS_GetInstrumentListInfo,
   Call.WFS_init, Call.WFS_GetInstrumentInfo, Call.WFS_GetMlaCount, Call.WFS_GetMlaData]

/-- An event of the start-up phase: a call of one of `preludeCalls` or console output; a line
read by `fgets` when `fg` is set, a character read by `getchar` when `gc` is set. -/
def Event.quiet (fg gc : Bool) : Event F → Bool
  | Event.call c _ => decide (c ∈ preludeCalls)
  | Event.printf _ _ => true
  | Event.fflush => true
  | Event.fgets _ => fg
  | Event.getchar _ => gc
  | _ => false

/-- State `t` continues state `s` by start-up events only. -/
def Ext (fg gc : Bool) (s t : St F) : Prop :=
  ∃ evs, t.trace = s.trace ++ evs ∧ ∀ e ∈ evs, e.quiet fg gc = true

/-- The driver functions of the one-shot measurement phase, sample.c 345-464. -/
def measureCalls : List Call :=
  [Call.WFS_GetSpotfieldImage, Call.WFS_CalcSpotsCentrDiaIntens, Call.WFS_GetSpotCentroids,
   Call.WFS_CalcBeamCentroidDia, Call.WFS_CalcSpotToReferenceDeviations,
   Call.WFS_GetSpotDeviations, Call.WFS_CalcWavefront, Call.WFS_CalcWavefrontStatistics,
   Call.WFS_ZernikeLsf]

/-- The kinds of file and keyboard interaction in the logging loop. -/
inductive Mark
  | fopen
  | fprintf
  | fclose
  | keyHit
  | getKey
  deriving DecidableEq, Repr

/-- The file or keyboard interaction that an event is, if it is one. -/
def Event.mark : Event F → Option Mark
  | Event.fopen _ => some Mark.fopen
  | Event.fprintf _ _ => some Mark.fprintf
  | Event.fclose => some Mark.fclose
  | Event.keyHit _ => some Mark.keyHit
  | Event.getKey _ => some Mark.getKey
  | _ => none

/-- The file and keyboard interactions of one logging round in source order (sample.c
513-530), when `fo` calls of `fopen` and `kh` calls of `KeyHit` have been made before: the
file is opened, written with 14 `fprintf` and closed (if it could be opened), then the
keyboard is polled once, and the key is read if the poll reports one. -/
def roundMarks (E : Env F) (fo kh : Nat) : List Mark :=
  (if E.fopen fo then Mark.fopen :: List.replicate 14 Mark.fprintf ++ [Mark.fclose]
   else [Mark.fopen]) ++
  Mark.keyHit :: (if E.keyHit kh ≠ 0 then [Mark.getKey] else [])

/-- The answers of the polls `KeyHit()` in a trace, oldest first. -/
def keyHits (t : List (Event F)) : List Int :=
  t.filterMap (fun e => match e with
    | Event.keyHit r => some r
    | _ => none)

/-- The keys read by `GetKey()` in a trace, oldest first. -/
def keysRead (t : List (Event F)) : List Int :=
  t.filterMap (fun e => match e with
    | Event.getKey r => some r
    | _ => none)

/-- The arguments passed by value in the calls of driver function `c`, oldest first. -/
def callArgs (c : Call) (t : List (Event F)) : List (List (Arg F)) :=
  t.filterMap (fun e => match e with
    | Event.call d args => if d = c then some args else none
    | _ => none)

/-- The floating-point values among printed arguments, in the order printed. -/
def fltArgs (l : List (List (Arg F))) : List F :=
  l.flatten.filterMap (fun a => match a with
    | Arg.flt v => some v
    | _ => none)

/-- The index range that the declaration of `zernike_um` documents (sample.c 183): "index runs
from 1 - MAX_ZERNIKE_MODES".  The constant `MAX_ZERNIKE_MODES` of `wfs.h` is a parameter. -/
def documentedZernikeIndex (MAX_ZERNIKE_MODES : Int) (i : Int) : Prop :=
  1 ≤ i ∧ i ≤ MAX_ZERNIKE_MODES

/-- The resource name that the loop of sample.c 699-706 leaves when it runs over the listed
instruments `rest`, starting with `rn` in the buffer: that of the first instrument with the
selected id, and that of the last instrument when none has it. -/
def resourceAfter (sel : Int) : List (Int × String) → String → String
  | [], rn => rn
  | d :: rest, _ => if d.1 = sel then d.2 else resourceAfter sel rest d.2

/-- An event outside the camera configuration and the highspeed mode: not a call of
`WFS_ConfigureCam`, `WFS_SetHighspeedMode` or `WFS_GetHighspeedWindows`, not the highspeed
prompt (sample.c 541) and not the message of the WFS150/300 branch (sample.c 257). -/
def Event.plain : Event F → Bool
  | Event.call c _ => decide (c ∉ [Call.WFS_ConfigureCam, Call.WFS_SetHighspeedMode,
      Call.WFS_GetHighspeedWindows])
  | Event.printf f _ => decide (f ≠ "\nEnter Highspeed Mode 0/1?" ∧
      f ≠ "\n\nConfigure WFS camera with resolution index %d (%d x %d pixels).\n")
  | _ => true

/-- State `t` continues state `s` by plain events; with `sameId` set, `instr.selected_id` is
the same in both. -/
def Step (sameId : Bool) (s t : St F) : Prop :=
  (sameId = true → t.selected_id = s.selected_id) ∧
    ∃ evs, t.trace = s.trace ++ evs ∧ ∀ e ∈ evs, e.plain = true

/-- A piece of the program that only adds plain events, however it ends. -/
def Tame {α : Type} (sameId : Bool) (p : Prog F α) : Prop := ∀ s, Step sameId s (p s).st

/-- Every run of `q` either gets to `tail`, in a state that continues the start state by plain
events, or ends before, having added plain events only; with `strict` set, a run that ends
before does not return. -/
def Passes {α : Type} (sameId strict : Bool) (tail q : Prog F α) : Prop :=
  ∀ s, (∃ t, Step sameId s t ∧ q s = tail t) ∨
    (Step sameId s (q s).st ∧ (strict = true → (q s).returned = false))

end Notions

/-! ## Concrete stand-ins -/

/-- Example values for the header constants. -/
def demoConsts : Consts :=
  { WFS_STATBIT_PTH := 2, WFS_STATBIT_PTL := 4, WFS_STATBIT_HAL := 8,
    PIXEL_FORMAT_MONO8 := 0, CAM_RES_768 := 2, CAM_RES_WFS10_360 := 2, CAM_RES_WFS20_512 := 3,
    WFS_REF_INTERNAL := 0, WAVEFRONT_MEAS := 0, VI_NULL := 0, VI_FALSE := 0,
    VAL_ESC_VKEY := 768 }

/-- A reply with status `err` whose integer outputs all are `i`; other outputs are blank. -/
def demoReply (err i : Int) : Reply Int :=
  { err := err, int := fun _ => i, flt := fun _ => 0, str := fun _ => "",
    grid := fun _ _ _ => 0, vec := fun _ _ => 0, ivec := fun _ _ => 0 }

/-- A stand-in with one instrument of id 1: the driver function `failing` answers `err`, every
other call answers 0; `WFS_GetStatus` stores `status`, other integer outputs are 1.  The user
enters the line "1", answers every `getchar` with `ch`, and presses `key` at every poll. -/
def demoEnv (failing : Option Call) (err status ch key : Int) : Env Int :=
  { drv := fun c _ _ =>
      if c = Call.WFS_GetStatus then demoReply (if failing = some c then err else 0) status
      else demoReply (if failing = some c then err else 0) 1,
    getchar := fun _ => ch,
    fgets := fun _ => "1\n",
    keyHit := fun _ => 1,
    getKey := fun _ => key,
    fopen := fun _ => true }

/-- A stand-in like `demoEnv none 0 0 49 0` (one instrument of id 1, every call answers 0, the
user answers every prompt with the character `1`) in which the user presses the keys `keys`,
one before each poll of the keyboard, and no key after them. -/
def keysEnv (keys : List Int) : Env Int :=
  { drv := (demoEnv none 0 0 49 0).drv,
    getchar := fun _ => 49,
    fgets := fun _ => "1\n",
    keyHit := fun n => if n < keys.length then 1 else 0,
    getKey := fun n => keys.getD n 0,
    fopen := fun _ => true }

/-- The reply of `WFS_GetInstrumentListInfo` for an instrument with device id `id` and resource
name `rn` that is not in use; instrument name and serial number are blank. -/
def infoReply (id : Int) (rn : String) : Reply Int :=
  { err := 0, int := fun k => if k = 0 then id else 0, flt := fun _ => 0,
    str := fun k => if k = 2 then rn else "",
    grid := fun _ _ _ => 0, vec := fun _ _ => 0, ivec := fun _ _ => 0 }

/-- A stand-in whose driver reports the instrument list `devs` (device id and resource name
of each instrument) and is otherwise `demoEnv none 0 0 ch 768`: every call answers 0.  The user
enters `line` at the instrument prompt and answers every other prompt with the character
`ch`. -/
def listEnv (devs : List (Int × String)) (line : String) (ch : Int) : Env Int :=
  { drv := fun c n args =>
      if c = Call.WFS_GetInstrumentListLen then demoReply 0 devs.length
      else if c = Call.WFS_GetInstrumentListInfo then
        match args with
        | [_, Arg.int i] => infoReply (devs.getD i.toNat (0, "")).1 (devs.getD i.toNat (0, "")).2
        | _ => infoReply 0 ""
      else (demoEnv none 0 0 ch 768).drv c n args,
    getchar := fun _ => ch,
    fgets := fun _ => line,
    keyHit := fun _ => 1,
    getKey := fun _ => 768,
    fopen := fun _ => true }

/-- A stand-in like `demoEnv none 0 0 ch key` in which `WFS_ZernikeLsf` stores the value `i` in
element `i` of `zernike_um`, for every index of the array: a value that is printed tells which
element was read. -/
def indexEnv (ch key : Int) : Env Int :=
  { drv := fun c n args =>
      if c = Call.WFS_ZernikeLsf then
        { err := 0, int := fun _ => 1, flt := fun _ => 0, str := fun _ => "",
          grid := fun _ _ _ => 0, vec := fun _ i => (i : Int), ivec := fun _ _ => 0 }
      else (demoEnv none 0 0 ch key).drv c n args,
    getchar := fun _ => ch,
    fgets := fun _ => "1\n",
    keyHit := fun _ => 1,
    getKey := fun _ => key,
    fopen := fun _ => true }

/-! ## Running the program: basic facts -/

section Basics

variable {F : Type} {α β : Type}

theorem pure_run (a : α) (s : St F) : (pure a : Prog F α) s = Res.ok a s := rfl

theorem bind_run (p : Prog F α) (k : α → Prog F β) (s : St F) :
    (p >>= k) s = match p s with
      | Res.ok a s1 => k a s1
      | Res.exit c s1 => Res.exit c s1
      | Res.spin s1 => Res.spin s1 := rfl

theorem ite_run (c : Prop) [Decidable c] (p q : Prog F α) (s : St F) :
    (if c then p else q) s = if c then p s else q s := by
  split <;> rfl

theorem bind_ok {p : Prog F α} {k : α → Prog F β} {s s1 : St F} {a : α}
    (h : p s = Res.ok a s1) : (p >>= k) s = k a s1 := by
  rw [bind_run, h]

theorem bind_exit {p : Prog F α} {k : α → Prog F β} {s s1 : St F} {c : Int}
    (h : p s = Res.exit c s1) : (p >>= k) s = Res.exit c s1 := by
  rw [bind_run, h]

theorem calls_append (t u : List (Event F)) : calls (t ++ u) = calls t ++ calls u := by
  simp [calls]

theorem calls_nil : calls ([] : List (Event F)) = [] := rfl

theorem calls_cons (e : Event F) (t : List (Event F)) :
    calls (e :: t) = (match e.callOf with | some c => [c] | none => []) ++ calls t := by
  cases e <;> simp [calls, Event.callOf]

theorem callCount_append (c : Call) (t u : List (Event F)) :
    callCount c (t ++ u) = callCount c t + callCount c u := by
  simp [callCount, calls_append]

theorem callCount_nil (c : Call) : callCount c ([] : List (Event F)) = 0 := rfl

theorem callCount_cons (c : Call) (e : Event F) (t : List (Event F)) :
    callCount c (e :: t) = (if e.callOf = some c then 1 else 0) + callCount c t := by
  cases e <;> simp [callCount, calls, Event.callOf, List.count_cons, Nat.add_comm]

/-- Under a stand-in that answers 0, the checked-call idiom is the call itself. -/
theorem check_run (E : Env F) (h0 : AllZero E) (c : Call) (args : List (Arg F))
    (store : Reply F → St F → St F) (s : St F) :
    check E c args store s =
      Res.ok (E.drv c (callCount c s.trace) args)
        (store (E.drv c (callCount c s.trace) args)
          { s with trace := s.trace ++ [Event.call c args] }) := by
  simp [check, call, ↓bind_run, pure_run, ↓ite_run, h0 c]

/-- A loop whose body only appends events and never breaks appends the events of all its
rounds. -/
theorem forLoop_emits (body : Nat → Prog F Bool) (f : Nat → List (Event F))
    (hb : ∀ i (s : St F), body i s = Res.ok false { s with trace := s.trace ++ f i }) :
    ∀ (n i : Nat) (s : St F), forLoop body n i s =
      Res.ok () { s with trace := s.trace ++ (List.range' i n).flatMap f } := by
  intro n
  induction n with
  | zero => intro i s; simp [forLoop, pure_run]
  | succ n ih =>
    intro i s
    simp [forLoop, ↓bind_run, hb, ih, ↓ite_run, List.range'_succ, List.flatMap_cons]

theorem printf_run (fmt : String) (args : List (Arg F)) (s : St F) :
    printf fmt args s = Res.ok () { s with trace := s.trace ++ [Event.printf fmt args] } := rfl

theorem calls_map_printf {γ : Type} (l : List γ) (f : γ → String) (g : γ → List (Arg F)) :
    calls (l.map (fun i => Event.printf (f i) (g i))) = [] := by
  induction l with
  | nil => rfl
  | cons v l ih => simpa [calls_cons, Event.callOf] using ih

theorem printed_append (fmt : String) (t u : List (Event F)) :
    printed fmt (t ++ u) = printed fmt t ++ printed fmt u := by
  simp [printed]

theorem printed_nil (fmt : String) : printed fmt ([] : List (Event F)) = [] := rfl

theorem printed_cons (fmt : String) (e : Event F) (t : List (Event F)) :
    printed fmt (e :: t) =
      (match e with
        | Event.printf f args => if f = fmt then [args] else []
        | _ => []) ++ printed fmt t := by
  cases e with
  | printf f args => by_cases h : f = fmt <;> simp [printed, List.filterMap_cons, h]
  | _ => simp [printed, List.filterMap_cons]

/-! ### Result grids -/

theorem calls_rowEvents (rows : List (List F)) : calls (rowEvents rows) = [] := by
  induction rows with
  | nil => rfl
  | cons r rs ih =>
    have h : ∀ l : List F, calls (l.map (fun v => Event.printf " %8.3f" [Arg.flt v])) = [] :=
      fun l => calls_map_printf l (fun _ => " %8.3f") _
    simp only [rowEvents, List.flatMap_cons] at ih ⊢
    simp [calls_append, calls_cons, Event.callOf, calls_nil, h, ih]

theorem callCount_rowEvents (c : Call) (rows : List (List F)) :
    callCount c (rowEvents rows) = 0 := by
  simp [callCount, calls_rowEvents]

theorem countP_rowEvents (p : Event F → Bool) (hp : ∀ f a, p (Event.printf f a) = false)
    (rows : List (List F)) : (rowEvents rows).countP p = 0 := by
  rw [List.countP_eq_zero]
  intro e he
  simp only [rowEvents, List.mem_flatMap, List.mem_append, List.mem_map, List.mem_singleton] at he
  rcases he with ⟨_, _, ⟨_, _, rfl⟩ | rfl⟩ <;> simp [hp]

theorem printed_rowEvents_value (rows : List (List F)) :
    printed " %8.3f" (rowEvents rows) = rows.flatten.map (fun v => [Arg.flt v]) := by
  induction rows with
  | nil => rfl
  | cons r rs ih =>
    have h : ∀ l : List F, printed " %8.3f" (l.map (fun v => Event.printf " %8.3f" [Arg.flt v]))
        = l.map (fun v => [Arg.flt v]) := by
      intro l
      induction l with
      | nil => rfl
      | cons v l ihl => simp [printed_cons, ihl]
    simp only [rowEvents, List.flatMap_cons] at ih ⊢
    simp [printed_append, printed_cons, printed_nil, h, ih]

theorem printed_rowEvents_other (fmt : String) (h1 : fmt ≠ " %8.3f") (h2 : fmt ≠ "\n")
    (rows : List (List F)) : printed fmt (rowEvents rows) = [] := by
  induction rows with
  | nil => rfl
  | cons r rs ih =>
    have h : ∀ l : List F,
        printed fmt (l.map (fun v => Event.printf " %8.3f" [Arg.flt v])) = [] := by
      intro l
      induction l with
      | nil => rfl
      | cons v l ihl => simp [printed_cons, ihl, Ne.symm h1]
    simp only [rowEvents, List.flatMap_cons] at ih ⊢
    simp [printed_append, printed_cons, printed_nil, h, ih, Ne.symm h2]

theorem print_grid_run (a : Nat → Nat → F) (s : St F) :
    print_grid a s = Res.ok () { s with trace := s.trace ++ rowEvents (gridWindow a) } := by
  have r5 : List.range' 0 5 = [0, 1, 2, 3, 4] := rfl
  have q5 : List.range 5 = [0, 1, 2, 3, 4] := rfl
  have inner : ∀ i j (s : St F),
      (do printf " %8.3f" [Arg.flt (a i j)]; pure false : Prog F Bool) s =
        Res.ok false { s with trace := s.trace ++ [Event.printf " %8.3f" [Arg.flt (a i j)]] } := by
    intro i j s
    simp [↓bind_run, printf, emit, pure_run]
  have outer : ∀ i (s : St F),
      (do forLoop (fun j => do printf " %8.3f" [Arg.flt (a i j)]; pure false)
            SAMPLE_PRINTOUT_SPOTS 0
          printf "\n" []
          pure false : Prog F Bool) s =
        Res.ok false { s with trace := s.trace ++
          ((List.range 5).map (fun j => Event.printf " %8.3f" [Arg.flt (a i j)]) ++
            [Event.printf "\n" []]) } := by
    intro i s
    rw [bind_run, forLoop_emits _ _ (inner i)]
    simp [↓bind_run, printf, emit, pure_run, SAMPLE_PRINTOUT_SPOTS, r5, q5]
  unfold print_grid
  rw [forLoop_emits _ _ outer]
  simp [rowEvents, gridWindow, SAMPLE_PRINTOUT_SPOTS, r5, q5]

theorem print_zernike_run (z : Nat → F) (s : St F) :
    print_zernike z s = Res.ok () { s with trace := s.trace ++
      (Event.printf "\nZernike Mode    Coefficient\n" [] ::
        (List.range 10).map (fun (i : Nat) =>
          Event.printf "  %2d         %9.3f\n" [Arg.int i, Arg.flt (z i)])) } := by
  have body : ∀ (i : Nat) (s : St F),
      (do printf "  %2d         %9.3f\n" [Arg.int i, Arg.flt (z i)]; pure false : Prog F Bool) s =
        Res.ok false { s with trace := s.trace ++
          [Event.printf "  %2d         %9.3f\n" [Arg.int i, Arg.flt (z i)]] } := by
    intro i s
    simp [↓bind_run, printf, emit, pure_run]
  unfold print_zernike
  rw [bind_ok (printf_run _ _ s)]
  rw [forLoop_emits _ (fun (i : Nat) =>
    [Event.printf "  %2d         %9.3f\n" [Arg.int i, Arg.flt (z i)]]) body]
  have r10 : List.range' 0 10 = [0, 1, 2, 3, 4, 5, 6, 7, 8, 9] := rfl
  have q10 : List.range 10 = [0, 1, 2, 3, 4, 5, 6, 7, 8, 9] := rfl
  have n10 : (tableAt zernike_modes SAMPLE_ZERNIKE_ORDERS).toNat = 10 := by decide
  simp [n10, r10, q10]

/-! ### Acquisition loop -/

theorem acquire_body_run (K : Consts) (E : Env F) (h0 : AllZero E) (cnt : Nat) (s : St F) :
    ∃ evs, acquire_body K E cnt s =
        Res.ok (!badExposure K (nextStatus E s))
          { s with trace := s.trace ++ evs, status := nextStatus E s } ∧
      calls evs = [Call.WFS_TakeSpotfieldImageAutoExpos, Call.WFS_GetStatus] := by
  have hst : (E.drv Call.WFS_GetStatus (callCount Call.WFS_GetStatus s.trace)
      [Arg.int s.handle]).int 0 = nextStatus E s := rfl
  cases h1 : bitSet (nextStatus E s) K.WFS_STATBIT_PTH <;>
  cases h2 : bitSet (nextStatus E s) K.WFS_STATBIT_PTL <;>
  cases h3 : bitSet (nextStatus E s) K.WFS_STATBIT_HAL <;>
  simp [acquire_body, check_run E h0, ↓bind_run, ↓ite_run, getSt, keep, printf_run, pure_run,
    callCount_append, callCount_cons, callCount_nil, Event.callOf, hst, h1, h2, h3, badExposure,
    calls_append, calls_cons, calls_nil]

/-- The loop leaves at the first well exposed image: `k` rounds with a bad status, then one
with a clean status, and `m` rounds not used. -/
theorem acquire_loop_clean (K : Consts) (E : Env F) (h0 : AllZero E) (m : Nat) :
    ∀ (k i : Nat) (s : St F),
      (∀ j, j < k → ∀ a, badExposure K ((E.drv Call.WFS_GetStatus
        (callCount Call.WFS_GetStatus s.trace + j) a).int 0) = true) →
      (∀ a, badExposure K ((E.drv Call.WFS_GetStatus
        (callCount Call.WFS_GetStatus s.trace + k) a).int 0) = false) →
      ∃ evs st, forLoop (acquire_body K E) (m + k + 1) i s =
          Res.ok () { s with trace := s.trace ++ evs, status := st } ∧
        calls evs = (List.replicate (k + 1)
          [Call.WFS_TakeSpotfieldImageAutoExpos, Call.WFS_GetStatus]).flatten ∧
        badExposure K st = false := by
  intro k
  induction k with
  | zero =>
    intro i s _ hok
    obtain ⟨evs, hrun, hcalls⟩ := acquire_body_run K E h0 i s
    have hc : badExposure K (nextStatus E s) = false := hok _
    refine ⟨evs, nextStatus E s, ?_, ?_, hc⟩
    · show forLoop (acquire_body K E) (m + 1) i s = _
      rw [forLoop, bind_ok hrun, hc]
      rfl
    · simpa using hcalls
  | succ k ih =>
    intro i s hbad hok
    obtain ⟨evs, hrun, hcalls⟩ := acquire_body_run K E h0 i s
    have hc : badExposure K (nextStatus E s) = true := hbad 0 (Nat.succ_pos k) _
    have hcount : callCount Call.WFS_GetStatus (s.trace ++ evs) =
        callCount Call.WFS_GetStatus s.trace + 1 := by
      simp [callCount, calls_append, hcalls]
    obtain ⟨evs2, st, hrun2, hcalls2, hst⟩ := ih (i + 1)
      { s with trace := s.trace ++ evs, status := nextStatus E s }
      (by
        intro j hj a
        have := hbad (j + 1) (Nat.succ_lt_succ hj) a
        simpa [hcount, Nat.add_assoc, Nat.add_comm 1 j] using this)
      (by
        intro a
        have := hok a
        simpa [hcount, Nat.add_assoc, Nat.add_comm 1 k] using this)
    refine ⟨evs ++ evs2, st, ?_, ?_, hst⟩
    · show forLoop (acquire_body K E) ((m + k + 1) + 1) i s = _
      rw [forLoop, bind_ok hrun, hc]
      simp only [Bool.not_true, Bool.false_eq_true, if_false]
      rw [hrun2]
      simp [List.append_assoc]
    · simp [calls_append, hcalls, hcalls2, List.replicate_succ]

/-- The loop uses up all its rounds when every status is bad. -/
theorem acquire_loop_bad (K : Consts) (E : Env F) (h0 : AllZero E) :
    ∀ (n i : Nat) (s : St F),
      (∀ j, j < n + 1 → ∀ a, badExposure K ((E.drv Call.WFS_GetStatus
        (callCount Call.WFS_GetStatus s.trace + j) a).int 0) = true) →
      ∃ evs st, forLoop (acquire_body K E) (n + 1) i s =
          Res.ok () { s with trace := s.trace ++ evs, status := st } ∧
        calls evs = (List.replicate (n + 1)
          [Call.WFS_TakeSpotfieldImageAutoExpos, Call.WFS_GetStatus]).flatten ∧
        badExposure K st = true := by
  intro n
  induction n with
  | zero =>
    intro i s hbad
    obtain ⟨evs, hrun, hcalls⟩ := acquire_body_run K E h0 i s
    have hc : badExposure K (nextStatus E s) = true := hbad 0 (Nat.succ_pos 0) _
    refine ⟨evs, nextStatus E s, ?_, ?_, hc⟩
    · rw [forLoop, bind_ok hrun, hc]
      rfl
    · simpa using hcalls
  | succ n ih =>
    intro i s hbad
    obtain ⟨evs, hrun, hcalls⟩ := acquire_body_run K E h0 i s
    have hc : badExposure K (nextStatus E s) = true := hbad 0 (Nat.succ_pos _) _
    have hcount : callCount Call.WFS_GetStatus (s.trace ++ evs) =
        callCount Call.WFS_GetStatus s.trace + 1 := by
      simp [callCount, calls_append, hcalls]
    obtain ⟨evs2, st, hrun2, hcalls2, hst⟩ := ih (i + 1)
      { s with trace := s.trace ++ evs, status := nextStatus E s }
      (by
        intro j hj a
        have := hbad (j + 1) (Nat.succ_lt_succ hj) a
        simpa [hcount, Nat.add_assoc, Nat.add_comm 1 j] using this)
    refine ⟨evs ++ evs2, st, ?_, ?_, hst⟩
    · rw [forLoop, bind_ok hrun, hc]
      simp only [Bool.not_true, Bool.false_eq_true, if_false]
      rw [hrun2]
      simp [List.append_assoc]
    · simp [calls_append, hcalls, hcalls2, List.replicate_succ]

theorem quality_gate_pass (K : Consts) (E : Env F) (s : St F)
    (h : badExposure K s.status = false) : quality_gate K E s = Res.ok () s := by
  simp only [badExposure] at h
  simp [quality_gate, ↓bind_run, getSt, ↓ite_run, h, pure_run]

theorem quality_gate_fail (K : Consts) (E : Env F) (s : St F)
    (h : badExposure K s.status = true) :
    quality_gate K E s = Res.exit 1 { s with trace := s.trace ++
      [Event.printf
         "\nSample program will be closed because of unusable image quality, press <ENTER>." [],
       Event.call Call.WFS_close [Arg.int s.handle],
       Event.fflush,
       Event.getchar (E.getchar (s.trace.countP Event.isGetchar))] } := by
  simp only [badExposure] at h
  simp [quality_gate, ↓bind_run, getSt, ↓ite_run, h, pure_run, printf_run, call, keep, fflush,
    emit, getchar, exit, List.countP_append, List.countP_cons, Event.isGetchar]

theorem printed_map_printf_same {γ : Type} (fmt : String) (l : List γ) (g : γ → List (Arg F)) :
    printed fmt (l.map (fun i => Event.printf fmt (g i))) = l.map g := by
  induction l with
  | nil => rfl
  | cons v l ih => simp [printed_cons, ih]

theorem printed_map_printf_other {γ : Type} (fmt f : String) (h : f ≠ fmt) (l : List γ)
    (g : γ → List (Arg F)) : printed fmt (l.map (fun i => Event.printf f (g i))) = [] := by
  induction l with
  | nil => rfl
  | cons v l ih => simp [printed_cons, ih, h]

theorem callCount_map_printf {γ : Type} (c : Call) (l : List γ) (f : γ → String)
    (g : γ → List (Arg F)) : callCount c (l.map (fun i => Event.printf (f i) (g i))) = 0 := by
  simp [callCount, calls_map_printf]

theorem countP_map_printf {γ : Type} (p : Event F → Bool) (hp : ∀ f a, p (Event.printf f a) = false)
    (l : List γ) (f : γ → String) (g : γ → List (Arg F)) :
    (l.map (fun i => Event.printf (f i) (g i))).countP p = 0 := by
  rw [List.countP_eq_zero]
  intro e he
  simp only [List.mem_map] at he
  rcases he with ⟨_, _, rfl⟩
  simp [hp]

/-! ### Logging loop -/

theorem write_log_run (E : Env F) (d r : F) (z : Nat → F) (s : St F) :
    ∃ evs, write_log E d r z s =
        Res.ok () { s with trace := s.trace ++ evs,
                           file := if E.fopen (s.trace.countP Event.isFopen) then
                             some (logText d r z) else s.file } ∧
      calls evs = [] ∧ evs.countP Event.isFopen = 1 ∧ evs.countP Event.isKeyHit = 0 ∧
      evs.countP Event.isGetKey = 0 := by
  have n10 : (tableAt zernike_modes SAMPLE_ZERNIKE_ORDERS).toNat = 10 := by decide
  have q10 : List.range 10 = [0, 1, 2, 3, 4, 5, 6, 7, 8, 9] := rfl
  cases h : E.fopen (s.trace.countP Event.isFopen) <;>
  simp [write_log, fopen, ↓bind_run, ↓ite_run, pure_run, h, fprintf, fclose, emit, forLoop, n10,
    q10, logText, calls_cons, calls_nil, Event.callOf, Event.isFopen, Event.isKeyHit,
    Event.isGetKey, List.countP_cons]


theorem log_body_run (K : Consts) (E : Env F) (h0 : AllZero E) (s : St F) :
    ∃ evs, log_body K E s =
        Res.ok (keyOf E s)
          { s with trace := s.trace ++ evs,
                   file := if E.fopen (s.trace.countP Event.isFopen) then
                     some (logText
                       ((E.drv Call.WFS_CalcWavefrontStatistics
                          (callCount Call.WFS_CalcWavefrontStatistics s.trace)
                          [Arg.int s.handle]).flt 2)
                       ((E.drv Call.WFS_CalcWavefrontStatistics
                          (callCount Call.WFS_CalcWavefrontStatistics s.trace)
                          [Arg.int s.handle]).flt 4)
                       ((E.drv Call.WFS_ZernikeLsf (callCount Call.WFS_ZernikeLsf s.trace)
                          [Arg.int s.handle, Arg.int SAMPLE_ZERNIKE_ORDERS]).vec 0))
                     else s.file } ∧
      calls evs = [Call.WFS_TakeSpotfieldImageAutoExpos, Call.WFS_CalcSpotsCentrDiaIntens,
        Call.WFS_CalcSpotToReferenceDeviations, Call.WFS_CalcWavefront,
        Call.WFS_CalcWavefrontStatistics, Call.WFS_ZernikeLsf] ∧
      evs.countP Event.isFopen = 1 ∧ evs.countP Event.isKeyHit = 1 ∧
      evs.countP Event.isGetKey = (if E.keyHit (s.trace.countP Event.isKeyHit) ≠ 0 then 1 else 0) ∧
      evs.countP Event.isGetchar = 0 := by
  have n10 : (tableAt zernike_modes SAMPLE_ZERNIKE_ORDERS).toNat = 10 := by decide
  have q10 : List.range 10 = [0, 1, 2, 3, 4, 5, 6, 7, 8, 9] := rfl
  by_cases hk : E.keyHit (s.trace.countP Event.isKeyHit) = 0 <;>
  cases hf : E.fopen (s.trace.countP Event.isFopen) <;>
  simp [log_body, check_run E h0, write_log, fopen, KeyHit, GetKey, ↓bind_run, ↓ite_run, pure_run,
    getSt, keep, hk, hf, fprintf, fclose, emit, forLoop, n10, q10, logText, keyOf,
    calls_cons, calls_nil, Event.callOf, Event.isFopen, Event.isKeyHit, Event.isGetKey,
    Event.isGetchar, List.countP_cons, List.countP_append, callCount_append, callCount_cons,
    callCount_nil]


theorem log_loop_rounds (K : Consts) (E : Env F) (h0 : AllZero E) :
    ∀ (n : Nat) (s : St F),
      (∀ key ∈ roundKeys E n (s.trace.countP Event.isKeyHit) (s.trace.countP Event.isGetKey),
        key ≠ K.VAL_ESC_VKEY) →
      ∃ evs fl,
        (∀ fuel, log_loop K E (fuel + n) s =
          log_loop K E fuel { s with trace := s.trace ++ evs, file := fl }) ∧
        callCount Call.WFS_CalcWavefrontStatistics evs = n ∧
        callCount Call.WFS_ZernikeLsf evs = n ∧
        evs.countP Event.isFopen = n := by
  intro n
  induction n with
  | zero =>
    intro s _
    refine ⟨[], s.file, ?_, rfl, rfl, rfl⟩
    intro fuel
    simp
  | succ n ih =>
    intro s hkeys
    obtain ⟨evs, hrun, hcalls, hfo, hkh, hgk, _⟩ := log_body_run K E h0 s
    have hkey : keyOf E s ≠ K.VAL_ESC_VKEY := by
      apply hkeys
      by_cases hk : E.keyHit (s.trace.countP Event.isKeyHit) = 0 <;> simp [roundKeys, keyOf, hk]
    obtain ⟨evs2, fl, hloop, hc1, hc2, hc3⟩ := ih
      { s with trace := s.trace ++ evs,
               file := if E.fopen (s.trace.countP Event.isFopen) then
                 some (logText
                   ((E.drv Call.WFS_CalcWavefrontStatistics
                      (callCount Call.WFS_CalcWavefrontStatistics s.trace)
                      [Arg.int s.handle]).flt 2)
                   ((E.drv Call.WFS_CalcWavefrontStatistics
                      (callCount Call.WFS_CalcWavefrontStatistics s.trace)
                      [Arg.int s.handle]).flt 4)
                   ((E.drv Call.WFS_ZernikeLsf (callCount Call.WFS_ZernikeLsf s.trace)
                      [Arg.int s.handle, Arg.int SAMPLE_ZERNIKE_ORDERS]).vec 0))
                 else s.file }
      (by
        intro key hmem
        apply hkeys
        by_cases hk : E.keyHit (s.trace.countP Event.isKeyHit) = 0
        · simp [List.countP_append, hkh, hgk, hk] at hmem
          simp [roundKeys, hk, hmem]
        · simp [List.countP_append, hkh, hgk, hk] at hmem
          simp [roundKeys, hk, hmem])
    refine ⟨evs ++ evs2, fl, ?_, ?_, ?_, ?_⟩
    · intro fuel
      show log_loop K E ((fuel + n) + 1) s = _
      rw [log_loop, bind_ok hrun]
      simp only [ne_eq, hkey, not_false_eq_true, if_true]
      rw [hloop fuel]
      simp [List.append_assoc]
    · have e1 : callCount Call.WFS_CalcWavefrontStatistics evs = 1 := by
        simp [callCount, hcalls]
      rw [callCount_append, e1, hc1, Nat.add_comm]
    · have e1 : callCount Call.WFS_ZernikeLsf evs = 1 := by
        simp [callCount, hcalls]
      rw [callCount_append, e1, hc2, Nat.add_comm]
    · rw [List.countP_append, hfo, hc3, Nat.add_comm]

/-- One round of the logging loop: its key value and its file and keyboard interactions. -/
theorem log_body_marks (K : Consts) (E : Env F) (h0 : AllZero E) (s : St F) :
    ∃ evs fl, log_body K E s =
        Res.ok (keyOf E s) { s with trace := s.trace ++ evs, file := fl } ∧
      evs.countP Event.isFopen = 1 ∧ evs.countP Event.isKeyHit = 1 ∧
      evs.countP Event.isGetKey = (if E.keyHit (s.trace.countP Event.isKeyHit) ≠ 0 then 1 else 0) ∧
      evs.filterMap Event.mark =
        roundMarks E (s.trace.countP Event.isFopen) (s.trace.countP Event.isKeyHit) := by
  have n10 : (tableAt zernike_modes SAMPLE_ZERNIKE_ORDERS).toNat = 10 := by decide
  by_cases hk : E.keyHit (s.trace.countP Event.isKeyHit) = 0 <;>
  cases hf : E.fopen (s.trace.countP Event.isFopen) <;>
  simp [log_body, check_run E h0, write_log, fopen, KeyHit, GetKey, ↓bind_run, ↓ite_run, pure_run,
    getSt, keep, hk, hf, fprintf, fclose, emit, forLoop, n10, keyOf, roundMarks, Event.mark,
    Event.isFopen, Event.isKeyHit, Event.isGetKey,
    List.countP_cons, List.countP_append, callCount_append, callCount_cons,
    callCount_nil, Event.callOf, List.filterMap_cons, List.filterMap_append, List.replicate]

/-- A key value other than 0 comes from a poll that reported a key press. -/
theorem roundKeys_pressed (E : Env F) : ∀ n kh gk j key,
    (roundKeys E n kh gk)[j]? = some key → key ≠ 0 → E.keyHit (kh + j) ≠ 0 := by
  intro n
  induction n with
  | zero => intro kh gk j key h; simp [roundKeys] at h
  | succ n ih =>
    intro kh gk j key h hne
    by_cases hk : E.keyHit kh = 0
    · cases j with
      | zero =>
        simp [roundKeys, hk] at h
        exact absurd h.symm hne
      | succ j =>
        simp [roundKeys, hk] at h
        have := ih (kh + 1) gk j key h hne
        rwa [Nat.add_assoc, Nat.add_comm 1 j] at this
    · cases j with
      | zero => simpa using hk
      | succ j =>
        simp [roundKeys, hk] at h
        have := ih (kh + 1) (gk + 1) j key h hne
        rwa [Nat.add_assoc, Nat.add_comm 1 j] at this

theorem range_flatMap_succ {β : Type} (f : Nat → List β) (n : Nat) :
    (List.range (n + 1)).flatMap f = f 0 ++ (List.range n).flatMap (fun j => f (j + 1)) := by
  rw [List.range_succ_eq_map, List.flatMap_cons, List.flatMap_map]

/-- The logging loop with `fuel` rounds allowed: it returns after the first round whose key
value is the escape key, and is still running after `fuel` rounds when there is none. -/
theorem log_loop_run (K : Consts) (E : Env F) (h0 : AllZero E) :
    ∀ (fuel : Nat) (s : St F), ∃ evs fl,
      log_loop K E fuel s =
        (if K.VAL_ESC_VKEY ∈ roundKeys E fuel (s.trace.countP Event.isKeyHit)
            (s.trace.countP Event.isGetKey)
          then Res.ok () { s with trace := s.trace ++ evs, file := fl }
          else Res.spin { s with trace := s.trace ++ evs, file := fl }) ∧
      evs.countP Event.isKeyHit =
        min fuel ((roundKeys E fuel (s.trace.countP Event.isKeyHit)
          (s.trace.countP Event.isGetKey)).indexOf K.VAL_ESC_VKEY + 1) ∧
      evs.filterMap Event.mark =
        (List.range (evs.countP Event.isKeyHit)).flatMap (fun j =>
          roundMarks E (s.trace.countP Event.isFopen + j) (s.trace.countP Event.isKeyHit + j)) := by
  intro fuel
  induction fuel with
  | zero =>
    intro s
    exact ⟨[], s.file, by simp [log_loop, spin, roundKeys], by simp, by simp⟩
  | succ fuel ih =>
    intro s
    obtain ⟨evs, fl, hrun, hfo, hkh, hgk, hmarks⟩ := log_body_marks K E h0 s
    have hkeys : roundKeys E (fuel + 1) (s.trace.countP Event.isKeyHit)
        (s.trace.countP Event.isGetKey) =
        keyOf E s :: roundKeys E fuel (s.trace.countP Event.isKeyHit + 1)
          (s.trace.countP Event.isGetKey +
            (if E.keyHit (s.trace.countP Event.isKeyHit) ≠ 0 then 1 else 0)) := by
      by_cases hk : E.keyHit (s.trace.countP Event.isKeyHit) = 0 <;> simp [roundKeys, keyOf, hk]
    rw [log_loop, bind_ok hrun, hkeys]
    by_cases hkey : keyOf E s = K.VAL_ESC_VKEY
    · refine ⟨evs, fl, ?_, ?_, ?_⟩
      · simp [hkey, pure_run]
      · rw [hkh, hkey, List.indexOf_cons_self]
        omega
      · rw [hkh, hmarks, range_flatMap_succ]
        simp
    · obtain ⟨evs2, fl2, hloop, hcnt, hm2⟩ := ih { s with trace := s.trace ++ evs, file := fl }
      simp only [List.countP_append, hkh, hgk, hfo] at hloop hcnt hm2
      have hne : ¬ K.VAL_ESC_VKEY = keyOf E s := fun h => hkey h.symm
      refine ⟨evs ++ evs2, fl2, ?_, ?_, ?_⟩
      · simp only [ne_eq, hkey, not_false_eq_true, if_true, hloop, List.mem_cons, hne, false_or,
          List.append_assoc]
      · rw [List.countP_append, hkh, hcnt, List.indexOf_cons_ne _ (fun h => hkey h)]
        omega
      · rw [List.filterMap_append, hmarks, hm2, List.countP_append, hkh, Nat.add_comm 1,
          range_flatMap_succ]
        simp [Nat.add_assoc, Nat.add_comm 1]

/-! ### Highspeed mode and camera configuration -/

theorem forLoop_printf (fmt : String) (g : Nat → List (Arg F)) (n i : Nat) (s : St F) :
    forLoop (fun i => do printf fmt (g i); pure false) n i s =
      Res.ok () { s with trace := s.trace ++
        (List.range' i n).map (fun i => Event.printf fmt (g i)) } := by
  have body : ∀ (i : Nat) (s : St F),
      (do printf fmt (g i); pure false : Prog F Bool) s =
        Res.ok false { s with trace := s.trace ++ [Event.printf fmt (g i)] } := by
    intro i s
    simp [↓bind_run, printf, emit, pure_run]
  rw [forLoop_emits _ (fun i => [Event.printf fmt (g i)]) body]
  have hflat : ∀ l : List Nat, l.flatMap (fun i => [Event.printf fmt (g i)]) =
      l.map (fun i => Event.printf fmt (g i)) := by
    intro l
    induction l with
    | nil => rfl
    | cons a l ih => simp [List.flatMap_cons, ih]
  rw [hflat]

theorem log_loop_keeps_id (K : Consts) (E : Env F) (h0 : AllZero E) :
    ∀ (fuel : Nat) (s : St F), (log_loop K E fuel s).st.selected_id = s.selected_id := by
  intro fuel
  induction fuel with
  | zero => intro s; rfl
  | succ fuel ih =>
    intro s
    obtain ⟨evs, hrun, -⟩ := log_body_run K E h0 s
    rw [log_loop, bind_ok hrun]
    split
    · rw [ih]
    · rfl

theorem logging_keeps_id (K : Consts) (E : Env F) (h0 : AllZero E) (fuel : Nat) (s : St F) :
    (logging K E fuel s).st.selected_id = s.selected_id := by
  simp only [logging, ↓bind_run, printf_run, fflush, emit, getchar, ↓ite_run]
  split
  · rw [log_loop_keeps_id K E h0]
  · rfl


theorem highspeed_cond (id : Int) :
    (bitSet id DEVICE_OFFSET_WFS10 || bitSet id DEVICE_OFFSET_WFS20) = decide (isWfs10or20 id) := by
  simp [bitSet, DEVICE_OFFSET_WFS10, DEVICE_OFFSET_WFS20, isWfs10or20]

theorem highspeed_skip (E : Env F) (s : St F) (h : ¬ isWfs10or20 s.selected_id) :
    highspeed E s = Res.ok () s := by
  simp [highspeed, ↓bind_run, getSt, ↓ite_run, highspeed_cond, h, pure_run]

theorem highspeed_declined (E : Env F) (s : St F) (h : isWfs10or20 s.selected_id)
    (ha : E.getchar (s.trace.countP Event.isGetchar) ≠ 49) :
    highspeed E s = Res.ok () { s with trace := s.trace ++
      [Event.printf "\nEnter Highspeed Mode 0/1?" [], Event.fflush,
       Event.getchar (E.getchar (s.trace.countP Event.isGetchar))] } := by
  have ha2 : ¬ E.getchar (s.trace.countP Event.isGetchar) - 48 = 1 := by omega
  simp [highspeed, ↓bind_run, getSt, ↓ite_run, highspeed_cond, h, pure_run, printf_run, fflush,
    emit, getchar, List.countP_append, List.countP_cons, Event.isGetchar, ha2]

set_option maxRecDepth 100000 in
set_option maxHeartbeats 4000000 in
theorem highspeed_accepted (E : Env F) (h0 : AllZero E) (s : St F)
    (h : isWfs10or20 s.selected_id)
    (ha : E.getchar (s.trace.countP Event.isGetchar) = 49) :
    ∃ evs, highspeed E s = Res.ok () { s with trace := s.trace ++
        (Event.printf "\nEnter Highspeed Mode 0/1?" [] :: Event.fflush ::
          Event.getchar (E.getchar (s.trace.countP Event.isGetchar)) :: evs) } ∧
      calls evs = [Call.WFS_SetHighspeedMode, Call.WFS_GetHighspeedWindows,
        Call.WFS_TakeSpotfieldImageAutoExpos, Call.WFS_CalcBeamCentroidDia,
        Call.WFS_GetSpotCentroids] ∧
      printed "\nEnter Highspeed Mode 0/1?" evs = [] := by
  simp [highspeed, highspeed_demo, highspeed_cond, h, ha,
    check_run E h0, print_grid_run, forLoop_printf, ↓bind_run, ↓ite_run, pure_run, getSt,
    printf_run, emit, getchar, keep, fflush, callCount_append, callCount_cons, callCount_nil,
    Event.callOf, List.countP_append, List.countP_cons, Event.isGetchar, callCount_rowEvents,
    countP_rowEvents, calls_append, calls_cons, calls_nil, calls_rowEvents, printed_cons,
    printed_nil, printed_append, calls_map_printf, callCount_map_printf, countP_map_printf,
    printed_rowEvents_other, printed_map_printf_other]


set_option maxRecDepth 100000 in
set_option maxHeartbeats 4000000 in
theorem configure_run (K : Consts) (E : Env F) (h0 : AllZero E) (s : St F) :
    ∃ evs sx sy, configure K E s =
        Res.ok () { s with trace := s.trace ++ evs, spots_x := sx, spots_y := sy } ∧
      (printed "\n\nConfigure WFS camera with resolution index %d (%d x %d pixels).\n" evs ≠ [] ↔
        ¬ isWfs10or20 s.selected_id) ∧
      callCount Call.WFS_ConfigureCam evs =
        (if Int.land s.selected_id 0x100 = 0 ∧ Int.land s.selected_id 0x200 = 0 then 1 else 0) +
        (if Int.land s.selected_id 0x100 ≠ 0 then 1 else 0) +
        (if Int.land s.selected_id 0x200 ≠ 0 then 1 else 0) ∧
      ∀ c ∈ calls evs, c ∈ [Call.WFS_SelectMla, Call.WFS_ConfigureCam,
        Call.WFS_SetReferencePlane, Call.WFS_SetPupil] := by
  by_cases h1 : Int.land s.selected_id 0x100 = 0 <;>
  by_cases h2 : Int.land s.selected_id 0x200 = 0 <;>
  simp [configure, bitSet, DEVICE_OFFSET_WFS10, DEVICE_OFFSET_WFS20, isWfs10or20, h1, h2,
    check_run E h0, ↓bind_run, ↓ite_run, pure_run, getSt,
    printf_run, emit, keep, callCount_append, callCount_cons, callCount_nil,
    Event.callOf, printed_cons, printed_nil, printed_append, calls_cons, calls_nil]

/-! ### Start-up phase -/

theorem Ext.refl (fg gc : Bool) (s : St F) : Ext fg gc s s :=
  ⟨[], by simp, by simp⟩

theorem Ext.trans {fg gc : Bool} {s t u : St F} (h1 : Ext fg gc s t) (h2 : Ext fg gc t u) :
    Ext fg gc s u := by
  obtain ⟨a, ha, qa⟩ := h1
  obtain ⟨b, hb, qb⟩ := h2
  refine ⟨a ++ b, by rw [hb, ha, List.append_assoc], ?_⟩
  intro e he
  rcases List.mem_append.mp he with h | h
  · exact qa e h
  · exact qb e h

theorem Event.quiet_mono {fg gc fg2 gc2 : Bool} (hf : fg = true → fg2 = true)
    (hg : gc = true → gc2 = true) (e : Event F) (h : e.quiet fg gc = true) :
    e.quiet fg2 gc2 = true := by
  cases e <;> simp_all [Event.quiet]

theorem Ext.mono {fg gc fg2 gc2 : Bool} {s t : St F} (h : Ext fg gc s t)
    (hf : fg = true → fg2 = true) (hg : gc = true → gc2 = true) : Ext fg2 gc2 s t := by
  obtain ⟨a, ha, qa⟩ := h
  exact ⟨a, ha, fun e he => Event.quiet_mono hf hg e (qa e he)⟩

theorem Ext.push {fg gc : Bool} (s : St F) (evs : List (Event F)) (t : St F)
    (ht : t.trace = s.trace ++ evs) (hq : evs.all (Event.quiet fg gc) = true) : Ext fg gc s t :=
  ⟨evs, ht, by simpa [List.all_eq_true] using hq⟩

theorem Ext.pre {fg gc : Bool} {s u t : St F} (evs : List (Event F)) (h : Ext fg gc u t)
    (hu : u.trace = s.trace ++ evs) (hq : evs.all (Event.quiet fg gc) = true) : Ext fg gc s t :=
  (Ext.push s evs u hu hq).trans h

theorem quiet_calls {fg gc : Bool} (evs : List (Event F)) (hq : ∀ e ∈ evs, e.quiet fg gc = true) :
    ∀ c ∈ calls evs, c ∈ preludeCalls := by
  induction evs with
  | nil => simp [calls_nil]
  | cons e evs ih =>
    intro c hc
    have he := hq e (List.mem_cons_self _ _)
    have ih2 := ih (fun e' h' => hq e' (List.mem_cons_of_mem _ h'))
    rw [calls_cons, List.mem_append] at hc
    rcases hc with h | h
    · cases e <;> simp_all [Event.callOf, Event.quiet]
    · exact ih2 c h

theorem quiet_countP {fg gc : Bool} (p : Event F → Bool) (evs : List (Event F))
    (hq : ∀ e ∈ evs, e.quiet fg gc = true) (hp : ∀ e : Event F, e.quiet fg gc = true → p e = false) :
    evs.countP p = 0 := by
  rw [List.countP_eq_zero]
  intro e he
  simp [hp e (hq e he)]

/-- A loop whose rounds only add start-up events without user input. -/
theorem forLoop_ext (body : Nat → Prog F Bool)
    (hb : ∀ i (s : St F), ∃ b t, body i s = Res.ok b t ∧ Ext false false s t ∧
      t.selected_id = s.selected_id) :
    ∀ (n i : Nat) (s : St F), ∃ t, forLoop body n i s = Res.ok () t ∧ Ext false false s t ∧
      t.selected_id = s.selected_id := by
  intro n
  induction n with
  | zero =>
    intro i s
    exact ⟨s, rfl, Ext.refl _ _ s, rfl⟩
  | succ n ih =>
    intro i s
    obtain ⟨b, t, hrun, hq, hid⟩ := hb i s
    rw [forLoop, bind_ok hrun]
    cases b with
    | true => exact ⟨t, rfl, hq, hid⟩
    | false =>
      obtain ⟨u, hrun2, hq2, hid2⟩ := ih (i + 1) t
      exact ⟨u, hrun2, hq.trans hq2, hid2.trans hid⟩


theorem list_instrument_body_run (K : Consts) (E : Env F) (h0 : AllZero E) (i : Nat) (s : St F) :
    ∃ b t, list_instrument_body K E i s = Res.ok b t ∧ Ext false false s t ∧
      t.selected_id = s.selected_id := by
  refine ⟨false, ?t, ?h, ?e, ?d⟩
  case h =>
    simp only [list_instrument_body, ↓bind_run, check_run E h0, printf_run, pure_run]
    exact rfl
  case e => exact Ext.push s _ _ (List.append_assoc _ _ _) (by simp [Event.quiet, preludeCalls])
  case d => rfl

theorem find_resource_body_run (K : Consts) (E : Env F) (h0 : AllZero E) (i : Nat) (s : St F) :
    ∃ b t, find_resource_body K E i s = Res.ok b t ∧ Ext false false s t ∧
      t.selected_id = s.selected_id := by
  refine ⟨?b, ?t, ?h, ?e, ?d⟩
  case h =>
    simp only [find_resource_body, ↓bind_run, check_run E h0, getSt, pure_run]
    exact rfl
  case e => exact Ext.push s _ _ (by exact rfl) (by simp [Event.quiet, preludeCalls])
  case d => rfl

theorem list_mla_body_run (E : Env F) (h0 : AllZero E) (err : Int) (i : Nat) (s : St F) :
    ∃ b t, list_mla_body E err i s = Res.ok b t ∧ Ext false false s t ∧
      t.selected_id = s.selected_id := by
  refine ⟨false, ?t, ?h, ?e, ?d⟩
  case h =>
    simp only [list_mla_body, ↓bind_run, getSt, call, keep, h0 _ _ _, ne_eq, not_true, if_false,
      ↓ite_run, pure_run, printf_run, List.append_assoc]
    exact rfl
  case e => exact Ext.push s _ _ (by exact rfl) (by simp [Event.quiet, preludeCalls])
  case d => rfl

theorem select_instrument_run (K : Consts) (E : Env F) (h0 : AllZero E) (s : St F)
    (hlen : callCount Call.WFS_GetInstrumentListLen s.trace = 0)
    (hfg : s.trace.countP Event.isFgets = 0)
    (hcnt : (E.drv Call.WFS_GetInstrumentListLen 0 [Arg.int K.VI_NULL]).int 0 ≠ 0) :
    ∃ t, select_instrument K E s = Res.ok (atoi (E.fgets 0)) t ∧ Ext true false s t := by
  unfold select_instrument
  rw [bind_ok (check_run E h0 _ _ _ s)]
  simp only [hlen, hcnt, if_false, keep]
  rw [bind_ok (printf_run _ _ _)]
  obtain ⟨t1, hrun1, he1, -⟩ := forLoop_ext _ (list_instrument_body_run K E h0)
    ((E.drv Call.WFS_GetInstrumentListLen 0 [Arg.int K.VI_NULL]).int 0).toNat 0
    { s with trace := s.trace ++ [Event.call Call.WFS_GetInstrumentListLen [Arg.int K.VI_NULL]] ++
        [Event.printf "Available Wavefront Sensor instruments:\n\n" []] }
  rw [bind_ok hrun1, bind_ok (printf_run _ _ _)]
  simp only [fflush, emit, fgets, modSt, ↓bind_run]
  obtain ⟨evs1, ht1, hq1⟩ := id he1
  simp only at ht1
  have hidx : List.countP Event.isFgets (t1.trace ++
      [Event.printf "\nSelect a Wavefront Sensor instrument: " []] ++ [Event.fflush]) = 0 := by
    rw [ht1]
    simp [List.countP_append, hfg, List.countP_cons, Event.isFgets,
      quiet_countP Event.isFgets evs1 hq1 (by intro e; cases e <;> simp [Event.quiet, Event.isFgets])]
  rw [hidx]
  obtain ⟨t2, hrun2, he2, hid2⟩ := forLoop_ext _ (find_resource_body_run K E h0)
    ((E.drv Call.WFS_GetInstrumentListLen 0 [Arg.int K.VI_NULL]).int 0).toNat 0
    { t1 with trace := t1.trace ++ [Event.printf "\nSelect a Wavefront Sensor instrument: " []] ++
        [Event.fflush] ++ [Event.fgets (E.fgets 0)], selected_id := atoi (E.fgets 0) }
  rw [hrun2]
  simp only [getSt, pure_run]
  refine ⟨t2, by rw [hid2], ?_⟩
  refine Ext.trans (Ext.pre
    [Event.call Call.WFS_GetInstrumentListLen [Arg.int K.VI_NULL],
     Event.printf "Available Wavefront Sensor instruments:\n\n" []]
    (he1.mono (fun _ => rfl) id) (by simp) (by simp [Event.quiet, preludeCalls])) ?_
  exact Ext.pre
    [Event.printf "\nSelect a Wavefront Sensor instrument: " [], Event.fflush,
     Event.fgets (E.fgets 0)]
    (he2.mono (fun _ => rfl) id) (by simp) (by simp [Event.quiet])

theorem open_session_run (K : Consts) (E : Env F) (h0 : AllZero E) (s : St F) :
    ∃ t, open_session K E s = Res.ok () t ∧ Ext false false s t := by
  refine ⟨?t, ?h, ?e⟩
  case h =>
    simp only [open_session, ↓bind_run, getSt, printf_run, check_run E h0, keep, pure_run,
      List.append_assoc]
    exact rfl
  case e =>
    exact Ext.push s _ _ (by exact rfl) (by simp [Event.quiet, preludeCalls])

theorem select_mla_run (E : Env F) (h0 : AllZero E) (s : St F)
    (hgc : s.trace.countP Event.isGetchar = 0) :
    ∃ t, select_mla E s =
        Res.ok (if E.getchar 0 - 48 < -1 then -1 else E.getchar 0 - 48) t ∧ Ext false true s t := by
  unfold select_mla
  rw [bind_ok (show getSt s = Res.ok s s from rfl), bind_ok (check_run E h0 _ _ _ s),
    bind_ok (printf_run _ _ _), bind_ok (show getSt _ = Res.ok _ _ from rfl)]
  obtain ⟨t1, hrun1, he1, -⟩ := forLoop_ext _ (list_mla_body_run E h0
      (E.drv Call.WFS_GetMlaCount (callCount Call.WFS_GetMlaCount s.trace) [Arg.int s.handle]).err)
    ((E.drv Call.WFS_GetMlaCount (callCount Call.WFS_GetMlaCount s.trace)
      [Arg.int s.handle]).int 0).toNat 0
    { trace := s.trace ++ [Event.call Call.WFS_GetMlaCount [Arg.int s.handle]] ++
        [Event.printf "\nAvailable Microlens Arrays:\n\n" []],
      file := s.file, selected_id := s.selected_id, handle := s.handle, status := s.status,
      mla_cnt := (E.drv Call.WFS_GetMlaCount (callCount Call.WFS_GetMlaCount s.trace)
        [Arg.int s.handle]).int 0,
      selected_mla := s.selected_mla, spots_x := s.spots_x, spots_y := s.spots_y,
      resourceName := s.resourceName }
  rw [bind_ok hrun1, bind_ok (printf_run _ _ _)]
  simp only [fflush, emit, getchar, modSt, getSt, ↓bind_run, ↓ite_run, pure_run]
  obtain ⟨evs1, ht1, hq1⟩ := id he1
  simp only at ht1
  have hidx : List.countP Event.isGetchar (t1.trace ++
      [Event.printf "\nSelect a Microlens Array: " []] ++ [Event.fflush]) = 0 := by
    rw [ht1]
    simp [List.countP_append, hgc, List.countP_cons, Event.isGetchar,
      quiet_countP Event.isGetchar evs1 hq1
        (by intro e; cases e <;> simp [Event.quiet, Event.isGetchar])]
  rw [hidx]
  have hpre : Ext false true s t1 := Ext.pre
    [Event.call Call.WFS_GetMlaCount [Arg.int s.handle],
     Event.printf "\nAvailable Microlens Arrays:\n\n" []]
    (he1.mono id (fun _ => rfl)) (by simp) (by simp [Event.quiet, preludeCalls])
  by_cases hlt : E.getchar 0 - 48 < -1
  · simp only [hlt, if_true]
    refine ⟨_, rfl, hpre.trans (Ext.push t1
      [Event.printf "\nSelect a Microlens Array: " [], Event.fflush,
       Event.getchar (E.getchar 0)] _ (by simp) (by simp [Event.quiet]))⟩
  · simp only [hlt, if_false, pure_run]
    refine ⟨_, rfl, hpre.trans (Ext.push t1
      [Event.printf "\nSelect a Microlens Array: " [], Event.fflush,
       Event.getchar (E.getchar 0)] _ (by simp) (by simp [Event.quiet]))⟩


/-- With a driver that answers 0, an instrument list that is not empty, a selection other
than 0 and a microlens array chosen, `main` gets to the session part; up to there it has
made start-up calls only. -/
theorem main_reaches_session (K : Consts) (E : Env F) (h0 : AllZero E) (fuel : Nat)
    (file : Option (List (Line F))) (rn : String)
    (hcnt : (E.drv Call.WFS_GetInstrumentListLen 0 [Arg.int K.VI_NULL]).int 0 ≠ 0)
    (hsel : atoi (E.fgets 0) ≠ 0) (hmla : 48 ≤ E.getchar 0) :
    ∃ s1, main K E fuel (St.init file rn) = session K E fuel s1 ∧
      Ext true true (St.init file rn) s1 := by
  unfold main
  rw [bind_ok (printf_run _ _ _), bind_ok (check_run E h0 _ _ _ _), bind_ok (printf_run _ _ _)]
  obtain ⟨t1, hrun1, he1⟩ := select_instrument_run K E h0
    { trace := ([] : List (Event F)) ++
        [Event.printf "This is a Thorlabs Wavefront Sensor sample application.\n\n" []] ++
        [Event.call Call.WFS_revision_query [Arg.int 0]] ++
        [Event.printf "WFS instrument driver version : %s\n\n"
          [Arg.str ((E.drv Call.WFS_revision_query 0 [Arg.int 0]).str 0)]],
      file := file, selected_id := 0, handle := 0, status := 0, mla_cnt := 0,
      selected_mla := 0, spots_x := 0, spots_y := 0, resourceName := rn }
    (by simp [callCount, calls, Event.callOf]) (by simp [Event.isFgets]) hcnt
  have hpre : Ext true false (St.init file rn) t1 := Ext.pre
    [Event.printf "This is a Thorlabs Wavefront Sensor sample application.\n\n" [],
     Event.call Call.WFS_revision_query [Arg.int 0],
     Event.printf "WFS instrument driver version : %s\n\n"
       [Arg.str ((E.drv Call.WFS_revision_query 0 [Arg.int 0]).str 0)]]
    he1 (by simp [St.init]) (by simp [Event.quiet, preludeCalls])
  have hst : (St.init file rn : St F) =
      { trace := [], file := file, selected_id := 0, handle := 0, status := 0, mla_cnt := 0,
        selected_mla := 0, spots_x := 0, spots_y := 0, resourceName := rn } := rfl
  simp only [hst, keep, callCount, calls, List.nil_append, List.filterMap_cons, Event.callOf,
    List.filterMap_nil, List.count_nil] at hrun1 ⊢
  rw [bind_ok hrun1]
  simp only [hsel, if_false]
  obtain ⟨t2, hrun2, he2⟩ := open_session_run K E h0 t1
  rw [bind_ok hrun2]
  have h12 : Ext true false (St.init file rn) t2 := hpre.trans (he2.mono (fun _ => rfl) id)
  have hgc : t2.trace.countP Event.isGetchar = 0 := by
    obtain ⟨evs, ht, hq⟩ := h12
    rw [ht]
    simp [St.init, quiet_countP Event.isGetchar evs hq
      (by intro e; cases e <;> simp [Event.quiet, Event.isGetchar])]
  obtain ⟨t3, hrun3, he3⟩ := select_mla_run E h0 t2 hgc
  rw [bind_ok hrun3]
  have hv : ¬ (if E.getchar 0 - 48 < -1 then (-1 : Int) else E.getchar 0 - 48) < 0 := by
    split <;> omega
  simp only [hv, if_false]
  exact ⟨t3, rfl, (h12.mono id (fun _ => rfl)).trans (he3.mono (fun _ => rfl) id)⟩

/-- The acquisition loop stops at the first clean status and the image-quality test lets
the program go on. -/
theorem acquire_until_clean (K : Consts) (E : Env F) (h0 : AllZero E) (s : St F)
    (k : Nat) (hk : k < 10)
    (hbad : ∀ j, j < k → ∀ a, badExposure K ((E.drv Call.WFS_GetStatus
      (callCount Call.WFS_GetStatus s.trace + j) a).int 0) = true)
    (hok : ∀ a, badExposure K ((E.drv Call.WFS_GetStatus
      (callCount Call.WFS_GetStatus s.trace + k) a).int 0) = false) :
    ∃ evs st,
      calls evs = (List.replicate (k + 1)
        [Call.WFS_TakeSpotfieldImageAutoExpos, Call.WFS_GetStatus]).flatten ∧
      badExposure K st = false ∧
      acquire K E s = Res.ok () { s with trace := s.trace ++ evs, status := st } ∧
      ∀ rest : Prog F Unit,
        (do acquire K E; quality_gate K E; rest) s =
          rest { s with trace := s.trace ++ evs, status := st } := by
  obtain ⟨m, hm⟩ : ∃ m, 10 = m + k + 1 := ⟨9 - k, by omega⟩
  obtain ⟨evs, st, hrun, hcalls, hst⟩ := acquire_loop_clean K E h0 m k 0 s hbad hok
  have hacq : acquire K E s = Res.ok () { s with trace := s.trace ++ evs, status := st } := by
    unfold acquire
    rw [show SAMPLE_IMAGE_READINGS = m + k + 1 from hm]
    exact hrun
  refine ⟨evs, st, hcalls, hst, hacq, ?_⟩
  intro rest
  rw [bind_ok hacq, bind_ok (quality_gate_pass K E _ hst)]

/-- After ten bad statuses the image-quality test ends the program: `WFS_close`, exit code 1,
and what would follow is not run. -/
theorem acquire_exhausted (K : Consts) (E : Env F) (h0 : AllZero E) (s : St F)
    (hbad : ∀ j, j < 10 → ∀ a, badExposure K ((E.drv Call.WFS_GetStatus
      (callCount Call.WFS_GetStatus s.trace + j) a).int 0) = true)
    (rest : Prog F Unit) :
    ∃ evs st,
      (do acquire K E; quality_gate K E; rest) s =
        Res.exit 1 { s with trace := s.trace ++ evs, status := st } ∧
      calls evs = (List.replicate 10
        [Call.WFS_TakeSpotfieldImageAutoExpos, Call.WFS_GetStatus]).flatten ++
          [Call.WFS_close] := by
  obtain ⟨evs, st, hrun, hcalls, hst⟩ := acquire_loop_bad K E h0 9 0 s hbad
  have hacq : acquire K E s = Res.ok () { s with trace := s.trace ++ evs, status := st } := hrun
  have hgate := quality_gate_fail K E { s with trace := s.trace ++ evs, status := st } hst
  have hall : calls (evs ++
      [Event.printf
         "\nSample program will be closed because of unusable image quality, press <ENTER>." [],
       Event.call Call.WFS_close [Arg.int s.handle],
       Event.fflush,
       Event.getchar (E.getchar ((s.trace ++ evs).countP Event.isGetchar))]) =
      (List.replicate 10
        [Call.WFS_TakeSpotfieldImageAutoExpos, Call.WFS_GetStatus]).flatten ++
          [Call.WFS_close] := by
    simp [calls_append, calls_cons, calls_nil, Event.callOf, hcalls]
  refine ⟨_, st, ?_, hall⟩
  rw [bind_ok hacq, bind_exit hgate]
  simp [List.append_assoc]

theorem callCount_eq_zero_of_subset (c : Call) (L : List Call) (t : List (Event F))
    (h : ∀ d ∈ calls t, d ∈ L) (hc : c ∉ L) : callCount c t = 0 := by
  unfold callCount
  rw [List.count_eq_zero]
  intro hmem
  exact hc (h c hmem)

/-- With a driver that answers 0, an instrument and a microlens array selected, `main` gets
to the acquisition loop; the calls made up to there are start-up and configuration calls. -/
theorem main_reaches_acquire (K : Consts) (E : Env F) (h0 : AllZero E) (fuel : Nat)
    (file : Option (List (Line F))) (rn : String)
    (hcnt : (E.drv Call.WFS_GetInstrumentListLen 0 [Arg.int K.VI_NULL]).int 0 ≠ 0)
    (hsel : atoi (E.fgets 0) ≠ 0) (hmla : 48 ≤ E.getchar 0) :
    ∃ s2, main K E fuel (St.init file rn) =
        (do acquire K E; quality_gate K E; measure K E; logging K E fuel; highspeed E;
            shutdown E) s2 ∧
      ∀ c ∈ calls s2.trace, c ∈ preludeCalls ++ [Call.WFS_SelectMla, Call.WFS_ConfigureCam,
        Call.WFS_SetReferencePlane, Call.WFS_SetPupil] := by
  obtain ⟨s1, hmain, ⟨evs, ht, hq⟩⟩ := main_reaches_session K E h0 fuel file rn hcnt hsel hmla
  obtain ⟨cevs, sx, sy, hconf, -, -, hsub⟩ := configure_run K E h0 s1
  refine ⟨{ s1 with trace := s1.trace ++ cevs, spots_x := sx, spots_y := sy }, ?_, ?_⟩
  · rw [hmain, session, bind_ok hconf]
  · intro c hc
    simp only [ht, St.init, List.nil_append, calls_append, List.mem_append] at hc
    rcases hc with h | h
    · exact List.mem_append_left _ (quiet_calls evs hq c h)
    · exact List.mem_append_right _ (hsub c h)

theorem acquire_loop_keeps_id (K : Consts) (E : Env F) (h0 : AllZero E) :
    ∀ (n i : Nat) (s : St F),
      (forLoop (acquire_body K E) n i s).st.selected_id = s.selected_id := by
  intro n
  induction n with
  | zero => intro i s; rfl
  | succ n ih =>
    intro i s
    obtain ⟨evs, hrun, -⟩ := acquire_body_run K E h0 i s
    rw [forLoop, bind_ok hrun]
    split
    · rfl
    · rw [ih]

theorem quality_gate_keeps_id (K : Consts) (E : Env F) (s : St F) :
    (quality_gate K E s).st.selected_id = s.selected_id := by
  cases h : badExposure K s.status
  · rw [quality_gate_pass K E s h]
    rfl
  · rw [quality_gate_fail K E s h]
    rfl

set_option maxRecDepth 100000 in
set_option maxHeartbeats 4000000 in
theorem measure_keeps_id (K : Consts) (E : Env F) (h0 : AllZero E) (s : St F) :
    (measure K E s).st.selected_id = s.selected_id := by
  simp [measure, check_run E h0, call, handle_errors, h0 _ _ _, print_grid_run,
    print_zernike_run, ↓bind_run, ↓ite_run, pure_run, getSt, printf, emit, getchar, keep, fflush,
    Res.st]

theorem demoEnv_allZero (status ch key : Int) : AllZero (demoEnv none 0 status ch key) := by
  intro c n a
  simp only [demoEnv]
  split <;> simp [demoReply]

theorem keysEnv_allZero (keys : List Int) : AllZero (keysEnv keys) :=
  demoEnv_allZero 0 49 0

/-! ### Instrument selection and camera configuration on every input -/

theorem listEnv_allZero (devs : List (Int × String)) (line : String) (ch : Int) :
    AllZero (listEnv devs line ch) := by
  intro c n a
  simp only [listEnv]
  split
  · rfl
  · split
    · split <;> rfl
    · exact demoEnv_allZero 0 ch 768 c n a

theorem find_resource_loop (devs : List (Int × String)) (line : String) (ch : Int) :
    ∀ (rest pre : List (Int × String)) (s : St Int), devs = pre ++ rest →
      ∃ t, forLoop (find_resource_body demoConsts (listEnv devs line ch)) rest.length pre.length s =
          Res.ok () t ∧
        t.selected_id = s.selected_id ∧
        t.resourceName = resourceAfter s.selected_id rest s.resourceName := by
  intro rest
  induction rest with
  | nil =>
    intro pre s _
    exact ⟨s, rfl, rfl, rfl⟩
  | cons d rest ih =>
    intro pre s hd
    have hget : devs[pre.length]?.getD (0, "") = d := by
      rw [hd, List.getElem?_append_right (Nat.le_refl _)]
      simp
    have hbody : find_resource_body demoConsts (listEnv devs line ch) pre.length s =
        Res.ok (decide (d.1 = s.selected_id))
          { s with trace := s.trace ++ [Event.call Call.WFS_GetInstrumentListInfo
                      [Arg.int demoConsts.VI_NULL, Arg.int pre.length]],
                   resourceName := d.2 } := by
      simp [find_resource_body, check_run _ (listEnv_allZero devs line ch), ↓bind_run, getSt,
        pure_run]
      simp [listEnv, infoReply, hget]
    rw [List.length_cons, forLoop, bind_ok hbody]
    by_cases hm : d.1 = s.selected_id
    · simp only [hm, decide_True, if_true]
      exact ⟨_, rfl, rfl, by simp [resourceAfter, hm]⟩
    · simp only [hm, decide_False]
      obtain ⟨t, hrun, hid, hrn⟩ := ih (pre ++ [d])
        { s with trace := s.trace ++ [Event.call Call.WFS_GetInstrumentListInfo
                    [Arg.int demoConsts.VI_NULL, Arg.int pre.length]],
                 resourceName := d.2 } (by simp [hd])
      rw [List.length_append, List.length_singleton] at hrun
      exact ⟨t, by simpa using hrun, hid, by simp [resourceAfter, hm, hrn]⟩

theorem resourceAfter_unlisted (sel : Int) : ∀ (devs : List (Int × String)) (rn : String)
    (hne : devs ≠ []), (∀ d ∈ devs, d.1 ≠ sel) → resourceAfter sel devs rn = (devs.getLast hne).2 := by
  intro devs
  induction devs with
  | nil => intro rn hne; exact absurd rfl hne
  | cons d rest ih =>
    intro rn hne hun
    have hd : d.1 ≠ sel := hun d (List.mem_cons_self _ _)
    cases rest with
    | nil => simp [resourceAfter, hd]
    | cons e rest =>
      rw [resourceAfter, if_neg hd, ih d.2 (List.cons_ne_nil _ _)
        (fun x hx => hun x (List.mem_cons_of_mem _ hx)), List.getLast_cons (List.cons_ne_nil _ _)]

theorem resourceAfter_listed (sel : Int) : ∀ (devs : List (Int × String)) (rn : String)
    (d : Int × String), devs.find? (fun x => decide (x.1 = sel)) = some d →
      resourceAfter sel devs rn = d.2 := by
  intro devs
  induction devs with
  | nil => intro rn d h; simp at h
  | cons e rest ih =>
    intro rn d h
    by_cases he : e.1 = sel
    · simp [List.find?_cons, he] at h
      subst h
      simp [resourceAfter, he]
    · simp [List.find?_cons, he] at h
      rw [resourceAfter, if_neg he]
      exact ih e.2 d h

/-- Function `select_instrument` on a driver that reports the instrument list `devs`, not
empty: it returns the number entered, whatever it is, and leaves the resource name of the
first listed instrument with that device id, or of the last listed instrument when no listed
instrument has that device id. -/
theorem select_instrument_listEnv (devs : List (Int × String)) (line : String) (ch : Int)
    (hne : devs ≠ []) (s : St Int) :
    ∃ t, select_instrument demoConsts (listEnv devs line ch) s = Res.ok (atoi line) t ∧
      t.selected_id = atoi line ∧
      (∀ d, devs.find? (fun x => decide (x.1 = atoi line)) = some d → t.resourceName = d.2) ∧
      ((∀ d ∈ devs, d.1 ≠ atoi line) → t.resourceName = (devs.getLast hne).2) := by
  have h0 := listEnv_allZero devs line ch
  have hlen : ∀ n a, ((listEnv devs line ch).drv Call.WFS_GetInstrumentListLen n a).int 0 =
      (devs.length : Int) := by
    intro n a
    simp [listEnv, demoReply]
  have hpos : (devs.length : Int) ≠ 0 := by
    have := List.length_pos.mpr hne
    omega
  unfold select_instrument
  rw [bind_ok (check_run _ h0 _ _ _ s)]
  simp only [hlen, hpos, if_false, keep, Int.toNat_ofNat]
  rw [bind_ok (printf_run _ _ _)]
  obtain ⟨t1, hrun1, -, -⟩ := forLoop_ext _ (list_instrument_body_run demoConsts _ h0)
    devs.length 0
    { s with trace := s.trace ++
        [Event.call Call.WFS_GetInstrumentListLen [Arg.int demoConsts.VI_NULL]] ++
        [Event.printf "Available Wavefront Sensor instruments:\n\n" []] }
  rw [bind_ok hrun1, bind_ok (printf_run _ _ _)]
  simp only [fflush, emit, fgets, modSt, ↓bind_run]
  obtain ⟨t2, hrun2, hid2, hrn2⟩ := find_resource_loop devs line ch devs [] 
    { t1 with trace := t1.trace ++ [Event.printf "\nSelect a Wavefront Sensor instrument: " []] ++
        [Event.fflush] ++ [Event.fgets line], selected_id := atoi line } rfl
  have hl : (listEnv devs line ch).fgets = fun _ => line := rfl
  simp only [hl, List.length_nil] at hrun2 ⊢
  rw [hrun2]
  simp only [getSt, pure_run]
  refine ⟨t2, by rw [hid2], hid2, ?_, ?_⟩
  · intro d hd
    rw [hrn2]
    exact resourceAfter_listed _ devs _ d hd
  · intro hun
    rw [hrn2]
    exact resourceAfter_unlisted _ devs _ hne hun

theorem callArgs_append (c : Call) (t u : List (Event F)) :
    callArgs c (t ++ u) = callArgs c t ++ callArgs c u := by
  simp [callArgs]

theorem callArgs_nil (c : Call) : callArgs c ([] : List (Event F)) = [] := rfl

theorem callArgs_cons (c : Call) (e : Event F) (t : List (Event F)) :
    callArgs c (e :: t) =
      (match e with
        | Event.call d args => if d = c then [args] else []
        | _ => []) ++ callArgs c t := by
  cases e with
  | call d args => by_cases h : d = c <;> simp [callArgs, List.filterMap_cons, h]
  | _ => simp [callArgs, List.filterMap_cons]

set_option maxRecDepth 100000 in
set_option maxHeartbeats 4000000 in
/-- The camera configuration for every device id: the calls of `WFS_ConfigureCam` are those of
the branches whose test holds, in source order; there are two of them exactly when the id has
the WFS10 bit and the WFS20 bit, and one otherwise. -/
theorem configure_cam_calls (K : Consts) (E : Env F) (h0 : AllZero E) (s : St F) :
    ∃ evs sx sy, configure K E s =
        Res.ok () { s with trace := s.trace ++ evs, spots_x := sx, spots_y := sy } ∧
      callArgs Call.WFS_ConfigureCam evs =
        (if Int.land s.selected_id 0x100 = 0 ∧ Int.land s.selected_id 0x200 = 0 then
          [[Arg.int s.handle, Arg.int K.PIXEL_FORMAT_MONO8, Arg.int K.CAM_RES_768]] else []) ++
        (if Int.land s.selected_id 0x100 ≠ 0 then
          [[Arg.int s.handle, Arg.int K.PIXEL_FORMAT_MONO8, Arg.int K.CAM_RES_WFS10_360]] else []) ++
        (if Int.land s.selected_id 0x200 ≠ 0 then
          [[Arg.int s.handle, Arg.int K.PIXEL_FORMAT_MONO8, Arg.int K.CAM_RES_WFS20_512]] else []) ∧
      (callArgs Call.WFS_ConfigureCam evs).length =
        (if Int.land s.selected_id 0x100 ≠ 0 ∧ Int.land s.selected_id 0x200 ≠ 0 then 2 else 1) := by
  by_cases h1 : Int.land s.selected_id 0x100 = 0 <;>
  by_cases h2 : Int.land s.selected_id 0x200 = 0 <;>
  simp [configure, bitSet, DEVICE_OFFSET_WFS10, DEVICE_OFFSET_WFS20, h1, h2,
    check_run E h0, ↓bind_run, ↓ite_run, pure_run, getSt,
    printf_run, emit, keep, callArgs_append, callArgs_cons, callArgs_nil]

/-! ### The number entered by the user -/

/-- The result of `atoi` is in the range of a 32-bit `int`. -/
theorem atoi_range (strg : String) : -2147483648 ≤ atoi strg ∧ atoi strg ≤ 2147483647 := by
  unfold atoi toInt32
  omega

/-- For a line that denotes a number in the range of `int`, `atoi` is that number. -/
theorem atoi_of_fits (strg : String)
    (h : -2147483648 ≤ atoiValue strg ∧ atoiValue strg ≤ 2147483647) :
    atoi strg = atoiValue strg := by
  unfold atoi toInt32 LONG_MAX LONG_MIN
  have h1 : min 9223372036854775807 (atoiValue strg) = atoiValue strg := by omega
  have h2 : max (-9223372036854775808) (atoiValue strg) = atoiValue strg := by omega
  rw [h1, h2]
  omega

/-! ### Highspeed mode in a whole run -/

theorem step_refl (sameId : Bool) (s : St F) : Step sameId s s :=
  ⟨fun _ => rfl, [], by simp, by simp⟩

theorem step_trans {sameId : Bool} {s t u : St F} (h1 : Step sameId s t) (h2 : Step sameId t u) :
    Step sameId s u := by
  obtain ⟨k1, a, ha, qa⟩ := h1
  obtain ⟨k2, b, hb, qb⟩ := h2
  refine ⟨fun h => (k2 h).trans (k1 h), a ++ b, by rw [hb, ha, List.append_assoc], ?_⟩
  intro e he
  rcases List.mem_append.mp he with h | h
  · exact qa e h
  · exact qb e h

theorem step_weaken {sameId : Bool} {s t : St F} (h : Step sameId s t) : Step false s t :=
  ⟨fun hk => absurd hk (by decide), h.2⟩

theorem step_one (sameId : Bool) (s : St F) (e : Event F) (he : e.plain = true) :
    Step sameId s { s with trace := s.trace ++ [e] } :=
  ⟨fun _ => rfl, [e], rfl, by simpa using he⟩

theorem tame_weaken {sameId : Bool} {p : Prog F α} (h : Tame sameId p) : Tame false p :=
  fun s => step_weaken (h s)

theorem tame_pure (sameId : Bool) (a : α) : Tame sameId (pure a : Prog F α) :=
  fun s => step_refl sameId s

theorem tame_bind {sameId : Bool} {p : Prog F α} {k : α → Prog F β} (hp : Tame sameId p)
    (hk : ∀ a, Tame sameId (k a)) : Tame sameId (p >>= k) := by
  intro s
  have h1 := hp s
  rw [bind_run]
  cases h : p s with
  | ok a s1 =>
    rw [h] at h1
    exact step_trans h1 (hk a s1)
  | exit c s1 =>
    rw [h] at h1
    exact h1
  | spin s1 =>
    rw [h] at h1
    exact h1

theorem tame_ite {sameId : Bool} (c : Prop) [Decidable c] {p q : Prog F α} (hp : Tame sameId p)
    (hq : Tame sameId q) : Tame sameId (if c then p else q) := by
  split
  · exact hp
  · exact hq

theorem tame_emit (sameId : Bool) (e : Event F) (he : e.plain = true) : Tame sameId (emit e) :=
  fun s => step_one sameId s e he

theorem tame_printf (sameId : Bool) (fmt : String) (args : List (Arg F))
    (h : (Event.printf fmt args).plain = true) : Tame sameId (printf fmt args) :=
  tame_emit sameId _ h

theorem tame_fflush (sameId : Bool) : Tame sameId (fflush : Prog F Unit) :=
  tame_emit sameId _ rfl

theorem tame_fclose (sameId : Bool) : Tame sameId (fclose : Prog F Unit) :=
  tame_emit sameId _ rfl

theorem tame_getSt (sameId : Bool) : Tame sameId (getSt : Prog F (St F)) :=
  fun s => step_refl sameId s

theorem tame_exit (sameId : Bool) (code : Int) : Tame sameId (exit code : Prog F Unit) :=
  fun s => step_refl sameId s

theorem tame_spin (sameId : Bool) : Tame sameId (spin : Prog F Unit) :=
  fun s => step_refl sameId s

theorem tame_getchar (sameId : Bool) (E : Env F) : Tame sameId (getchar E) :=
  fun s => step_one sameId s _ rfl

theorem tame_fgets (sameId : Bool) (E : Env F) : Tame sameId (fgets E) :=
  fun s => step_one sameId s _ rfl

theorem tame_KeyHit (sameId : Bool) (E : Env F) : Tame sameId (KeyHit E) :=
  fun s => step_one sameId s _ rfl

theorem tame_GetKey (sameId : Bool) (E : Env F) : Tame sameId (GetKey E) :=
  fun s => step_one sameId s _ rfl

theorem tame_fopen (sameId : Bool) (E : Env F) : Tame sameId (fopen E) :=
  fun s => ⟨fun _ => rfl, [_], rfl, by simp [Event.plain]⟩

theorem tame_fprintf (sameId : Bool) (fmt : String) (args : List (Arg F)) :
    Tame sameId (fprintf fmt args) :=
  fun s => ⟨fun _ => rfl, [_], rfl, by simp [Event.plain]⟩

/-- A driver call other than the three special ones, whose out-parameters are not the
history and not `instr.selected_id`. -/
theorem tame_call (sameId : Bool) (E : Env F) (c : Call) (args : List (Arg F))
    (store : Reply F → St F → St F)
    (hc : (Event.call c args : Event F).plain = true)
    (hs : ∀ r s, (store r s).trace = s.trace ∧ (store r s).selected_id = s.selected_id) :
    Tame sameId (call E c args store) := by
  intro s
  refine ⟨fun _ => ?_, [Event.call c args], ?_, by simpa using hc⟩
  · exact (hs _ _).2
  · exact (hs _ _).1

theorem tame_handle_errors (sameId : Bool) (E : Env F) (err : Int) :
    Tame sameId (handle_errors E err) := by
  unfold handle_errors
  refine tame_ite _ (tame_pure sameId _) ?_
  refine tame_bind (tame_getSt sameId) (fun s => ?_)
  refine tame_bind (tame_call sameId E _ _ _ rfl (fun _ _ => ⟨rfl, rfl⟩)) (fun r => ?_)
  refine tame_ite _ ?_ (tame_pure sameId _)
  refine tame_bind (tame_printf sameId _ _ rfl) (fun _ => ?_)
  refine tame_bind (tame_printf sameId _ _ rfl) (fun _ => ?_)
  refine tame_bind (tame_call sameId E _ _ _ rfl (fun _ _ => ⟨rfl, rfl⟩)) (fun _ => ?_)
  refine tame_bind (tame_fflush sameId) (fun _ => ?_)
  refine tame_bind (tame_getchar sameId E) (fun _ => ?_)
  exact tame_exit sameId 1

theorem tame_check (sameId : Bool) (E : Env F) (c : Call) (args : List (Arg F))
    (store : Reply F → St F → St F)
    (hc : (Event.call c args : Event F).plain = true)
    (hs : ∀ r s, (store r s).trace = s.trace ∧ (store r s).selected_id = s.selected_id) :
    Tame sameId (check E c args store) := by
  unfold check
  refine tame_bind (tame_call sameId E c args store hc hs) (fun r => ?_)
  dsimp only
  exact tame_ite _ (tame_bind (tame_handle_errors sameId E _) (fun _ => tame_pure sameId _))
    (tame_bind (tame_pure sameId _) (fun _ => tame_pure sameId _))

theorem tame_forLoop {sameId : Bool} (body : Nat → Prog F Bool) (hb : ∀ i, Tame sameId (body i)) :
    ∀ n i, Tame sameId (forLoop body n i) := by
  intro n
  induction n with
  | zero => intro i; exact tame_pure sameId ()
  | succ n ih =>
    intro i
    rw [forLoop]
    refine tame_bind (hb i) (fun b => ?_)
    exact tame_ite _ (tame_pure sameId ()) (ih (i + 1))


theorem tame_modSt (sameId : Bool) (f : St F → St F)
    (hf : ∀ s, (f s).trace = s.trace ∧ (sameId = true → (f s).selected_id = s.selected_id)) :
    Tame sameId (modSt f) := by
  intro s
  exact ⟨(hf s).2, [], by simpa using (hf s).1, by simp⟩

theorem tame_call_keep (sameId : Bool) (E : Env F) (c : Call) (args : List (Arg F))
    (hc : (Event.call c args : Event F).plain = true) : Tame sameId (call E c args keep) :=
  tame_call sameId E c args _ hc (fun _ _ => ⟨rfl, rfl⟩)

theorem tame_check_keep (sameId : Bool) (E : Env F) (c : Call) (args : List (Arg F))
    (hc : (Event.call c args : Event F).plain = true) : Tame sameId (check E c args keep) :=
  tame_check sameId E c args _ hc (fun _ _ => ⟨rfl, rfl⟩)

theorem tame_list_instrument_body (K : Consts) (E : Env F) (i : Nat) :
    Tame true (list_instrument_body K E i) := by
  unfold list_instrument_body
  repeat (first
    | with_reducible apply tame_bind
    | with_reducible apply tame_ite
    | with_reducible exact tame_pure _ _
    | ((with_reducible refine tame_printf _ _ _ ?_) <;> exact rfl)
    | ((with_reducible refine tame_check _ _ _ _ _ ?_ ?_) <;>
        (first | exact rfl | exact fun _ _ => ⟨rfl, rfl⟩))
    | with_reducible intro _
    | dsimp only)

theorem tame_find_resource_body (K : Consts) (E : Env F) (i : Nat) :
    Tame true (find_resource_body K E i) := by
  unfold find_resource_body
  repeat (first
    | with_reducible apply tame_bind
    | with_reducible exact tame_pure _ _
    | with_reducible exact tame_getSt _
    | ((with_reducible refine tame_check _ _ _ _ _ ?_ ?_) <;>
        (first | exact rfl | exact fun _ _ => ⟨rfl, rfl⟩))
    | with_reducible intro _
    | dsimp only)

theorem tame_select_instrument (K : Consts) (E : Env F) :
    Tame false (select_instrument K E) := by
  unfold select_instrument
  repeat (first
    | with_reducible exact tame_weaken (tame_list_instrument_body K E _)
    | with_reducible exact tame_weaken (tame_find_resource_body K E _)
    | ((with_reducible refine tame_modSt false _ ?_) <;>
        exact fun _ => ⟨rfl, fun h => absurd h (by decide)⟩)
    | with_reducible apply tame_forLoop
    | with_reducible apply tame_bind
    | with_reducible apply tame_ite
    | with_reducible exact tame_pure _ _
    | with_reducible exact tame_getSt _
    | with_reducible exact tame_fflush _
    | with_reducible exact tame_fgets _ _
    | ((with_reducible refine tame_printf _ _ _ ?_) <;> exact rfl)
    | ((with_reducible refine tame_check_keep _ _ _ _ ?_) <;> exact rfl)
    | with_reducible intro _
    | dsimp only)

theorem tame_list_mla_body (E : Env F) (err : Int) (i : Nat) :
    Tame true (list_mla_body E err i) := by
  unfold list_mla_body
  repeat (first
    | with_reducible apply tame_bind
    | with_reducible apply tame_ite
    | with_reducible exact tame_pure _ _
    | with_reducible exact tame_getSt _
    | ((with_reducible refine tame_printf _ _ _ ?_) <;> exact rfl)
    | ((with_reducible refine tame_call_keep _ _ _ _ ?_) <;> exact rfl)
    | with_reducible exact tame_handle_errors _ _ _
    | with_reducible intro _
    | dsimp only)

theorem tame_select_mla (E : Env F) :
    Tame true (select_mla E) := by
  unfold select_mla
  repeat (first
    | with_reducible exact tame_list_mla_body E _ _
    | with_reducible apply tame_forLoop
    | with_reducible apply tame_bind
    | with_reducible apply tame_ite
    | with_reducible exact tame_pure _ _
    | with_reducible exact tame_getSt _
    | with_reducible exact tame_fflush _
    | with_reducible exact tame_getchar _ _
    | ((with_reducible refine tame_printf _ _ _ ?_) <;> exact rfl)
    | ((with_reducible refine tame_check _ _ _ _ _ ?_ ?_) <;>
        (first | exact rfl | exact fun _ _ => ⟨rfl, rfl⟩))
    | ((with_reducible refine tame_modSt _ _ ?_) <;> exact fun _ => ⟨rfl, fun _ => rfl⟩)
    | with_reducible intro _
    | dsimp only)

theorem tame_print_grid (a : Nat → Nat → F) :
    Tame true (print_grid a) := by
  unfold print_grid
  repeat (first
    | with_reducible apply tame_forLoop
    | with_reducible apply tame_bind
    | with_reducible exact tame_pure _ _
    | ((with_reducible refine tame_printf _ _ _ ?_) <;> exact rfl)
    | with_reducible intro _
    | dsimp only)

theorem tame_open_session (K : Consts) (E : Env F) :
    Tame true (open_session K E) := by
  unfold open_session
  repeat (first
    | with_reducible apply tame_bind
    | with_reducible exact tame_getSt _
    | ((with_reducible refine tame_printf _ _ _ ?_) <;> exact rfl)
    | ((with_reducible refine tame_check_keep _ _ _ _ ?_) <;> exact rfl)
    | ((with_reducible refine tame_check _ _ _ _ _ ?_ ?_) <;>
        (first | exact rfl | exact fun _ _ => ⟨rfl, rfl⟩))
    | with_reducible intro _
    | dsimp only)

theorem tame_acquire_body (K : Consts) (E : Env F) (cnt : Nat) :
    Tame true (acquire_body K E cnt) := by
  unfold acquire_body
  repeat (first
    | with_reducible apply tame_bind
    | with_reducible apply tame_ite
    | with_reducible exact tame_pure _ _
    | with_reducible exact tame_getSt _
    | ((with_reducible refine tame_printf _ _ _ ?_) <;> exact rfl)
    | ((with_reducible refine tame_check_keep _ _ _ _ ?_) <;> exact rfl)
    | ((with_reducible refine tame_check _ _ _ _ _ ?_ ?_) <;>
        (first | exact rfl | exact fun _ _ => ⟨rfl, rfl⟩))
    | with_reducible intro _
    | dsimp only)

theorem tame_acquire (K : Consts) (E : Env F) :
    Tame true (acquire K E) := by
  unfold acquire
  repeat (first
    | with_reducible exact tame_acquire_body K E _
    | with_reducible apply tame_forLoop
    | with_reducible apply tame_bind
    | with_reducible intro _
    | dsimp only)

theorem tame_quality_gate (K : Consts) (E : Env F) :
    Tame true (quality_gate K E) := by
  unfold quality_gate
  repeat (first
    | with_reducible apply tame_bind
    | with_reducible apply tame_ite
    | with_reducible exact tame_pure _ _
    | with_reducible exact tame_getSt _
    | with_reducible exact tame_fflush _
    | with_reducible exact tame_getchar _ _
    | with_reducible exact tame_exit _ _
    | ((with_reducible refine tame_printf _ _ _ ?_) <;> exact rfl)
    | ((with_reducible refine tame_call_keep _ _ _ _ ?_) <;> exact rfl)
    | with_reducible intro _
    | dsimp only)

theorem tame_print_zernike (z : Nat → F) :
    Tame true (print_zernike z) := by
  unfold print_zernike
  repeat (first
    | with_reducible apply tame_forLoop
    | with_reducible apply tame_bind
    | with_reducible exact tame_pure _ _
    | ((with_reducible refine tame_printf _ _ _ ?_) <;> exact rfl)
    | with_reducible intro _
    | dsimp only)

set_option maxRecDepth 100000 in
theorem tame_measure (K : Consts) (E : Env F) :
    Tame true (measure K E) := by
  unfold measure
  repeat (first
    | with_reducible exact tame_print_grid _
    | with_reducible exact tame_print_zernike _
    | with_reducible apply tame_bind
    | with_reducible apply tame_ite
    | with_reducible exact tame_pure _ _
    | with_reducible exact tame_getSt _
    | with_reducible exact tame_fflush _
    | with_reducible exact tame_getchar _ _
    | ((with_reducible refine tame_printf _ _ _ ?_) <;> exact rfl)
    | ((with_reducible refine tame_check_keep _ _ _ _ ?_) <;> exact rfl)
    | ((with_reducible refine tame_call_keep _ _ _ _ ?_) <;> exact rfl)
    | with_reducible exact tame_handle_errors _ _ _
    | with_reducible intro _
    | dsimp only)

theorem tame_write_log (E : Env F) (d r : F) (z : Nat → F) :
    Tame true (write_log E d r z) := by
  unfold write_log
  repeat (first
    | with_reducible apply tame_forLoop
    | with_reducible apply tame_bind
    | with_reducible apply tame_ite
    | with_reducible exact tame_pure _ _
    | with_reducible exact tame_fclose _
    | with_reducible exact tame_fopen _ _
    | with_reducible exact tame_fprintf _ _ _
    | with_reducible intro _
    | dsimp only)

theorem tame_log_body (K : Consts) (E : Env F) :
    Tame true (log_body K E) := by
  unfold log_body
  repeat (first
    | with_reducible exact tame_write_log _ _ _ _
    | with_reducible apply tame_bind
    | with_reducible apply tame_ite
    | with_reducible exact tame_pure _ _
    | with_reducible exact tame_getSt _
    | with_reducible exact tame_KeyHit _ _
    | with_reducible exact tame_GetKey _ _
    | ((with_reducible refine tame_check_keep _ _ _ _ ?_) <;> exact rfl)
    | with_reducible intro _
    | dsimp only)

theorem tame_log_loop (K : Consts) (E : Env F) : ∀ fuel, Tame true (log_loop K E fuel) := by
  intro fuel
  induction fuel with
  | zero => exact tame_spin true
  | succ fuel ih =>
    rw [log_loop]
    exact tame_bind (tame_log_body K E) (fun key => tame_ite _ ih (tame_pure true ()))

theorem tame_logging (K : Consts) (E : Env F) (fuel : Nat) :
    Tame true (logging K E fuel) := by
  unfold logging
  repeat (first
    | with_reducible exact tame_log_loop K E _
    | with_reducible apply tame_bind
    | with_reducible apply tame_ite
    | with_reducible exact tame_pure _ _
    | with_reducible exact tame_fflush _
    | with_reducible exact tame_getchar _ _
    | ((with_reducible refine tame_printf _ _ _ ?_) <;> exact rfl)
    | with_reducible intro _
    | dsimp only)

theorem tame_shutdown (E : Env F) :
    Tame true (shutdown E) := by
  unfold shutdown
  repeat (first
    | with_reducible apply tame_bind
    | with_reducible exact tame_pure _ _
    | with_reducible exact tame_getSt _
    | with_reducible exact tame_fflush _
    | with_reducible exact tame_getchar _ _
    | ((with_reducible refine tame_printf _ _ _ ?_) <;> exact rfl)
    | ((with_reducible refine tame_call_keep _ _ _ _ ?_) <;> exact rfl)
    | with_reducible intro _
    | dsimp only)


/-! ### Reaching a later part of the program -/

theorem passes_self (sameId strict : Bool) (tail : Prog F α) : Passes sameId strict tail tail :=
  fun s => Or.inl ⟨s, step_refl sameId s, rfl⟩

theorem passes_tame {sameId : Bool} {tail q : Prog F α} (hq : Tame sameId q) :
    Passes sameId false tail q :=
  fun s => Or.inr ⟨hq s, fun h => absurd h (by decide)⟩

theorem passes_bind {sameId strict : Bool} {tail : Prog F β} {p : Prog F α} {k : α → Prog F β}
    (hp : Tame sameId p) (hk : ∀ a, Passes sameId strict tail (k a)) :
    Passes sameId strict tail (p >>= k) := by
  intro s
  have h1 := hp s
  rw [bind_run]
  cases h : p s with
  | ok a s1 =>
    rw [h] at h1
    rcases hk a s1 with ⟨t, ht, hrun⟩ | ⟨hst, hret⟩
    · exact Or.inl ⟨t, step_trans h1 ht, hrun⟩
    · exact Or.inr ⟨step_trans h1 hst, hret⟩
  | exit c s1 =>
    rw [h] at h1
    exact Or.inr ⟨h1, fun _ => rfl⟩
  | spin s1 =>
    rw [h] at h1
    exact Or.inr ⟨h1, fun _ => rfl⟩

theorem passes_ite {sameId strict : Bool} {tail : Prog F α} (c : Prop) [Decidable c]
    {p q : Prog F α} (hp : Passes sameId strict tail p) (hq : Passes sameId strict tail q) :
    Passes sameId strict tail (if c then p else q) := by
  split
  · exact hp
  · exact hq

/-- Function `main` either gets to the session part or ends before, and up to there it adds
plain events only. -/
theorem main_passes (K : Consts) (E : Env F) (fuel : Nat) :
    Passes false false (session K E fuel) (main K E fuel) := by
  unfold main
  refine passes_bind (tame_printf _ _ _ rfl) (fun _ => ?_)
  refine passes_bind (tame_check_keep _ _ _ _ rfl) (fun v => ?_)
  refine passes_bind (tame_printf _ _ _ rfl) (fun _ => ?_)
  refine passes_bind (tame_select_instrument K E) (fun sel => ?_)
  refine passes_ite _ (passes_tame ?_) ?_
  · exact tame_bind (tame_printf _ _ _ rfl) (fun _ => tame_bind (tame_fflush _)
      (fun _ => tame_bind (tame_getchar _ _) (fun _ => tame_pure _ _)))
  refine passes_bind (tame_weaken (tame_open_session K E)) (fun _ => ?_)
  refine passes_bind (tame_weaken (tame_select_mla E)) (fun mla => ?_)
  refine passes_ite _ (passes_tame ?_) (passes_self _ _ _)
  exact tame_bind (tame_printf _ _ _ rfl) (fun _ => tame_bind (tame_fflush _)
    (fun _ => tame_bind (tame_getchar _ _) (fun _ => tame_pure _ _)))

/-- After the camera configuration the session gets to the highspeed part or ends before
without returning; in between it adds plain events only and keeps the selected id. -/
theorem session_passes (K : Consts) (E : Env F) (fuel : Nat) :
    Passes true true (do highspeed E; shutdown E)
      (do acquire K E; quality_gate K E; measure K E; logging K E fuel; highspeed E;
          shutdown E) := by
  refine passes_bind (tame_acquire K E) (fun _ => ?_)
  refine passes_bind (tame_quality_gate K E) (fun _ => ?_)
  refine passes_bind (tame_measure K E) (fun _ => ?_)
  refine passes_bind (tame_logging K E fuel) (fun _ => ?_)
  exact passes_self _ _ _


theorem plain_callCount (evs : List (Event F)) (h : ∀ e ∈ evs, e.plain = true) (c : Call)
    (hc : c ∈ [Call.WFS_ConfigureCam, Call.WFS_SetHighspeedMode, Call.WFS_GetHighspeedWindows]) :
    callCount c evs = 0 := by
  induction evs with
  | nil => rfl
  | cons e evs ih =>
    have he := h e (List.mem_cons_self _ _)
    rw [callCount_cons, ih (fun x hx => h x (List.mem_cons_of_mem _ hx))]
    cases e with
    | call d args =>
      have hd : d ≠ c := by
        intro hdc
        subst hdc
        simp [Event.plain] at he
        simp at hc
        rcases hc with h1 | h1 | h1 <;> simp [h1] at he
      simp [Event.callOf, hd]
    | _ => simp [Event.callOf]

theorem plain_printed (evs : List (Event F)) (h : ∀ e ∈ evs, e.plain = true) (fmt : String)
    (hf : fmt = "\nEnter Highspeed Mode 0/1?" ∨
      fmt = "\n\nConfigure WFS camera with resolution index %d (%d x %d pixels).\n") :
    printed fmt evs = [] := by
  induction evs with
  | nil => rfl
  | cons e evs ih =>
    have he := h e (List.mem_cons_self _ _)
    rw [printed_cons, ih (fun x hx => h x (List.mem_cons_of_mem _ hx))]
    cases e with
    | printf f args =>
      have hd : f ≠ fmt := by
        intro hdc
        subst hdc
        simp [Event.plain] at he
        rcases hf with h1 | h1
        · exact he.1 h1
        · exact he.2 h1
      simp [hd]
    | _ => simp

set_option maxRecDepth 100000 in
set_option maxHeartbeats 4000000 in
/-- The camera configuration with a driver that answers 0: it calls `WFS_ConfigureCam`, takes
the WFS150/300 branch exactly for an id without the WFS10 and WFS20 bits, and has no part in
the highspeed mode. -/
theorem configure_facts (K : Consts) (E : Env F) (h0 : AllZero E) (s : St F) :
    ∃ evs sx sy, configure K E s =
        Res.ok () { s with trace := s.trace ++ evs, spots_x := sx, spots_y := sy } ∧
      callCount Call.WFS_ConfigureCam evs ≠ 0 ∧
      (printed "\n\nConfigure WFS camera with resolution index %d (%d x %d pixels).\n" evs ≠ [] ↔
        ¬ isWfs10or20 s.selected_id) ∧
      printed "\nEnter Highspeed Mode 0/1?" evs = [] ∧
      callCount Call.WFS_SetHighspeedMode evs = 0 ∧
      callCount Call.WFS_GetHighspeedWindows evs = 0 := by
  by_cases h1 : Int.land s.selected_id 0x100 = 0 <;>
  by_cases h2 : Int.land s.selected_id 0x200 = 0 <;>
  simp [configure, bitSet, DEVICE_OFFSET_WFS10, DEVICE_OFFSET_WFS20, isWfs10or20, h1, h2,
    check_run E h0, ↓bind_run, ↓ite_run, pure_run, getSt,
    printf_run, emit, keep, callCount_append, callCount_cons, callCount_nil,
    Event.callOf, printed_cons, printed_nil, printed_append]

theorem shutdown_run (E : Env F) (s : St F) :
    shutdown E s = Res.ok () { s with trace := s.trace ++
      [Event.printf "\nEnd of Sample Program, press <ENTER> to exit." [], Event.fflush,
       Event.getchar (E.getchar (s.trace.countP Event.isGetchar)),
       Event.call Call.WFS_close [Arg.int s.handle]] } := by
  simp [shutdown, ↓bind_run, pure_run, getSt, printf_run, fflush, emit, getchar, call, keep,
    List.countP_append, List.countP_cons, Event.isGetchar]


set_option maxRecDepth 100000 in
set_option maxHeartbeats 4000000 in
/-- The highspeed part for a WFS10/WFS20 id when the user answers `1`: the events after the
prompt and its answer hold one call of each highspeed function and no prompt and no message
of the WFS150/300 branch. -/
theorem highspeed_accepted_facts (E : Env F) (h0 : AllZero E) (s : St F)
    (h : isWfs10or20 s.selected_id)
    (ha : E.getchar (s.trace.countP Event.isGetchar) = 49) :
    ∃ evs, highspeed E s = Res.ok () { s with trace := s.trace ++
        (Event.printf "\nEnter Highspeed Mode 0/1?" [] :: Event.fflush :: Event.getchar 49 ::
          evs) } ∧
      callCount Call.WFS_SetHighspeedMode evs = 1 ∧
      callCount Call.WFS_GetHighspeedWindows evs = 1 ∧
      callCount Call.WFS_ConfigureCam evs = 0 ∧
      printed "\nEnter Highspeed Mode 0/1?" evs = [] ∧
      printed "\n\nConfigure WFS camera with resolution index %d (%d x %d pixels).\n" evs = [] := by
  simp [highspeed, highspeed_demo, highspeed_cond, h, ha,
    check_run E h0, print_grid_run, forLoop_printf, ↓bind_run, ↓ite_run, pure_run, getSt,
    printf_run, emit, getchar, keep, fflush, callCount_append, callCount_cons, callCount_nil,
    Event.callOf, List.countP_append, List.countP_cons, Event.isGetchar, callCount_rowEvents,
    countP_rowEvents, printed_cons,
    printed_nil, printed_append, callCount_map_printf, countP_map_printf,
    printed_rowEvents_other, printed_map_printf_other]


/-- The session part with a driver that answers 0, from any state: the camera is configured,
through the WFS150/300 branch exactly for an id without the two bits; the highspeed prompt is
printed at most once and only for an id with one of the bits, and in a run that returns it is
printed for every such id; the highspeed functions are called once each after the prompt was
answered with `1`, and not otherwise. -/
theorem session_highspeed (K : Consts) (E : Env F) (h0 : AllZero E) (fuel : Nat) (s : St F) :
    ∃ evs, (session K E fuel s).st.trace = s.trace ++ evs ∧
      (session K E fuel s).st.selected_id = s.selected_id ∧
      callCount Call.WFS_ConfigureCam evs ≠ 0 ∧
      (printed "\n\nConfigure WFS camera with resolution index %d (%d x %d pixels).\n" evs ≠ [] ↔
        ¬ isWfs10or20 s.selected_id) ∧
      ((session K E fuel s).returned = true →
        (printed "\nEnter Highspeed Mode 0/1?" evs ≠ [] ↔ isWfs10or20 s.selected_id)) ∧
      ((printed "\nEnter Highspeed Mode 0/1?" evs = [] ∧
          callCount Call.WFS_SetHighspeedMode evs = 0 ∧
          callCount Call.WFS_GetHighspeedWindows evs = 0) ∨
        (isWfs10or20 s.selected_id ∧ ∃ pre a rest,
          evs = pre ++ Event.printf "\nEnter Highspeed Mode 0/1?" [] :: Event.fflush ::
            Event.getchar a :: rest ∧
          printed "\nEnter Highspeed Mode 0/1?" pre = [] ∧
          printed "\nEnter Highspeed Mode 0/1?" rest = [] ∧
          callCount Call.WFS_SetHighspeedMode pre = 0 ∧
          callCount Call.WFS_GetHighspeedWindows pre = 0 ∧
          callCount Call.WFS_SetHighspeedMode rest = (if a = 49 then 1 else 0) ∧
          callCount Call.WFS_GetHighspeedWindows rest = (if a = 49 then 1 else 0))) := by
  obtain ⟨evC, sx, sy, hconf, hcc, hbr, hpc, hsc, hgc⟩ := configure_facts K E h0 s
  have hsess : session K E fuel s =
      (do acquire K E; quality_gate K E; measure K E; logging K E fuel; highspeed E;
          shutdown E) { s with trace := s.trace ++ evC, spots_x := sx, spots_y := sy } := by
    rw [session, bind_ok hconf]
  rw [hsess]
  rcases session_passes K E fuel { s with trace := s.trace ++ evC, spots_x := sx, spots_y := sy }
    with ⟨t, ⟨hid, evP, htr, hplain⟩, hrun⟩ | ⟨⟨hid, evP, htr, hplain⟩, hret⟩
  · have hidt : t.selected_id = s.selected_id := hid rfl
    have hPB := plain_printed evP hplain _ (Or.inr rfl)
    have hPP := plain_printed evP hplain _ (Or.inl rfl)
    have hPS := plain_callCount evP hplain Call.WFS_SetHighspeedMode (by simp)
    have hPG := plain_callCount evP hplain Call.WFS_GetHighspeedWindows (by simp)
    simp only at htr
    rw [hrun]
    by_cases hb : isWfs10or20 s.selected_id
    · have hbt : isWfs10or20 t.selected_id := by rw [hidt]; exact hb
      by_cases ha : E.getchar (t.trace.countP Event.isGetchar) = 49
      · obtain ⟨evH, hH, hHS, hHG, hHC, hHP, hHB⟩ := highspeed_accepted_facts E h0 t hbt ha
        rw [bind_ok hH, shutdown_run]
        refine ⟨evC ++ evP ++ (Event.printf "\nEnter Highspeed Mode 0/1?" [] :: Event.fflush ::
          Event.getchar 49 :: (evH ++ [Event.printf "\nEnd of Sample Program, press <ENTER> to exit." [],
            Event.fflush,
            Event.getchar (E.getchar ((t.trace ++ (Event.printf "\nEnter Highspeed Mode 0/1?" [] ::
              Event.fflush :: Event.getchar 49 :: evH)).countP Event.isGetchar)),
            Event.call Call.WFS_close [Arg.int t.handle]])), ?_, hidt, ?_, ?_, ?_, ?_⟩
        · simp [Res.st, htr, List.append_assoc]
        · simp only [callCount_append]
          omega
        · simp [printed_append, printed_cons, printed_nil, hPB, hHB, hbr]
        · intro _
          simp [printed_append, printed_cons, hb]
        · refine Or.inr ⟨hb, evC ++ evP, 49, _, rfl, ?_, ?_, ?_, ?_, ?_, ?_⟩
          · simp [printed_append, hpc, hPP]
          · simp [printed_append, printed_cons, printed_nil, hHP]
          · simp [callCount_append, hsc, hPS]
          · simp [callCount_append, hgc, hPG]
          · simp [callCount_append, callCount_cons, callCount_nil, Event.callOf, hHS]
          · simp [callCount_append, callCount_cons, callCount_nil, Event.callOf, hHG]
      · rw [bind_ok (highspeed_declined E t hbt ha), shutdown_run]
        refine ⟨evC ++ evP ++ (Event.printf "\nEnter Highspeed Mode 0/1?" [] :: Event.fflush ::
          Event.getchar (E.getchar (t.trace.countP Event.isGetchar)) ::
            [Event.printf "\nEnd of Sample Program, press <ENTER> to exit." [],
            Event.fflush,
            Event.getchar (E.getchar ((t.trace ++ [Event.printf "\nEnter Highspeed Mode 0/1?" [],
              Event.fflush, Event.getchar (E.getchar (t.trace.countP Event.isGetchar))]).countP
                Event.isGetchar)),
            Event.call Call.WFS_close [Arg.int t.handle]]), ?_, hidt, ?_, ?_, ?_, ?_⟩
        · simp [Res.st, htr, List.append_assoc]
        · simp only [callCount_append]
          omega
        · simp [printed_append, printed_cons, printed_nil, hPB, hbr]
        · intro _
          simp [printed_append, printed_cons, hb]
        · refine Or.inr ⟨hb, evC ++ evP, _, _, rfl, ?_, ?_, ?_, ?_, ?_, ?_⟩
          · simp [printed_append, hpc, hPP]
          · simp [printed_cons, printed_nil]
          · simp [callCount_append, hsc, hPS]
          · simp [callCount_append, hgc, hPG]
          · simp [callCount_cons, callCount_nil, Event.callOf, ha]
          · simp [callCount_cons, callCount_nil, Event.callOf, ha]
    · have hbt : ¬ isWfs10or20 t.selected_id := by rw [hidt]; exact hb
      rw [bind_ok (highspeed_skip E t hbt), shutdown_run]
      refine ⟨evC ++ evP ++
          [Event.printf "\nEnd of Sample Program, press <ENTER> to exit." [],
            Event.fflush, Event.getchar (E.getchar (t.trace.countP Event.isGetchar)),
            Event.call Call.WFS_close [Arg.int t.handle]], ?_, hidt, ?_, ?_, ?_, ?_⟩
      · simp [Res.st, htr, List.append_assoc]
      · simp only [callCount_append]
        omega
      · simp [printed_append, printed_cons, printed_nil, hPB, hbr]
      · intro _
        simp [printed_append, printed_cons, printed_nil, hpc, hPP, hb]
      · refine Or.inl ⟨?_, ?_, ?_⟩
        · simp [printed_append, printed_cons, printed_nil, hpc, hPP]
        · simp [callCount_append, callCount_cons, callCount_nil, Event.callOf, hsc, hPS]
        · simp [callCount_append, callCount_cons, callCount_nil, Event.callOf, hgc, hPG]
  · have hPB := plain_printed evP hplain _ (Or.inr rfl)
    have hPP := plain_printed evP hplain _ (Or.inl rfl)
    have hPS := plain_callCount evP hplain Call.WFS_SetHighspeedMode (by simp)
    have hPG := plain_callCount evP hplain Call.WFS_GetHighspeedWindows (by simp)
    simp only at htr
    refine ⟨evC ++ evP, ?_, hid rfl, ?_, ?_, ?_, ?_⟩
    · rw [htr, List.append_assoc]
    · simp only [callCount_append]
      omega
    · simp [printed_append, hPB, hbr]
    · intro hr
      rw [hret rfl] at hr
      exact absurd hr (by decide)
    · refine Or.inl ⟨?_, ?_, ?_⟩
      · simp [printed_append, hpc, hPP]
      · simp [callCount_append, hsc, hPS]
      · simp [callCount_append, hgc, hPG]

end Basics

/-! ## Properties -/

section Properties

variable {F : Type}

set_option maxRecDepth 100000 in
/-- C1 (fails on the code): with a driver whose `WFS_GetSpotDeviations` answers -1 and whose
other calls answer 0, the program does not close and exit at that call: `handle_errors` gets
the status of the call before, the program carries on with `WFS_CalcWavefront` and the rest
and returns normally.  The same happens for `WFS_GetMlaData`.  A negative status of the
sibling call `WFS_CalcWavefront` does end the program with exit code 1. -/
theorem negative_status_of_GetSpotDeviations_is_ignored :
    (main demoConsts (demoEnv (some Call.WFS_GetSpotDeviations) (-1) 0 48 768) 1
      (St.init none "")).code = none ∧
    (main demoConsts (demoEnv (some Call.WFS_GetSpotDeviations) (-1) 0 48 768) 1
      (St.init none "")).returned = true ∧
    calls (main demoConsts (demoEnv (some Call.WFS_GetSpotDeviations) (-1) 0 48 768) 1
      (St.init none "")).st.trace =
      [Call.WFS_revision_query, Call.WFS_GetInstrumentListLen, Call.WFS_GetInstrumentListInfo,
       Call.WFS_GetInstrumentListInfo, Call.WFS_init, Call.WFS_GetInstrumentInfo,
       Call.WFS_GetMlaCount, Call.WFS_GetMlaData, Call.WFS_SelectMla, Call.WFS_ConfigureCam,
       Call.WFS_SetReferencePlane, Call.WFS_SetPupil, Call.WFS_TakeSpotfieldImageAutoExpos,
       Call.WFS_GetStatus, Call.WFS_GetSpotfieldImage, Call.WFS_CalcSpotsCentrDiaIntens,
       Call.WFS_GetSpotCentroids, Call.WFS_CalcBeamCentroidDia,
       Call.WFS_CalcSpotToReferenceDeviations, Call.WFS_GetSpotDeviations,
       Call.WFS_CalcWavefront, Call.WFS_CalcWavefrontStatistics, Call.WFS_ZernikeLsf,
       Call.WFS_close] ∧
    (main demoConsts (demoEnv (some Call.WFS_GetMlaData) (-1) 0 48 768) 1
      (St.init none "")).code = none ∧
    calls (main demoConsts (demoEnv (some Call.WFS_GetMlaData) (-1) 0 48 768) 1
      (St.init none "")).st.trace =
      [Call.WFS_revision_query, Call.WFS_GetInstrumentListLen, Call.WFS_GetInstrumentListInfo,
       Call.WFS_GetInstrumentListInfo, Call.WFS_init, Call.WFS_GetInstrumentInfo,
       Call.WFS_GetMlaCount, Call.WFS_GetMlaData, Call.WFS_SelectMla, Call.WFS_ConfigureCam,
       Call.WFS_SetReferencePlane, Call.WFS_SetPupil, Call.WFS_TakeSpotfieldImageAutoExpos,
       Call.WFS_GetStatus, Call.WFS_GetSpotfieldImage, Call.WFS_CalcSpotsCentrDiaIntens,
       Call.WFS_GetSpotCentroids, Call.WFS_CalcBeamCentroidDia,
       Call.WFS_CalcSpotToReferenceDeviations, Call.WFS_GetSpotDeviations,
       Call.WFS_CalcWavefront, Call.WFS_CalcWavefrontStatistics, Call.WFS_ZernikeLsf,
       Call.WFS_close] ∧
    (main demoConsts (demoEnv (some Call.WFS_CalcWavefront) (-1) 0 48 768) 1
      (St.init none "")).code = some 1 := by
  decide!

set_option maxRecDepth 100000 in
/-- C2 (fails on the code): when the user selects no microlens array (here: presses ENTER at
the prompt) after `WFS_init` has succeeded, `main` returns without calling `WFS_close`. -/
theorem no_mla_selected_leaves_handle_open :
    (main demoConsts (demoEnv none 0 0 10 768) 1 (St.init none "")).returned = true ∧
    calls (main demoConsts (demoEnv none 0 0 10 768) 1 (St.init none "")).st.trace =
      [Call.WFS_revision_query, Call.WFS_GetInstrumentListLen, Call.WFS_GetInstrumentListInfo,
       Call.WFS_GetInstrumentListInfo, Call.WFS_init, Call.WFS_GetInstrumentInfo,
       Call.WFS_GetMlaCount, Call.WFS_GetMlaData] ∧
    callCount Call.WFS_init
      (main demoConsts (demoEnv none 0 0 10 768) 1 (St.init none "")).st.trace = 1 ∧
    callCount Call.WFS_close
      (main demoConsts (demoEnv none 0 0 10 768) 1 (St.init none "")).st.trace = 0 := by
  decide!

/-- C5: `handle_errors(err)` ends the process with exit code 1 exactly when `err < 0`, and
then it has looked up the message, printed it and called `WFS_close` once; for `err > 0` it
only looks up the message and returns, for `err = 0` it returns at once. -/
theorem handle_errors_exits_iff_negative (E : Env F) (err : Int) (s : St F) :
    ((handle_errors E err s).code = some 1 ↔ err < 0) ∧
    handle_errors E err s =
      (if err < 0 then
        Res.exit 1 { s with trace := s.trace ++
          [Event.call Call.WFS_error_message [Arg.int s.handle, Arg.int err],
           Event.printf "\nWavefront Sensor Error: %s\n"
             [Arg.str ((E.drv Call.WFS_error_message (callCount Call.WFS_error_message s.trace)
               [Arg.int s.handle, Arg.int err]).str 0)],
           Event.printf
             "\nSample program will be closed because of the occured error, press <ENTER>." [],
           Event.call Call.WFS_close [Arg.int s.handle],
           Event.fflush,
           Event.getchar (E.getchar (s.trace.countP Event.isGetchar))] }
      else if 0 < err then
        Res.ok () { s with trace := s.trace ++
          [Event.call Call.WFS_error_message [Arg.int s.handle, Arg.int err]] }
      else Res.ok () s) := by
  rcases lt_trichotomy err 0 with h | h | h
  · have h1 : err ≠ 0 := by omega
    simp [handle_errors, h, h1, ↓bind_run, ↓ite_run, pure_run, getSt, call, keep, printf, emit,
      fflush, getchar, exit, Res.code, List.countP_append, List.countP_cons, Event.isGetchar]
  · subst h
    simp [handle_errors, pure_run, Res.code]
  · have h1 : err ≠ 0 := by omega
    have h2 : ¬ err < 0 := by omega
    simp [handle_errors, h, h1, h2, ↓bind_run, ↓ite_run, pure_run, getSt, call, keep, Res.code]

/-- C3: when the driver answers 0 to every call, the user selects an instrument and a
microlens array, and the status stored by the `k`-th `WFS_GetStatus` (`k < 10`, counted from
0) is the first without the bits PTH, PTL, HAL, then the acquisition loop makes exactly
`k + 1` calls of `WFS_TakeSpotfieldImageAutoExpos` and the program goes on to the measurement
phase: `main` continues with `measure` in a state where exactly `k + 1` acquisition calls and
no measurement call have been made.  With `k = 0`: one acquisition attempt. -/
theorem stops_acquiring_at_first_clean_image (K : Consts) (E : Env F) (h0 : AllZero E)
    (fuel : Nat) (file : Option (List (Line F))) (rn : String)
    (hcnt : (E.drv Call.WFS_GetInstrumentListLen 0 [Arg.int K.VI_NULL]).int 0 ≠ 0)
    (hsel : atoi (E.fgets 0) ≠ 0) (hmla : 48 ≤ E.getchar 0)
    (k : Nat) (hk : k < 10)
    (hbad : ∀ j, j < k → ∀ a, badExposure K ((E.drv Call.WFS_GetStatus j a).int 0) = true)
    (hok : ∀ a, badExposure K ((E.drv Call.WFS_GetStatus k a).int 0) = false) :
    ∃ s3, main K E fuel (St.init file rn) =
        (do measure K E; logging K E fuel; highspeed E; shutdown E) s3 ∧
      callCount Call.WFS_TakeSpotfieldImageAutoExpos s3.trace = k + 1 ∧
      callCount Call.WFS_GetStatus s3.trace = k + 1 ∧
      badExposure K s3.status = false ∧
      ∀ c ∈ measureCalls, callCount c s3.trace = 0 := by
  obtain ⟨s2, hmain, hsub⟩ := main_reaches_acquire K E h0 fuel file rn hcnt hsel hmla
  have hz : ∀ c, c ∉ preludeCalls ++ [Call.WFS_SelectMla, Call.WFS_ConfigureCam,
      Call.WFS_SetReferencePlane, Call.WFS_SetPupil] → callCount c s2.trace = 0 :=
    fun c hc => callCount_eq_zero_of_subset c _ s2.trace hsub hc
  have hg : callCount Call.WFS_GetStatus s2.trace = 0 := hz _ (by decide)
  obtain ⟨evs, st, hcalls, hst, -, hrun⟩ := acquire_until_clean K E h0 s2 k hk
    (by intro j hj a; rw [hg, Nat.zero_add]; exact hbad j hj a)
    (by intro a; rw [hg, Nat.zero_add]; exact hok a)
  have hcount : ∀ c, callCount c evs = (List.replicate (k + 1)
      [Call.WFS_TakeSpotfieldImageAutoExpos, Call.WFS_GetStatus]).flatten.count c := by
    intro c
    rw [callCount, hcalls]
  refine ⟨{ s2 with trace := s2.trace ++ evs, status := st }, ?_, ?_, ?_, hst, ?_⟩
  · rw [hmain, hrun]
  · show callCount _ (s2.trace ++ evs) = k + 1
    rw [callCount_append, hz _ (by decide), hcount]
    simp [List.count_flatten, List.map_replicate, List.sum_replicate]
  · show callCount _ (s2.trace ++ evs) = k + 1
    rw [callCount_append, hg, hcount]
    simp [List.count_flatten, List.map_replicate, List.sum_replicate]
  · intro c hc
    show callCount _ (s2.trace ++ evs) = 0
    rw [callCount_append, hz c (by revert c; decide), hcount]
    have : List.count c [Call.WFS_TakeSpotfieldImageAutoExpos, Call.WFS_GetStatus] = 0 := by
      revert c
      decide
    simp [List.count_flatten, List.map_replicate, List.sum_replicate, this]

/-- C3 at a concrete stand-in: the first status is clean, one acquisition attempt. -/
theorem stops_acquiring_at_first_clean_image_witness :
    ∃ s3, main demoConsts (demoEnv none 0 0 48 768) 1 (St.init none "") =
        (do measure demoConsts (demoEnv none 0 0 48 768)
            logging demoConsts (demoEnv none 0 0 48 768) 1
            highspeed (demoEnv none 0 0 48 768)
            shutdown (demoEnv none 0 0 48 768)) s3 ∧
      callCount Call.WFS_TakeSpotfieldImageAutoExpos s3.trace = 0 + 1 ∧
      callCount Call.WFS_GetStatus s3.trace = 0 + 1 ∧
      badExposure demoConsts s3.status = false ∧
      ∀ c ∈ measureCalls, callCount c s3.trace = 0 :=
  stops_acquiring_at_first_clean_image demoConsts (demoEnv none 0 0 48 768)
    (demoEnv_allZero 0 48 768) 1 none "" (by decide) (by decide) (by decide) 0 (by decide)
    (fun j hj => absurd hj (Nat.not_lt_zero j)) (fun _ => rfl)

/-- C4: when the driver answers 0 to every call, the user selects an instrument and a
microlens array, and each of the first ten statuses has one of the bits PTH, PTL, HAL set,
the program makes exactly ten calls of `WFS_TakeSpotfieldImageAutoExpos`, no measurement
call, one call of `WFS_close`, and ends with exit code 1. -/
theorem gives_up_after_ten_bad_images (K : Consts) (E : Env F) (h0 : AllZero E) (fuel : Nat)
    (file : Option (List (Line F))) (rn : String)
    (hcnt : (E.drv Call.WFS_GetInstrumentListLen 0 [Arg.int K.VI_NULL]).int 0 ≠ 0)
    (hsel : atoi (E.fgets 0) ≠ 0) (hmla : 48 ≤ E.getchar 0)
    (hbad : ∀ j, j < 10 → ∀ a, badExposure K ((E.drv Call.WFS_GetStatus j a).int 0) = true) :
    (main K E fuel (St.init file rn)).code = some 1 ∧
    callCount Call.WFS_TakeSpotfieldImageAutoExpos (main K E fuel (St.init file rn)).st.trace
      = 10 ∧
    callCount Call.WFS_close (main K E fuel (St.init file rn)).st.trace = 1 ∧
    ∀ c ∈ measureCalls, callCount c (main K E fuel (St.init file rn)).st.trace = 0 := by
  obtain ⟨s2, hmain, hsub⟩ := main_reaches_acquire K E h0 fuel file rn hcnt hsel hmla
  have hz : ∀ c, c ∉ preludeCalls ++ [Call.WFS_SelectMla, Call.WFS_ConfigureCam,
      Call.WFS_SetReferencePlane, Call.WFS_SetPupil] → callCount c s2.trace = 0 :=
    fun c hc => callCount_eq_zero_of_subset c _ s2.trace hsub hc
  have hg : callCount Call.WFS_GetStatus s2.trace = 0 := hz _ (by decide)
  obtain ⟨evs, st, hrun, hcalls⟩ := acquire_exhausted K E h0 s2
    (by intro j hj a; rw [hg, Nat.zero_add]; exact hbad j hj a)
    (do measure K E; logging K E fuel; highspeed E; shutdown E)
  rw [hmain, hrun]
  refine ⟨rfl, ?_, ?_, ?_⟩
  · show callCount _ (s2.trace ++ evs) = 10
    rw [callCount_append, hz _ (by decide), callCount, hcalls]
    decide
  · show callCount _ (s2.trace ++ evs) = 1
    rw [callCount_append, hz _ (by decide), callCount, hcalls]
    decide
  · intro c hc
    show callCount _ (s2.trace ++ evs) = 0
    rw [callCount_append, hz c (by revert c; decide), callCount, hcalls]
    revert c
    decide

/-- C4 at a concrete stand-in whose status always has the bit PTH set. -/
theorem gives_up_after_ten_bad_images_witness :
    (main demoConsts (demoEnv none 0 2 48 768) 1 (St.init none "")).code = some 1 ∧
    callCount Call.WFS_TakeSpotfieldImageAutoExpos
      (main demoConsts (demoEnv none 0 2 48 768) 1 (St.init none "")).st.trace = 10 ∧
    callCount Call.WFS_close
      (main demoConsts (demoEnv none 0 2 48 768) 1 (St.init none "")).st.trace = 1 ∧
    ∀ c ∈ measureCalls,
      callCount c (main demoConsts (demoEnv none 0 2 48 768) 1 (St.init none "")).st.trace = 0 :=
  gives_up_after_ten_bad_images demoConsts (demoEnv none 0 2 48 768)
    (demoEnv_allZero 2 48 768) 1 none "" (by decide) (by decide) (by decide) (fun _ _ _ => rfl)

/-- C6: when the logging loop has run `n + 1` rounds (it went on after each of the first `n`
because `key` was not the escape key) and the file could be opened in the last of them, the
output file holds exactly the text for the values that the driver returned in that last round:
peak-to-valley, RMS and the Zernike lines; nothing of what the file held before is left. -/
theorem log_file_holds_last_round (K : Consts) (E : Env F) (h0 : AllZero E) (s : St F) (n : Nat)
    (hkeys : ∀ key ∈ roundKeys E n (s.trace.countP Event.isKeyHit)
      (s.trace.countP Event.isGetKey), key ≠ K.VAL_ESC_VKEY)
    (hopen : E.fopen (s.trace.countP Event.isFopen + n) = true) :
    (log_loop K E (n + 1) s).st.file =
      some (logText
        ((E.drv Call.WFS_CalcWavefrontStatistics
          (callCount Call.WFS_CalcWavefrontStatistics s.trace + n) [Arg.int s.handle]).flt 2)
        ((E.drv Call.WFS_CalcWavefrontStatistics
          (callCount Call.WFS_CalcWavefrontStatistics s.trace + n) [Arg.int s.handle]).flt 4)
        ((E.drv Call.WFS_ZernikeLsf (callCount Call.WFS_ZernikeLsf s.trace + n)
          [Arg.int s.handle, Arg.int SAMPLE_ZERNIKE_ORDERS]).vec 0)) := by
  obtain ⟨evs, fl, hloop, hc1, hc2, hc3⟩ := log_loop_rounds K E h0 n s hkeys
  obtain ⟨evs2, hrun, -⟩ := log_body_run K E h0 { s with trace := s.trace ++ evs, file := fl }
  have h1 : log_loop K E (n + 1) s =
      log_loop K E 1 { s with trace := s.trace ++ evs, file := fl } := by
    rw [Nat.add_comm]
    exact hloop 1
  rw [h1, log_loop, bind_ok hrun]
  simp only [List.countP_append, hc3, hopen, callCount_append, hc1, hc2, if_true]
  split <;> rfl

/-- C6 at a concrete stand-in: two rounds, a key other than escape pressed in the first. -/
theorem log_file_holds_last_round_witness :
    (log_loop demoConsts (demoEnv none 0 0 48 0) (1 + 1) (St.init (some []) "")).st.file =
      some (logText
        (((demoEnv none 0 0 48 0).drv Call.WFS_CalcWavefrontStatistics
          (callCount Call.WFS_CalcWavefrontStatistics (St.init (some []) "" : St Int).trace + 1)
          [Arg.int (St.init (some []) "" : St Int).handle]).flt 2)
        (((demoEnv none 0 0 48 0).drv Call.WFS_CalcWavefrontStatistics
          (callCount Call.WFS_CalcWavefrontStatistics (St.init (some []) "" : St Int).trace + 1)
          [Arg.int (St.init (some []) "" : St Int).handle]).flt 4)
        (((demoEnv none 0 0 48 0).drv Call.WFS_ZernikeLsf
          (callCount Call.WFS_ZernikeLsf (St.init (some []) "" : St Int).trace + 1)
          [Arg.int (St.init (some []) "" : St Int).handle,
           Arg.int SAMPLE_ZERNIKE_ORDERS]).vec 0)) :=
  log_file_holds_last_round demoConsts (demoEnv none 0 0 48 0) (demoEnv_allZero 0 48 0)
    (St.init (some []) "") 1 (by decide) rfl

set_option maxRecDepth 100000 in
set_option maxHeartbeats 4000000 in
/-- C7: the Zernike printout on the console and the Zernike section of the log file each have
exactly `zernike_modes[SAMPLE_ZERNIKE_ORDERS] = 10` coefficient lines, for indices 0..9 of
`zernike_um`, whatever order and coefficients `WFS_ZernikeLsf` hands back. -/
theorem zernike_printout_has_ten_lines (K : Consts) (E : Env F) (h0 : AllZero E) (s : St F)
    (hopen : E.fopen (s.trace.countP Event.isFopen) = true) :
    tableAt zernike_modes SAMPLE_ZERNIKE_ORDERS = 10 ∧
    (∃ evs, measure K E s = Res.ok () { s with trace := s.trace ++ evs } ∧
      printed "  %2d         %9.3f\n" evs =
        (List.range 10).map (fun (i : Nat) => [Arg.int i, Arg.flt
          ((E.drv Call.WFS_ZernikeLsf (callCount Call.WFS_ZernikeLsf s.trace)
            [Arg.int s.handle, Arg.int SAMPLE_ZERNIKE_ORDERS]).vec 0 i)]) ∧
      (printed "  %2d         %9.3f\n" evs).length = 10) ∧
    (∃ evs lines, log_body K E s =
        Res.ok (keyOf E s) { s with trace := s.trace ++ evs, file := some lines } ∧
      lines.filter (fun l => l.1 = "%2d    %8.3f\n") =
        (List.range 10).map (fun (i : Nat) => ("%2d    %8.3f\n", [Arg.int i, Arg.flt
          ((E.drv Call.WFS_ZernikeLsf (callCount Call.WFS_ZernikeLsf s.trace)
            [Arg.int s.handle, Arg.int SAMPLE_ZERNIKE_ORDERS]).vec 0 i)])) ∧
      (lines.filter (fun l => l.1 = "%2d    %8.3f\n")).length = 10) := by
  refine ⟨by decide, ?_, ?_⟩
  · simp [measure, check_run E h0, call, handle_errors, h0 _ _ _, print_grid_run,
      print_zernike_run, ↓bind_run, ↓ite_run, pure_run, getSt, printf, emit, getchar, keep,
      fflush, callCount_append, callCount_cons, callCount_nil, Event.callOf,
      List.countP_append, List.countP_cons, Event.isGetchar, callCount_rowEvents,
      countP_rowEvents, printed_append, printed_cons, printed_nil,
      printed_rowEvents_other, printed_map_printf_same]
  · obtain ⟨evs, hrun, -⟩ := log_body_run K E h0 s
    rw [hopen] at hrun
    refine ⟨evs, _, hrun, ?_, ?_⟩
    · have q10 : List.range 10 = [0, 1, 2, 3, 4, 5, 6, 7, 8, 9] := rfl
      simp [logText, q10, List.filter_cons]
    · have q10 : List.range 10 = [0, 1, 2, 3, 4, 5, 6, 7, 8, 9] := rfl
      simp [logText, q10, List.filter_cons]

/-- C7 at a concrete stand-in: the console printout of the measurement phase. -/
theorem zernike_printout_has_ten_lines_witness :
    ∃ evs, measure demoConsts (demoEnv none 0 0 48 768) (St.init none "") =
        Res.ok () { (St.init none "" : St Int) with
          trace := (St.init none "" : St Int).trace ++ evs } ∧
      printed "  %2d         %9.3f\n" evs =
        (List.range 10).map (fun (i : Nat) => [Arg.int i, Arg.flt
          (((demoEnv none 0 0 48 768).drv Call.WFS_ZernikeLsf
            (callCount Call.WFS_ZernikeLsf (St.init none "" : St Int).trace)
            [Arg.int (St.init none "" : St Int).handle, Arg.int SAMPLE_ZERNIKE_ORDERS]).vec 0 i)]) ∧
      (printed "  %2d         %9.3f\n" evs).length = 10 :=
  (zernike_printout_has_ten_lines demoConsts (demoEnv none 0 0 48 768)
    (demoEnv_allZero 0 48 768) (St.init none "") rfl).2.1

set_option maxRecDepth 100000 in
set_option maxHeartbeats 4000000 in
/-- C8: every result-grid printout emits exactly the 25 elements `a[i][j]`, `i, j = 0..4`, row
by row in 5 lines of 5, whatever grid size `spots_x` x `spots_y` the state holds; in the
measurement phase the values printed with the grid format are these windows of centroid X,
centroid Y, deviation X, deviation Y and wavefront, in this order. -/
theorem grid_printout_is_first_5x5 (K : Consts) (E : Env F) (h0 : AllZero E) (s : St F)
    (a : Nat → Nat → F) :
    gridWindow a =
      [[a 0 0, a 0 1, a 0 2, a 0 3, a 0 4],
       [a 1 0, a 1 1, a 1 2, a 1 3, a 1 4],
       [a 2 0, a 2 1, a 2 2, a 2 3, a 2 4],
       [a 3 0, a 3 1, a 3 2, a 3 3, a 3 4],
       [a 4 0, a 4 1, a 4 2, a 4 3, a 4 4]] ∧
    print_grid a s = Res.ok () { s with trace := s.trace ++ rowEvents (gridWindow a) } ∧
    printed " %8.3f" (rowEvents (gridWindow a)) = (gridWindow a).flatten.map (fun v => [Arg.flt v]) ∧
    (printed "\n" (rowEvents (gridWindow a))).length = 5 ∧
    ∃ evs, measure K E s = Res.ok () { s with trace := s.trace ++ evs } ∧
      printed " %8.3f" evs =
        (gridWindow ((E.drv Call.WFS_GetSpotCentroids
            (callCount Call.WFS_GetSpotCentroids s.trace) [Arg.int s.handle]).grid 0) ++
         gridWindow ((E.drv Call.WFS_GetSpotCentroids
            (callCount Call.WFS_GetSpotCentroids s.trace) [Arg.int s.handle]).grid 1) ++
         gridWindow ((E.drv Call.WFS_GetSpotDeviations
            (callCount Call.WFS_GetSpotDeviations s.trace) [Arg.int s.handle]).grid 0) ++
         gridWindow ((E.drv Call.WFS_GetSpotDeviations
            (callCount Call.WFS_GetSpotDeviations s.trace) [Arg.int s.handle]).grid 1) ++
         gridWindow ((E.drv Call.WFS_CalcWavefront
            (callCount Call.WFS_CalcWavefront s.trace)
            [Arg.int s.handle, Arg.int K.WAVEFRONT_MEAS,
             Arg.int SAMPLE_OPTION_LIMIT_TO_PUPIL]).grid 0)).flatten.map
          (fun v => [Arg.flt v]) := by
  have q5 : List.range 5 = [0, 1, 2, 3, 4] := rfl
  refine ⟨by simp [gridWindow, q5], print_grid_run a s, printed_rowEvents_value _, ?_, ?_⟩
  · simp [gridWindow, q5, rowEvents, printed_cons, printed_nil, printed_append]
  · simp [measure, check_run E h0, call, handle_errors, h0 _ _ _, print_grid_run,
      print_zernike_run, ↓bind_run, ↓ite_run, pure_run, getSt, printf, emit, getchar, keep,
      fflush, callCount_append, callCount_cons, callCount_nil, Event.callOf,
      List.countP_append, List.countP_cons, Event.isGetchar, callCount_rowEvents,
      countP_rowEvents, printed_append, printed_cons, printed_nil, printed_rowEvents_value]
    exact printed_map_printf_other _ _ (by decide) _ _

/-- C8 at a concrete stand-in and a concrete grid. -/
theorem grid_printout_is_first_5x5_witness :
    print_grid (fun i j => ((10 * i + j : Nat) : Int)) (St.init none "") =
      Res.ok () { (St.init none "" : St Int) with
        trace := (St.init none "" : St Int).trace ++
          rowEvents (gridWindow (fun i j => ((10 * i + j : Nat) : Int))) } ∧
    printed " %8.3f" (rowEvents (gridWindow (fun i j => ((10 * i + j : Nat) : Int)))) =
      (gridWindow (fun i j => ((10 * i + j : Nat) : Int))).flatten.map (fun v => [Arg.flt v]) ∧
    (printed "\n" (rowEvents (gridWindow (fun i j => ((10 * i + j : Nat) : Int))))).length = 5 :=
  ⟨(grid_printout_is_first_5x5 demoConsts (demoEnv none 0 0 48 768)
      (demoEnv_allZero 0 48 768) (St.init none "") (fun i j => ((10 * i + j : Nat) : Int))).2.1,
   (grid_printout_is_first_5x5 demoConsts (demoEnv none 0 0 48 768)
      (demoEnv_allZero 0 48 768) (St.init none "") (fun i j => ((10 * i + j : Nat) : Int))).2.2.1,
   (grid_printout_is_first_5x5 demoConsts (demoEnv none 0 0 48 768)
      (demoEnv_allZero 0 48 768) (St.init none "") (fun i j => ((10 * i + j : Nat) : Int))).2.2.2.1⟩

/-- C9: in every run of the program with a driver that answers 0, whatever the user enters:
for a selected id without the WFS10 bit (0x100) and the WFS20 bit (0x200), neither
`WFS_SetHighspeedMode` nor `WFS_GetHighspeedWindows` is called in the whole run and the
highspeed prompt is not printed; for every id the prompt is printed at most once, and the two
functions are called (once each, after the prompt) exactly when the character read at the
prompt is `1`; in a run in which the camera was configured, the WFS150/300 branch was taken
exactly when the id has neither bit; and in such a run that gets to the end of `main`, the
prompt was printed exactly when the id has one of the bits, which is exactly when the
WFS150/300 branch was not taken. -/
theorem highspeed_only_for_wfs10_wfs20 (K : Consts) (E : Env F) (h0 : AllZero E) (fuel : Nat)
    (file : Option (List (Line F))) (rn : String) :
    (¬ isWfs10or20 (main K E fuel (St.init file rn)).st.selected_id →
      callCount Call.WFS_SetHighspeedMode (main K E fuel (St.init file rn)).st.trace = 0 ∧
      callCount Call.WFS_GetHighspeedWindows (main K E fuel (St.init file rn)).st.trace = 0 ∧
      printed "\nEnter Highspeed Mode 0/1?" (main K E fuel (St.init file rn)).st.trace = []) ∧
    ((printed "\nEnter Highspeed Mode 0/1?" (main K E fuel (St.init file rn)).st.trace = [] ∧
        callCount Call.WFS_SetHighspeedMode (main K E fuel (St.init file rn)).st.trace = 0 ∧
        callCount Call.WFS_GetHighspeedWindows (main K E fuel (St.init file rn)).st.trace = 0) ∨
      (isWfs10or20 (main K E fuel (St.init file rn)).st.selected_id ∧ ∃ pre a rest,
        (main K E fuel (St.init file rn)).st.trace =
          pre ++ Event.printf "\nEnter Highspeed Mode 0/1?" [] :: Event.fflush ::
            Event.getchar a :: rest ∧
        printed "\nEnter Highspeed Mode 0/1?" pre = [] ∧
        printed "\nEnter Highspeed Mode 0/1?" rest = [] ∧
        callCount Call.WFS_SetHighspeedMode pre = 0 ∧
        callCount Call.WFS_GetHighspeedWindows pre = 0 ∧
        callCount Call.WFS_SetHighspeedMode rest = (if a = 49 then 1 else 0) ∧
        callCount Call.WFS_GetHighspeedWindows rest = (if a = 49 then 1 else 0))) ∧
    (callCount Call.WFS_ConfigureCam (main K E fuel (St.init file rn)).st.trace ≠ 0 →
      (printed "\n\nConfigure WFS camera with resolution index %d (%d x %d pixels).\n"
          (main K E fuel (St.init file rn)).st.trace ≠ [] ↔
        ¬ isWfs10or20 (main K E fuel (St.init file rn)).st.selected_id)) ∧
    (callCount Call.WFS_ConfigureCam (main K E fuel (St.init file rn)).st.trace ≠ 0 →
      (main K E fuel (St.init file rn)).returned = true →
      (printed "\nEnter Highspeed Mode 0/1?" (main K E fuel (St.init file rn)).st.trace ≠ [] ↔
        isWfs10or20 (main K E fuel (St.init file rn)).st.selected_id) ∧
      (printed "\nEnter Highspeed Mode 0/1?" (main K E fuel (St.init file rn)).st.trace ≠ [] ↔
        printed "\n\nConfigure WFS camera with resolution index %d (%d x %d pixels).\n"
          (main K E fuel (St.init file rn)).st.trace = [])) := by
  have hinit : (St.init file rn : St F).trace = [] := rfl
  rcases main_passes K E fuel (St.init file rn) with
    ⟨s1, ⟨-, ev0, htr0, hplain0⟩, hrun⟩ | ⟨⟨-, ev0, htr0, hplain0⟩, -⟩
  · obtain ⟨evs, hT, hid, hcc, hbr, hret, hdis⟩ := session_highspeed K E h0 fuel s1
    have h0B := plain_printed ev0 hplain0 _ (Or.inr rfl)
    have h0P := plain_printed ev0 hplain0 _ (Or.inl rfl)
    have h0S := plain_callCount ev0 hplain0 Call.WFS_SetHighspeedMode (by simp)
    have h0G := plain_callCount ev0 hplain0 Call.WFS_GetHighspeedWindows (by simp)
    rw [hinit, List.nil_append] at htr0
    rw [hrun, hT, hid, htr0]
    have hdis2 : (printed "\nEnter Highspeed Mode 0/1?" (ev0 ++ evs) = [] ∧
        callCount Call.WFS_SetHighspeedMode (ev0 ++ evs) = 0 ∧
        callCount Call.WFS_GetHighspeedWindows (ev0 ++ evs) = 0) ∨
      (isWfs10or20 s1.selected_id ∧ ∃ pre a rest,
        ev0 ++ evs = pre ++ Event.printf "\nEnter Highspeed Mode 0/1?" [] :: Event.fflush ::
            Event.getchar a :: rest ∧
        printed "\nEnter Highspeed Mode 0/1?" pre = [] ∧
        printed "\nEnter Highspeed Mode 0/1?" rest = [] ∧
        callCount Call.WFS_SetHighspeedMode pre = 0 ∧
        callCount Call.WFS_GetHighspeedWindows pre = 0 ∧
        callCount Call.WFS_SetHighspeedMode rest = (if a = 49 then 1 else 0) ∧
        callCount Call.WFS_GetHighspeedWindows rest = (if a = 49 then 1 else 0)) := by
      rcases hdis with ⟨h1, h2, h3⟩ | ⟨hb, pre, a, rest, he, h1, h2, h3, h4, h5, h6⟩
      · exact Or.inl ⟨by simp [printed_append, h0P, h1], by simp [callCount_append, h0S, h2],
          by simp [callCount_append, h0G, h3]⟩
      · exact Or.inr ⟨hb, ev0 ++ pre, a, rest, by rw [he, List.append_assoc],
          by simp [printed_append, h0P, h1], h2, by simp [callCount_append, h0S, h3],
          by simp [callCount_append, h0G, h4], h5, h6⟩
    refine ⟨?_, hdis2, ?_, ?_⟩
    · intro hb
      rcases hdis2 with ⟨h1, h2, h3⟩ | ⟨hb2, -⟩
      · exact ⟨h2, h3, h1⟩
      · exact absurd hb2 hb
    · intro _
      simpa [printed_append, h0B] using hbr
    · intro _ hr
      have hp : printed "\nEnter Highspeed Mode 0/1?" (ev0 ++ evs) ≠ [] ↔
          isWfs10or20 s1.selected_id := by
        simpa [printed_append, h0P] using hret hr
      have hb : printed "\n\nConfigure WFS camera with resolution index %d (%d x %d pixels).\n"
          (ev0 ++ evs) ≠ [] ↔ ¬ isWfs10or20 s1.selected_id := by
        simpa [printed_append, h0B] using hbr
      refine ⟨hp, hp.trans ?_⟩
      constructor
      · intro hw
        by_contra hne
        exact (hb.mp hne) hw
      · intro he
        by_contra hn
        exact (hb.mpr hn) he
  · have h0B := plain_printed ev0 hplain0 _ (Or.inr rfl)
    have h0P := plain_printed ev0 hplain0 _ (Or.inl rfl)
    have h0S := plain_callCount ev0 hplain0 Call.WFS_SetHighspeedMode (by simp)
    have h0G := plain_callCount ev0 hplain0 Call.WFS_GetHighspeedWindows (by simp)
    have h0C := plain_callCount ev0 hplain0 Call.WFS_ConfigureCam (by simp)
    rw [hinit, List.nil_append] at htr0
    rw [htr0]
    exact ⟨fun _ => ⟨h0S, h0G, h0P⟩, Or.inl ⟨h0P, h0S, h0G⟩, fun h => absurd h0C h,
      fun h => absurd h0C h⟩

set_option maxRecDepth 100000 in
/-- C9 at concrete stand-ins: with the WFS10 id 256 and the answer `1` the run configures the
camera, gets to the end, and the prompt was printed; with the id 1 the two highspeed functions
are not called and the prompt is not printed. -/
theorem highspeed_only_for_wfs10_wfs20_witness :
    ((printed "\nEnter Highspeed Mode 0/1?"
        (main demoConsts (listEnv [(256, "USB::256")] "256\n" 49) 1
          (St.init none "")).st.trace ≠ [] ↔
      isWfs10or20 (main demoConsts (listEnv [(256, "USB::256")] "256\n" 49) 1
        (St.init none "")).st.selected_id) ∧
     (printed "\nEnter Highspeed Mode 0/1?"
        (main demoConsts (listEnv [(256, "USB::256")] "256\n" 49) 1
          (St.init none "")).st.trace ≠ [] ↔
      printed "\n\nConfigure WFS camera with resolution index %d (%d x %d pixels).\n"
        (main demoConsts (listEnv [(256, "USB::256")] "256\n" 49) 1
          (St.init none "")).st.trace = [])) ∧
    (callCount Call.WFS_SetHighspeedMode
        (main demoConsts (demoEnv none 0 0 48 768) 1 (St.init none "")).st.trace = 0 ∧
      callCount Call.WFS_GetHighspeedWindows
        (main demoConsts (demoEnv none 0 0 48 768) 1 (St.init none "")).st.trace = 0 ∧
      printed "\nEnter Highspeed Mode 0/1?"
        (main demoConsts (demoEnv none 0 0 48 768) 1 (St.init none "")).st.trace = []) :=
  ⟨(highspeed_only_for_wfs10_wfs20 demoConsts (listEnv [(256, "USB::256")] "256\n" 49)
      (listEnv_allZero _ _ _) 1 none "").2.2.2 (by decide!) (by decide!),
   (highspeed_only_for_wfs10_wfs20 demoConsts (demoEnv none 0 0 48 768)
      (demoEnv_allZero 0 48 768) 1 none "").1 (by decide!)⟩

/-- C10: with a driver stand-in whose every call answers 0 and a well exposed image, the
one-shot measurement phase issues exactly these driver calls, in this order, each once:
`WFS_GetSpotfieldImage`, `WFS_CalcSpotsCentrDiaIntens`, `WFS_GetSpotCentroids`,
`WFS_CalcBeamCentroidDia`, `WFS_CalcSpotToReferenceDeviations`, `WFS_GetSpotDeviations`,
`WFS_CalcWavefront`, `WFS_CalcWavefrontStatistics`, `WFS_ZernikeLsf`; for every device id and
all data the driver returns. -/
theorem measurement_call_order (K : Consts) (E : Env F) (h0 : AllZero E) (s : St F)
    (hexp : badExposure K s.status = false) :
    ∃ evs, (do quality_gate K E; measure K E) s = Res.ok () { s with trace := s.trace ++ evs } ∧
      calls evs =
        [Call.WFS_GetSpotfieldImage, Call.WFS_CalcSpotsCentrDiaIntens, Call.WFS_GetSpotCentroids,
         Call.WFS_CalcBeamCentroidDia, Call.WFS_CalcSpotToReferenceDeviations,
         Call.WFS_GetSpotDeviations, Call.WFS_CalcWavefront, Call.WFS_CalcWavefrontStatistics,
         Call.WFS_ZernikeLsf] := by
  rw [bind_ok (quality_gate_pass K E s hexp)]
  simp [measure, check_run E h0, call, handle_errors, h0 _ _ _, print_grid_run,
    print_zernike_run, ↓bind_run, ↓ite_run, pure_run, getSt, printf, emit, getchar, keep, fflush,
    callCount_append, callCount_cons, callCount_nil, Event.callOf, List.countP_append,
    List.countP_cons, Event.isGetchar, callCount_rowEvents, countP_rowEvents, calls_append,
    calls_cons, calls_nil, calls_rowEvents]
  exact calls_map_printf _ (fun _ => "  %2d         %9.3f\n") _

/-- C10 at a concrete stand-in. -/
theorem measurement_call_order_witness :
    ∃ evs, (do quality_gate demoConsts (demoEnv none 0 0 48 768)
               measure demoConsts (demoEnv none 0 0 48 768)) (St.init none "") =
        Res.ok () { (St.init none "" : St Int) with
          trace := (St.init none "" : St Int).trace ++ evs } ∧
      calls evs =
        [Call.WFS_GetSpotfieldImage, Call.WFS_CalcSpotsCentrDiaIntens, Call.WFS_GetSpotCentroids,
         Call.WFS_CalcBeamCentroidDia, Call.WFS_CalcSpotToReferenceDeviations,
         Call.WFS_GetSpotDeviations, Call.WFS_CalcWavefront, Call.WFS_CalcWavefrontStatistics,
         Call.WFS_ZernikeLsf] :=
  measurement_call_order demoConsts (demoEnv none 0 0 48 768) (demoEnv_allZero 0 48 768)
    (St.init none "") rfl

/-- C11 (amended): once entered, the logging loop runs its body at least once; each round
opens the file, writes and closes it, and then polls the keyboard exactly once, reading the
key if the poll reports one.  The loop ends after the first round whose key value is
`VAL_ESC_VKEY`, where the key value of a round is the key read by `GetKey` when the poll
reported a key press, and 0 otherwise; a key press with another key does not end it.  For every
sequence of poll results and keys the number of rounds is the position of the first round
whose key value is `VAL_ESC_VKEY` (with `fuel + 1` rounds allowed: that position if it is at
most `fuel + 1`, and the loop is still running after `fuel + 1` rounds otherwise); when
`VAL_ESC_VKEY` is not 0 the poll of that last round reported a key press. -/
theorem logging_loop_ends_at_first_escape (K : Consts) (E : Env F) (h0 : AllZero E)
    (fuel : Nat) (s : St F) :
    ∃ evs fl,
      log_loop K E (fuel + 1) s =
        (if K.VAL_ESC_VKEY ∈ roundKeys E (fuel + 1) (s.trace.countP Event.isKeyHit)
            (s.trace.countP Event.isGetKey)
          then Res.ok () { s with trace := s.trace ++ evs, file := fl }
          else Res.spin { s with trace := s.trace ++ evs, file := fl }) ∧
      1 ≤ evs.countP Event.isKeyHit ∧
      evs.countP Event.isKeyHit =
        min (fuel + 1) ((roundKeys E (fuel + 1) (s.trace.countP Event.isKeyHit)
          (s.trace.countP Event.isGetKey)).indexOf K.VAL_ESC_VKEY + 1) ∧
      evs.filterMap Event.mark =
        (List.range (evs.countP Event.isKeyHit)).flatMap (fun j =>
          roundMarks E (s.trace.countP Event.isFopen + j) (s.trace.countP Event.isKeyHit + j)) ∧
      (K.VAL_ESC_VKEY ≠ 0 →
        K.VAL_ESC_VKEY ∈ roundKeys E (fuel + 1) (s.trace.countP Event.isKeyHit)
          (s.trace.countP Event.isGetKey) →
        E.keyHit (s.trace.countP Event.isKeyHit +
          (roundKeys E (fuel + 1) (s.trace.countP Event.isKeyHit)
            (s.trace.countP Event.isGetKey)).indexOf K.VAL_ESC_VKEY) ≠ 0) := by
  obtain ⟨evs, fl, hrun, hcnt, hmarks⟩ := log_loop_run K E h0 (fuel + 1) s
  refine ⟨evs, fl, hrun, ?_, hcnt, hmarks, ?_⟩
  · rw [hcnt]
    omega
  · intro hne hmem
    exact roundKeys_pressed E _ _ _ _ _ (List.getElem?_indexOf hmem) hne

/-- C11 (amended) at a concrete stand-in: the keys `A` and escape are pressed, the loop ends
after two rounds. -/
theorem logging_loop_ends_at_first_escape_witness :
    ∃ evs fl, log_loop demoConsts (keysEnv [65, 768]) (4 + 1) (St.init (some []) "") =
        Res.ok () { (St.init (some []) "" : St Int) with
          trace := (St.init (some []) "" : St Int).trace ++ evs, file := fl } ∧
      evs.countP Event.isKeyHit = 2 := by
  obtain ⟨evs, fl, hrun, -, hcnt, -⟩ := logging_loop_ends_at_first_escape demoConsts
    (keysEnv [65, 768]) (keysEnv_allZero _) 4 (St.init (some []) "")
  refine ⟨evs, fl, ?_, ?_⟩
  · rw [hrun, if_pos (by decide)]
  · rw [hcnt]
    decide

set_option maxRecDepth 100000 in
/-- C11 as stated fails: the user presses the key `A` (65) before the first poll and the
escape key before the second.  The first poll reports a key press, and the loop runs a second
round all the same: two polls, both reporting a key, and the program then ends normally.  The
number of rounds (2) is not the position of the first poll that reports a key press (1). -/
theorem any_other_key_press_does_not_end_logging :
    (main demoConsts (keysEnv [65, 768]) 5 (St.init none "")).returned = true ∧
    keyHits (main demoConsts (keysEnv [65, 768]) 5 (St.init none "")).st.trace = [1, 1] ∧
    keysRead (main demoConsts (keysEnv [65, 768]) 5 (St.init none "")).st.trace = [65, 768] ∧
    ¬ (keyHits (main demoConsts (keysEnv [65, 768]) 5 (St.init none "")).st.trace).length =
      (keyHits (main demoConsts (keysEnv [65, 768]) 5 (St.init none "")).st.trace).findIdx
        (fun r => decide (r ≠ 0)) + 1 := by
  decide!

set_option maxRecDepth 100000 in
/-- C12 (fails on the code): the driver lists two instruments, id 1 at "USB::1" and id 2 at
"USB::2", and the user enters 7.  No listed instrument has device id 7, yet
`select_instrument` returns the selection 7 and leaves the resource name of the instrument
listed last, "USB::2"; `main` prints it as the resource name of the selected instrument and
opens it with `WFS_init`, keeping 7 as `instr.selected_id`.  When the user enters 1 the loop
leaves at the matching instrument and the resource name is "USB::1". -/
theorem unlisted_selection_gets_last_resource_name :
    (select_instrument demoConsts (listEnv [(1, "USB::1"), (2, "USB::2")] "7\n" 48)
      (St.init none "")).value = some 7 ∧
    (select_instrument demoConsts (listEnv [(1, "USB::1"), (2, "USB::2")] "7\n" 48)
      (St.init none "")).st.resourceName = "USB::2" ∧
    (∀ d ∈ [((1 : Int), "USB::1"), (2, "USB::2")], d.1 ≠ 7) ∧
    printed "\nResource name of selected WFS: %s\n"
      (main demoConsts (listEnv [(1, "USB::1"), (2, "USB::2")] "7\n" 48) 1
        (St.init none "")).st.trace = [[Arg.str "USB::2"]] ∧
    callArgs Call.WFS_init (main demoConsts (listEnv [(1, "USB::1"), (2, "USB::2")] "7\n" 48) 1
      (St.init none "")).st.trace = [[Arg.str "USB::2", Arg.int 0, Arg.int 0]] ∧
    (main demoConsts (listEnv [(1, "USB::1"), (2, "USB::2")] "7\n" 48) 1
      (St.init none "")).st.selected_id = 7 ∧
    (select_instrument demoConsts (listEnv [(1, "USB::1"), (2, "USB::2")] "1\n" 48)
      (St.init none "")).value = some 1 ∧
    (select_instrument demoConsts (listEnv [(1, "USB::1"), (2, "USB::2")] "1\n" 48)
      (St.init none "")).st.resourceName = "USB::1" := by
  decide!

set_option maxRecDepth 100000 in
/-- C13 (fails on the code): in a run in which `WFS_ZernikeLsf` stores `i` in every element
`zernike_um[i]`, the values of the console Zernike printout and of the Zernike lines of the log
file are 0, 1, ..., 9: the elements read are those with index 0 to 9.  Index 0 is read, and it
is outside the documented range 1 .. `MAX_ZERNIKE_MODES` whatever `MAX_ZERNIKE_MODES` is. -/
theorem zernike_um_is_read_from_index_zero :
    (main demoConsts (indexEnv 49 768) 1 (St.init none "")).returned = true ∧
    fltArgs (printed "  %2d         %9.3f\n"
      (main demoConsts (indexEnv 49 768) 1 (St.init none "")).st.trace) =
      [0, 1, 2, 3, 4, 5, 6, 7, 8, 9] ∧
    fltArgs ((((main demoConsts (indexEnv 49 768) 1 (St.init none "")).st.file).getD []).filterMap
      (fun l => if l.1 = "%2d    %8.3f\n" then some l.2 else none)) =
      [0, 1, 2, 3, 4, 5, 6, 7, 8, 9] ∧
    (∀ MAX_ZERNIKE_MODES : Int,
      ¬ ∀ i ∈ fltArgs (printed "  %2d         %9.3f\n"
          (main demoConsts (indexEnv 49 768) 1 (St.init none "")).st.trace),
        documentedZernikeIndex MAX_ZERNIKE_MODES i) ∧
    (∀ MAX_ZERNIKE_MODES : Int,
      ¬ ∀ i ∈ fltArgs ((((main demoConsts (indexEnv 49 768) 1
          (St.init none "")).st.file).getD []).filterMap
          (fun l => if l.1 = "%2d    %8.3f\n" then some l.2 else none)),
        documentedZernikeIndex MAX_ZERNIKE_MODES i) := by
  have h : (main demoConsts (indexEnv 49 768) 1 (St.init none "")).returned = true ∧
      fltArgs (printed "  %2d         %9.3f\n"
        (main demoConsts (indexEnv 49 768) 1 (St.init none "")).st.trace) =
        [0, 1, 2, 3, 4, 5, 6, 7, 8, 9] ∧
      fltArgs ((((main demoConsts (indexEnv 49 768) 1
        (St.init none "")).st.file).getD []).filterMap
        (fun l => if l.1 = "%2d    %8.3f\n" then some l.2 else none)) =
        [0, 1, 2, 3, 4, 5, 6, 7, 8, 9] := by
    decide!
  refine ⟨h.1, h.2.1, h.2.2, ?_, ?_⟩
  · intro M hall
    have h0 := hall 0 (by rw [h.2.1]; decide)
    exact absurd h0.1 (by decide)
  · intro M hall
    have h0 := hall 0 (by rw [h.2.2]; decide)
    exact absurd h0.1 (by decide)

/-- C14: the table `zernike_modes` has 11 entries, for the orders 0 to 10; the entry for order
`n` is `(n+1)(n+2)/2`, the number of Zernike modes up to that order (the product is even, the
division is exact); the entries increase strictly; the last entry is 66; the entry for the
configured order `SAMPLE_ZERNIKE_ORDERS = 3` is 10. -/
theorem zernike_modes_counts_modes_up_to_order (n : Nat) (hn : n ≤ 10) :
    zernike_modes.length = 11 ∧
    tableAt zernike_modes n = (((n + 1) * (n + 2) / 2 : Nat) : Int) ∧
    2 * tableAt zernike_modes n = (((n + 1) * (n + 2) : Nat) : Int) ∧
    (∀ m : Nat, m < n → tableAt zernike_modes m < tableAt zernike_modes n) ∧
    List.Pairwise (fun a b => a < b) zernike_modes ∧
    zernike_modes.getLast? = some 66 ∧
    tableAt zernike_modes 10 = 66 ∧
    tableAt zernike_modes SAMPLE_ZERNIKE_ORDERS = 10 := by
  revert n
  decide

/-- C14 at the configured order 3. -/
theorem zernike_modes_counts_modes_up_to_order_witness :
    zernike_modes.length = 11 ∧
    tableAt zernike_modes (3 : Nat) = (((3 + 1) * (3 + 2) / 2 : Nat) : Int) ∧
    2 * tableAt zernike_modes (3 : Nat) = (((3 + 1) * (3 + 2) : Nat) : Int) ∧
    (∀ m : Nat, m < 3 → tableAt zernike_modes m < tableAt zernike_modes (3 : Nat)) ∧
    List.Pairwise (fun a b => a < b) zernike_modes ∧
    zernike_modes.getLast? = some 66 ∧
    tableAt zernike_modes 10 = 66 ∧
    tableAt zernike_modes SAMPLE_ZERNIKE_ORDERS = 10 :=
  zernike_modes_counts_modes_up_to_order 3 (by decide)

set_option maxRecDepth 100000 in
/-- C15 (fails on the code): with the selected device id 768 = 0x300, which has the WFS10 bit
and the WFS20 bit, the WFS10 branch and the WFS20 branch both run: `WFS_ConfigureCam` is called
twice, first with the resolution `CAM_RES_WFS10_360` and then with `CAM_RES_WFS20_512`.  With
the ids 256, 512 and 1 it is called once. -/
theorem id_with_both_family_bits_configures_camera_twice :
    callArgs Call.WFS_ConfigureCam
      (main demoConsts (listEnv [(768, "USB::768")] "768\n" 48) 1 (St.init none "")).st.trace =
      [[Arg.int 1, Arg.int demoConsts.PIXEL_FORMAT_MONO8, Arg.int demoConsts.CAM_RES_WFS10_360],
       [Arg.int 1, Arg.int demoConsts.PIXEL_FORMAT_MONO8, Arg.int demoConsts.CAM_RES_WFS20_512]] ∧
    callCount Call.WFS_ConfigureCam
      (main demoConsts (listEnv [(768, "USB::768")] "768\n" 48) 1 (St.init none "")).st.trace
      = 2 ∧
    (printed "\n\nConfigure WFS camera with resolution index %d (%d x %d pixels).\n"
      (main demoConsts (listEnv [(768, "USB::768")] "768\n" 48) 1
        (St.init none "")).st.trace).length = 0 ∧
    (printed "\n\nConfigure WFS10 camera with resolution index %d (%d x %d pixels).\n"
      (main demoConsts (listEnv [(768, "USB::768")] "768\n" 48) 1
        (St.init none "")).st.trace).length = 1 ∧
    (printed "\n\nConfigure WFS20 camera with resolution index %d (%d x %d pixels).\n"
      (main demoConsts (listEnv [(768, "USB::768")] "768\n" 48) 1
        (St.init none "")).st.trace).length = 1 ∧
    (printed "Camera is configured to detect %d x %d lenslet spots.\n\n"
      (main demoConsts (listEnv [(768, "USB::768")] "768\n" 48) 1
        (St.init none "")).st.trace).length = 1 ∧
    (main demoConsts (listEnv [(768, "USB::768")] "768\n" 48) 1
      (St.init none "")).returned = true ∧
    callCount Call.WFS_ConfigureCam
      (main demoConsts (listEnv [(256, "USB::256")] "256\n" 48) 1 (St.init none "")).st.trace
      = 1 ∧
    callCount Call.WFS_ConfigureCam
      (main demoConsts (listEnv [(512, "USB::512")] "512\n" 48) 1 (St.init none "")).st.trace
      = 1 ∧
    callCount Call.WFS_ConfigureCam
      (main demoConsts (listEnv [(1, "USB::1")] "1\n" 48) 1 (St.init none "")).st.trace = 1 := by
  decide!

end Properties

end WFS
